import Mathlib

/-!
# Stockpick: the scoring engine, the store and the request handlers

A shallow embedding of `backend/pkg/undervaluation/calculator.go` and of the
record types of `backend/pkg/models/models.go` it consumes, followed by the
store (`backend/pkg/database/db.go`) and the ingestion and scan handlers of
`backend/main.go`.

Modelling conventions
* Go `float64` values are rationals (`ℚ`), and the calculator is given twice.
  `CalculateUndervaluation` carries out every comparison and every arithmetic
  step exactly; it serves the claims on which rounding has no bearing (the
  input check, the branches taken on the raw fields, the range of the
  composite, the handlers).  `CalculateUndervaluation64` rounds every constant
  and every arithmetic step to binary64 (round to nearest, ties to even, each
  operation on its own); it serves the claims that state a literal value, a
  bound, an identity between computed values or a tier of the computed upside.
  The non-finite values of `float64` (NaN, infinities), overflow and
  subnormal numbers are outside both models.
* Go `int`, `int64` and `time.Time` (as an instant) are modelled as `Int`.
* A Go slice is a `List`; a possibly-nil pointer `*models.Stock` is an
  `Option models.Stock`; a `(value, error)` result is an `Except String`.
-/

set_option autoImplicit false
set_option linter.dupNamespace false

namespace models

/-- A value of the external `uuid.UUID` type, carried by its canonical text
form (the text its `String()` method returns). -/
structure UUID where
  text : String
deriving DecidableEq, Repr

/-- The `String()` method of `uuid.UUID`. -/
def UUID.String (u : UUID) : String := u.text

/-- Stock represents a stock in the database. -/
structure Stock where
  StockID : UUID
  Symbol : String
  CompanyName : String
  Exchange : String
  Sector : String
  Industry : String
  Currency : String
  IsActive : Bool
  CreatedAt : Int
  UpdatedAt : Int
deriving DecidableEq, Repr

/-- FinancialStatement represents annual or quarterly financial data. -/
structure FinancialStatement where
  StatementID : UUID
  StockID : UUID
  Date : Int
  Period : String
  Revenue : ℚ
  NetIncome : ℚ
  EPS : ℚ
  TotalAssets : ℚ
  TotalLiabilities : ℚ
  TotalEquity : ℚ
  FreeCashFlow : ℚ
  DebtToEquityRatio : ℚ
  PERatio : ℚ
  PBRatio : ℚ
  ROIC : ℚ
  CreatedAt : Int
  UpdatedAt : Int
deriving DecidableEq, Repr

/-- AnalystTarget represents aggregated analyst consensus data. -/
structure AnalystTarget where
  TargetID : UUID
  StockID : UUID
  Date : Int
  ConsensusPriceTarget : ℚ
  HighPriceTarget : ℚ
  LowPriceTarget : ℚ
  ConsensusRating : String
  ConsensusRatingValue : ℚ
  BuyRatingsCount : Int
  HoldRatingsCount : Int
  SellRatingsCount : Int
  TotalAnalystsContributing : Int
  CreatedAt : Int
  UpdatedAt : Int
deriving DecidableEq, Repr

/-- SentimentScore represents social media sentiment data. -/
structure SentimentScore where
  SentimentID : UUID
  StockID : UUID
  Timestamp : Int
  AbsoluteIndex : ℚ
  RelativeIndex : ℚ
  SentimentScore : ℚ
  GeneralPerception : String
  Source : String
  CreatedAt : Int
  UpdatedAt : Int
deriving DecidableEq, Repr

end models

namespace undervaluation

open models

/-- UndervaluationScore represents the calculated undervaluation score for a
stock. -/
structure UndervaluationScore where
  StockID : String
  Symbol : String
  Score : ℚ
  FundamentalScore : ℚ
  AnalystScore : ℚ
  SentimentScore : ℚ
deriving DecidableEq, Repr

/-- The error text of the input check of `CalculateUndervaluation`. -/
def invalidInput : String := "invalid input: stock or latest price is missing"

/-- The local `fundamentalScore` of `CalculateUndervaluation` as it stands
after the "Fundamental Analysis Score" block (calculator.go lines 35-65). -/
def fundamentalScore (financialStatements : List FinancialStatement) : ℚ :=
  match financialStatements with
  | [] => 0.0
  | latestFS :: _ =>
    let s0 : ℚ := 0.0
    let s1 : ℚ :=
      if latestFS.PERatio > 0 then
        if latestFS.PERatio < 10 then s0 + 0.3
        else if latestFS.PERatio < 20 then s0 + 0.15
        else s0
      else s0
    let s2 : ℚ := if latestFS.EPS > 0 then s1 + 0.2 else s1
    let s3 : ℚ := if latestFS.ROIC > 0.15 then s2 + 0.2 else s2
    let s4 : ℚ := if latestFS.FreeCashFlow > 0 then s3 + 0.15 else s3
    s4

/-- The local `analystScore` of `CalculateUndervaluation` as it stands after
the "Analyst Consensus Score" block (calculator.go lines 67-88). -/
def analystScore (latestPrice : ℚ) (analystTargets : List AnalystTarget) : ℚ :=
  match analystTargets with
  | [] => 0.0
  | latestAT :: _ =>
    let s0 : ℚ := 0.0
    let s1 : ℚ :=
      if latestAT.ConsensusPriceTarget > 0 ∧ latestPrice > 0 then
        let upside : ℚ := (latestAT.ConsensusPriceTarget - latestPrice) / latestPrice
        if upside > 0.20 then s0 + 0.4
        else if upside > 0.10 then s0 + 0.2
        else s0
      else s0
    let s2 : ℚ :=
      if latestAT.ConsensusRatingValue ≥ 4.0 then s1 + 0.3
      else if latestAT.ConsensusRatingValue ≥ 3.0 then s1 + 0.15
      else s1
    s2

/-- The local `normalizedSentiment` of `CalculateUndervaluation`
(calculator.go lines 97-100). -/
def normalizedSentiment (latestSS : SentimentScore) : ℚ :=
  if latestSS.SentimentScore > 1 then latestSS.SentimentScore / 100.0
  else latestSS.SentimentScore

/-- The local `sentimentScore` of `CalculateUndervaluation` as it stands after
the "Sentiment Analysis Score" block (calculator.go lines 90-112). -/
def sentimentScore (sentimentScores : List SentimentScore) : ℚ :=
  match sentimentScores with
  | [] => 0.0
  | latestSS :: _ =>
    let s0 : ℚ := 0.0
    let s1 : ℚ :=
      if normalizedSentiment latestSS > 0.7 then s0 + 0.2
      else if normalizedSentiment latestSS > 0.5 then s0 + 0.1
      else s0
    let s2 : ℚ := if latestSS.AbsoluteIndex > 100000 then s1 + 0.1 else s1
    s2

/-- The weights of the composite (calculator.go lines 116-120). -/
def FundamentalWeight : ℚ := 0.50

/-- The weight of the analyst sub-score. -/
def AnalystWeight : ℚ := 0.30

/-- The weight of the sentiment sub-score. -/
def SentimentWeight : ℚ := 0.20

/-- The local `compositeScore` before the cap (calculator.go lines 122-126). -/
def compositeScore (f a s : ℚ) : ℚ :=
  (f * FundamentalWeight + a * AnalystWeight + s * SentimentWeight) * 100

/-- CalculateUndervaluation calculates a composite undervaluation score for a
stock (calculator.go lines 22-139). -/
def CalculateUndervaluation (stock : Option Stock) (latestPrice : ℚ)
    (financialStatements : List FinancialStatement)
    (analystTargets : List AnalystTarget)
    (sentimentScores : List SentimentScore) : Except String UndervaluationScore :=
  match stock with
  | none => Except.error invalidInput
  | some st =>
    if latestPrice = 0 then Except.error invalidInput
    else
      let f := fundamentalScore financialStatements
      let a := analystScore latestPrice analystTargets
      let s := sentimentScore sentimentScores
      Except.ok
        { StockID := st.StockID.String
          Symbol := st.Symbol
          Score := min (compositeScore f a s) 100.0
          FundamentalScore := f * 100
          AnalystScore := a * 100
          SentimentScore := s * 100 }

end undervaluation

/-! ## Concrete inputs: the worked scenario of the specification -/

namespace undervaluation

open models

/-- A security record used as a concrete input. -/
def scenarioStock : Stock :=
  { StockID := { text := "00000000-0000-0000-0000-000000000001" }
    Symbol := "ACME"
    CompanyName := "Acme Corp"
    Exchange := "NYSE"
    Sector := "Industrials"
    Industry := "Machinery"
    Currency := "USD"
    IsActive := true
    CreatedAt := 0
    UpdatedAt := 0 }

/-- A statement with the given P/E, EPS, ROIC and free cash flow, the other
fields being zero. -/
def mkStatement (pe eps roic fcf : ℚ) : FinancialStatement :=
  { StatementID := { text := "" }
    StockID := scenarioStock.StockID
    Date := 0
    Period := "annual"
    Revenue := 0
    NetIncome := 0
    EPS := eps
    TotalAssets := 0
    TotalLiabilities := 0
    TotalEquity := 0
    FreeCashFlow := fcf
    DebtToEquityRatio := 0
    PERatio := pe
    PBRatio := 0
    ROIC := roic
    CreatedAt := 0
    UpdatedAt := 0 }

/-- An analyst target with the given consensus price target and rating value,
the other fields being zero. -/
def mkTarget (target rating : ℚ) : AnalystTarget :=
  { TargetID := { text := "" }
    StockID := scenarioStock.StockID
    Date := 0
    ConsensusPriceTarget := target
    HighPriceTarget := 0
    LowPriceTarget := 0
    ConsensusRating := ""
    ConsensusRatingValue := rating
    BuyRatingsCount := 0
    HoldRatingsCount := 0
    SellRatingsCount := 0
    TotalAnalystsContributing := 0
    CreatedAt := 0
    UpdatedAt := 0 }

/-- A sentiment sample with the given sentiment value and absolute index, the
other fields being zero. -/
def mkSentiment (value absoluteIndex : ℚ) : SentimentScore :=
  { SentimentID := { text := "" }
    StockID := scenarioStock.StockID
    Timestamp := 0
    AbsoluteIndex := absoluteIndex
    RelativeIndex := 0
    SentimentScore := value
    GeneralPerception := ""
    Source := "Overall"
    CreatedAt := 0
    UpdatedAt := 0 }

/-- The statement of the worked scenario: P/E 8, EPS 2.0, ROIC 0.20, FCF 500. -/
def scenarioStatement : FinancialStatement := mkStatement 8 2.0 0.20 500

/-- The target of the worked scenario: consensus target 130, rating 4.2. -/
def scenarioTarget : AnalystTarget := mkTarget 130 4.2

/-- The sentiment sample of the worked scenario: value 0.8, index 150000. -/
def scenarioSentiment : SentimentScore := mkSentiment 0.8 150000

end undervaluation

/-! ## The sub-scores as the specification words them

These definitions follow the sentences of the specification (section 4.2),
not the code; the theorems below compare them with the definitions above. -/

namespace undervaluation

open models

/-- Specification wording: "P/E ratio > 0 and < 10 → +0.30; else P/E ratio in
[10,20) → +0.15; else (including P/E ≤ 0 or ≥ 20) → +0". -/
def specPEContribution (pe : ℚ) : ℚ :=
  if 0 < pe ∧ pe < 10 then 0.30
  else if 10 ≤ pe ∧ pe < 20 then 0.15
  else 0

/-- Specification wording: "EPS > 0 → +0.20". -/
def specEPSContribution (eps : ℚ) : ℚ := if eps > 0 then 0.20 else 0

/-- Specification wording: "Return on invested capital > 0.15 → +0.20". -/
def specROICContribution (roic : ℚ) : ℚ := if roic > 0.15 then 0.20 else 0

/-- Specification wording: "Free cash flow > 0 → +0.15". -/
def specFCFContribution (fcf : ℚ) : ℚ := if fcf > 0 then 0.15 else 0

/-- Specification wording of the fundamental sub-score of a statement: the sum
of the four independent contributions. -/
def specFundamental (st : FinancialStatement) : ℚ :=
  specPEContribution st.PERatio + specEPSContribution st.EPS +
    specROICContribution st.ROIC + specFCFContribution st.FreeCashFlow

/-- Specification wording: "upside = (consensusTarget − latestPrice) /
latestPrice". -/
def specUpside (consensusTarget latestPrice : ℚ) : ℚ :=
  (consensusTarget - latestPrice) / latestPrice

/-- Specification wording: the upside is "computed only if consensusTarget >
0"; "upside > 0.20 → +0.40; else upside > 0.10 → +0.20; else +0". -/
def specUpsideContribution (latestPrice consensusTarget : ℚ) : ℚ :=
  if consensusTarget > 0 then
    if specUpside consensusTarget latestPrice > 0.20 then 0.40
    else if specUpside consensusTarget latestPrice > 0.10 then 0.20
    else 0
  else 0

/-- Specification wording: "consensusRatingValue ≥ 4.0 → +0.30; else ≥ 3.0 →
+0.15; else +0". -/
def specRatingContribution (rating : ℚ) : ℚ :=
  if rating ≥ 4.0 then 0.30
  else if rating ≥ 3.0 then 0.15
  else 0

/-- Specification wording: "if its magnitude exceeds 1, treat it as a 0–100
scale and divide by 100". -/
def specNormalized (v : ℚ) : ℚ := if |v| > 1 then v / 100 else v

/-- Specification wording: "normalized > 0.7 → +0.20; else > 0.5 → +0.10; else
+0". -/
def specSentimentValueContribution (v : ℚ) : ℚ :=
  if specNormalized v > 0.7 then 0.20
  else if specNormalized v > 0.5 then 0.10
  else 0

/-- Specification wording: "absolute discussion-volume index > 100000 → +0.10;
else +0". -/
def specVolumeContribution (x : ℚ) : ℚ := if x > 100000 then 0.10 else 0

end undervaluation

/-! ## The store and the provider records

A shallow embedding of `backend/pkg/database/db.go` and of the record types of
`backend/pkg/fmp/models.go`.  The relational store is a record of tables, each
table a list of rows; every method of `database.DB` is a function of the store
that follows the text of its SQL statement.  A call that the driver fails
(`d.Query`, `d.Exec`, `QueryRow(...).Scan` returning an error) is modelled by
an extra argument `fault`: `some e` is the driver error, and a failed write
leaves the store as it was.  Row-level scan errors do not occur in the model.
`ORDER BY` is a stable sort on the named column; `uuid.New()` and `time.Now()`
are arguments. -/

namespace models

/-- HistoricalPrice represents historical OHLCV data for a stock. -/
structure HistoricalPrice where
  Time : Int
  StockID : UUID
  OpenPrice : ℚ
  HighPrice : ℚ
  LowPrice : ℚ
  ClosePrice : ℚ
  Volume : Int
  VWAP : ℚ
  PriceChange : ℚ
  PctChange : ℚ
deriving DecidableEq, Repr

end models

namespace fmp

/-- HistoricalPriceFMP represents a single historical price entry from FMP
API. -/
structure HistoricalPriceFMP where
  Date : String
  Open : ℚ
  High : ℚ
  Low : ℚ
  Close : ℚ
  Volume : Int
  VWAP : ℚ
  Change : ℚ
  PctChange : ℚ
deriving DecidableEq, Repr

/-- CompanyProfileFMP represents company profile data from FMP API. -/
structure CompanyProfileFMP where
  Symbol : String
  Price : ℚ
  Beta : ℚ
  VolAvg : Int
  MktCap : Int
  LastDiv : ℚ
  Range : String
  Changes : ℚ
  CompanyName : String
  Exchange : String
  Industry : String
  Website : String
  Description : String
  CEO : String
  Sector : String
  Country : String
  FullTimeEmployees : Int
  Phone : String
  Address : String
  City : String
  State : String
  Zip : String
deriving DecidableEq, Repr

end fmp

namespace database

open models

/-- DB represents the database connection: the tables reached through it. -/
structure DB where
  stocks : List Stock
  historical_prices : List HistoricalPrice
  financial_statements : List FinancialStatement
  analyst_targets : List AnalystTarget
  sentiment_scores : List SentimentScore
deriving DecidableEq, Repr

/-- The `DO UPDATE SET` clause of `InsertStock` applied to a stored row: the
six listed columns take the proposed values and `updated_at` becomes `NOW()`;
`stock_id`, `symbol` and `created_at` are kept. -/
def updateStockRow (stock : Stock) (now : Int) (row : Stock) : Stock :=
  { row with
    CompanyName := stock.CompanyName
    Exchange := stock.Exchange
    Sector := stock.Sector
    Industry := stock.Industry
    Currency := stock.Currency
    IsActive := stock.IsActive
    UpdatedAt := now }

/-- InsertStock inserts a new stock into the database (db.go lines 35-54).
The record handed in gets a fresh identifier and the current time; the
statement inserts it, or on a conflict on `symbol` updates the stored row;
`RETURNING stock_id` is scanned back into the record.  The result is the
record as the caller sees it afterwards and the new store. -/
def InsertStock (d : DB) (stock : Stock) (newID : UUID) (now : Int)
    (fault : Option String) : Except String (Stock × DB) :=
  let stock1 : Stock := { stock with StockID := newID, CreatedAt := now, UpdatedAt := now }
  match fault with
  | some e => Except.error ("failed to insert stock: " ++ e)
  | none =>
    match d.stocks.find? (fun row => decide (row.Symbol = stock1.Symbol)) with
    | some row =>
      Except.ok
        ({ stock1 with StockID := row.StockID },
         { d with stocks := d.stocks.map (fun r =>
             if r.Symbol = stock1.Symbol then updateStockRow stock1 now r else r) })
    | none =>
      Except.ok (stock1, { d with stocks := d.stocks ++ [stock1] })

/-- GetStockBySymbol retrieves a stock by its symbol (db.go lines 57-73):
`none` when no row has the symbol. -/
def GetStockBySymbol (d : DB) (symbol : String) (fault : Option String) :
    Except String (Option Stock) :=
  match fault with
  | some e => Except.error ("failed to get stock by symbol: " ++ e)
  | none => Except.ok (d.stocks.find? (fun row => decide (row.Symbol = symbol)))

/-- GetAllStocks retrieves all stocks from the database, `ORDER BY symbol ASC`
(db.go lines 76-104). -/
def GetAllStocks (d : DB) (fault : Option String) : Except String (List Stock) :=
  match fault with
  | some e => Except.error ("failed to query all stocks: " ++ e)
  | none => Except.ok (d.stocks.insertionSort (fun a b => a.Symbol ≤ b.Symbol))

/-- The conflict target `(time, stock_id)` of `InsertHistoricalPrice`. -/
def samePriceKey (price row : HistoricalPrice) : Prop :=
  row.Time = price.Time ∧ row.StockID = price.StockID

instance (price row : HistoricalPrice) : Decidable (samePriceKey price row) := by
  unfold samePriceKey; infer_instance

/-- The `DO UPDATE SET` clause of `InsertHistoricalPrice` applied to a stored
row: the eight listed columns take the proposed values. -/
def updatePriceRow (price row : HistoricalPrice) : HistoricalPrice :=
  { row with
    OpenPrice := price.OpenPrice
    HighPrice := price.HighPrice
    LowPrice := price.LowPrice
    ClosePrice := price.ClosePrice
    Volume := price.Volume
    VWAP := price.VWAP
    PriceChange := price.PriceChange
    PctChange := price.PctChange }

/-- The statement of `InsertHistoricalPrice` on the table: insert the row, or
on a conflict on `(time, stock_id)` update the stored row. -/
def upsertPrice (rows : List HistoricalPrice) (price : HistoricalPrice) :
    List HistoricalPrice :=
  if rows.any (fun row => decide (samePriceKey price row)) then
    rows.map (fun row => if samePriceKey price row then updatePriceRow price row else row)
  else rows ++ [price]

/-- InsertHistoricalPrice inserts a new historical price record (db.go lines
107-120). -/
def InsertHistoricalPrice (d : DB) (price : HistoricalPrice)
    (fault : Option String) : Except String DB :=
  match fault with
  | some e => Except.error ("failed to insert historical price: " ++ e)
  | none => Except.ok { d with historical_prices := upsertPrice d.historical_prices price }

/-- GetHistoricalPrices retrieves historical prices for a stock within a time
range, `ORDER BY time ASC` (db.go lines 123-152). -/
def GetHistoricalPrices (d : DB) (stockID : UUID) (low high : Int)
    (fault : Option String) : Except String (List HistoricalPrice) :=
  match fault with
  | some e => Except.error ("failed to query historical prices: " ++ e)
  | none =>
    Except.ok
      ((d.historical_prices.filter (fun row =>
          decide (row.StockID = stockID ∧ low ≤ row.Time ∧ row.Time ≤ high))).insertionSort
        (fun a b => a.Time ≤ b.Time))

/-- GetFinancialStatements retrieves financial statements for a stock by
period, `ORDER BY date DESC` (db.go lines 180-211). -/
def GetFinancialStatements (d : DB) (stockID : UUID) (period : String)
    (fault : Option String) : Except String (List FinancialStatement) :=
  match fault with
  | some e => Except.error ("failed to query financial statements: " ++ e)
  | none =>
    Except.ok
      ((d.financial_statements.filter (fun row =>
          decide (row.StockID = stockID ∧ row.Period = period))).insertionSort
        (fun a b => a.Date ≥ b.Date))

/-- GetAnalystTargets retrieves analyst targets for a stock, `ORDER BY date
DESC` (db.go lines 239-270). -/
def GetAnalystTargets (d : DB) (stockID : UUID) (fault : Option String) :
    Except String (List AnalystTarget) :=
  match fault with
  | some e => Except.error ("failed to query analyst targets: " ++ e)
  | none =>
    Except.ok
      ((d.analyst_targets.filter (fun row => decide (row.StockID = stockID))).insertionSort
        (fun a b => a.Date ≥ b.Date))

/-- GetSentimentScores retrieves sentiment scores for a stock within a time
range and source, `ORDER BY timestamp ASC` (db.go lines 295-325). -/
def GetSentimentScores (d : DB) (stockID : UUID) (low high : Int) (source : String)
    (fault : Option String) : Except String (List SentimentScore) :=
  match fault with
  | some e => Except.error ("failed to query sentiment scores: " ++ e)
  | none =>
    Except.ok
      ((d.sentiment_scores.filter (fun row =>
          decide (row.StockID = stockID ∧ low ≤ row.Timestamp ∧ row.Timestamp ≤ high
            ∧ row.Source = source))).insertionSort
        (fun a b => a.Timestamp ≤ b.Timestamp))

end database

/-! ## The request handlers

A shallow embedding of `ingestHistoricalPricesHandler` and
`getUndervaluedStocksHandler` of `backend/main.go`.  A handler is a function of
the store before the request and of what its surroundings answer during the
request (provider responses, library functions, driver faults); it returns the
HTTP response, and the ingestion also returns the store afterwards and the
sequence of provider and store calls it made.  `time.Now()` is one instant per
request. -/

namespace App

open models fmp database undervaluation

/-- What a handler writes as the response body. -/
inductive Body where
  | text (s : String)
  | undervalued (scores : List UndervaluationScore)
deriving DecidableEq, Repr

/-- The HTTP response of a handler: status code and body. -/
structure Response where
  status : Nat
  body : Body
deriving DecidableEq, Repr

/-- A call made by the ingestion to the provider or to the store, with its
arguments. -/
inductive Call where
  | fmpGetHistoricalPrices (symbol : String) (low high : Int)
  | dbGetStockBySymbol (symbol : String)
  | fmpGetCompanyProfile (symbol : String)
  | dbInsertStock (stock : Stock)
  | dbInsertHistoricalPrice (price : HistoricalPrice)
deriving DecidableEq, Repr

/-- What the surroundings answer during one ingestion request. -/
structure IngestWorld where
  /-- The instant `time.Now()`. -/
  now : Int
  /-- The library method `Time.AddDate(years, months, days)`. -/
  AddDate : Int → Int → Int → Int → Int
  /-- The library function `time.Parse("2006-01-02", ·)`. -/
  parseDate : String → Except String Int
  /-- The identifier `uuid.New()` returns. -/
  newID : UUID
  /-- The answer of `a.FMP.GetHistoricalPrices`. -/
  fmpPrices : Except String (List HistoricalPriceFMP)
  /-- The answer of `a.FMP.GetCompanyProfile`. -/
  fmpProfiles : Except String (List CompanyProfileFMP)
  /-- The driver fault of `GetStockBySymbol`, if any. -/
  getStockFault : Option String
  /-- The driver fault of `InsertStock`, if any. -/
  insertStockFault : Option String
  /-- The driver fault of `InsertHistoricalPrice` for the bar at a position of
  the fetched sequence, if any. -/
  insertPriceFault : Nat → Option String

/-- The result of an ingestion request. -/
structure Outcome where
  response : Response
  db : DB
  calls : List Call
deriving DecidableEq, Repr

/-- The zero value of `uuid.UUID`. -/
def nilUUID : UUID := { text := "00000000-0000-0000-0000-000000000000" }

/-- The zero value of `time.Time`, as an instant. -/
def zeroTime : Int := -62135596800

/-- The record built from the first profile (main.go lines 98-106); the
fields not listed have their zero values. -/
def newStock (symbol : String) (profile : CompanyProfileFMP) : Stock :=
  { StockID := nilUUID
    Symbol := symbol
    CompanyName := profile.CompanyName
    Exchange := profile.Exchange
    Sector := profile.Sector
    Industry := profile.Industry
    Currency := "USD"
    IsActive := true
    CreatedAt := zeroTime
    UpdatedAt := zeroTime }

/-- The record built from a fetched bar whose date parsed (main.go lines
123-134). -/
def toHistoricalPrice (stockID : UUID) (priceTime : Int) (p : HistoricalPriceFMP) :
    HistoricalPrice :=
  { Time := priceTime
    StockID := stockID
    OpenPrice := p.Open
    HighPrice := p.High
    LowPrice := p.Low
    ClosePrice := p.Close
    Volume := p.Volume
    VWAP := p.VWAP
    PriceChange := p.Change
    PctChange := p.PctChange }

/-- The loop "Insert historical prices into DB" (main.go lines 117-140), from
position `i` of the fetched sequence on: a bar whose date does not parse is
passed over; for the others the record is built and inserted, and an insertion
error is logged and the loop goes on. -/
def insertPrices (w : IngestWorld) (stockID : UUID) :
    Nat → List HistoricalPriceFMP → DB → List Call → DB × List Call
  | _, [], d, calls => (d, calls)
  | i, p :: rest, d, calls =>
    match w.parseDate p.Date with
    | Except.error _ => insertPrices w stockID (i + 1) rest d calls
    | Except.ok priceTime =>
      let hp := toHistoricalPrice stockID priceTime p
      match InsertHistoricalPrice d hp (w.insertPriceFault i) with
      | Except.error _ =>
        insertPrices w stockID (i + 1) rest d (calls ++ [Call.dbInsertHistoricalPrice hp])
      | Except.ok d1 =>
        insertPrices w stockID (i + 1) rest d1 (calls ++ [Call.dbInsertHistoricalPrice hp])

/-- The end of the ingestion once the security is known: the loop over the
fetched bars and the success response (main.go lines 116-143). -/
def ingestBars (w : IngestWorld) (symbol : String) (stock : Stock)
    (fmpPrices : List HistoricalPriceFMP) (d : DB) (calls : List Call) : Outcome :=
  let r := insertPrices w stock.StockID 0 fmpPrices d calls
  { response :=
      { status := 200
        body := Body.text ("Successfully ingested historical prices for " ++ symbol) }
    db := r.1
    calls := r.2 }

/-- The handler `ingestHistoricalPricesHandler` (main.go lines 59-144). -/
def ingestHistoricalPricesHandler (w : IngestWorld) (d : DB) (symbol : String) : Outcome :=
  if symbol = "" then
    { response := { status := 400, body := Body.text "Symbol is required" }
      db := d
      calls := [] }
  else
    let high := w.now
    let low := w.AddDate high (-1) 0 0
    let calls1 := [Call.fmpGetHistoricalPrices symbol low high]
    match w.fmpPrices with
    | Except.error _ =>
      { response := { status := 500, body := Body.text "Failed to fetch historical prices" }
        db := d
        calls := calls1 }
    | Except.ok fmpPrices =>
      let calls2 := calls1 ++ [Call.dbGetStockBySymbol symbol]
      match GetStockBySymbol d symbol w.getStockFault with
      | Except.error _ =>
        { response := { status := 500, body := Body.text "Failed to process stock" }
          db := d
          calls := calls2 }
      | Except.ok (some stock) => ingestBars w symbol stock fmpPrices d calls2
      | Except.ok none =>
        let calls3 := calls2 ++ [Call.fmpGetCompanyProfile symbol]
        match w.fmpProfiles with
        | Except.error _ =>
          { response :=
              { status := 500
                body := Body.text "Failed to get company profile for new stock" }
            db := d
            calls := calls3 }
        | Except.ok [] =>
          { response :=
              { status := 500
                body := Body.text "Failed to get company profile for new stock" }
            db := d
            calls := calls3 }
        | Except.ok (profile :: _) =>
          let stock := newStock symbol profile
          let calls4 := calls3 ++ [Call.dbInsertStock stock]
          match InsertStock d stock w.newID w.now w.insertStockFault with
          | Except.error _ =>
            { response := { status := 500, body := Body.text "Failed to insert new stock" }
              db := d
              calls := calls4 }
          | Except.ok (stock1, d1) => ingestBars w symbol stock1 fmpPrices d1 calls4

/-- What the surroundings answer during one batch scan. -/
structure ScanWorld where
  /-- The instant `time.Now()`. -/
  now : Int
  /-- The library method `Time.AddDate(years, months, days)`. -/
  AddDate : Int → Int → Int → Int → Int
  /-- The driver fault of `GetAllStocks`, if any. -/
  allStocksFault : Option String
  /-- The driver fault of `GetHistoricalPrices` for a security, if any. -/
  pricesFault : UUID → Option String
  /-- The driver fault of `GetFinancialStatements` for a security, if any. -/
  statementsFault : UUID → Option String
  /-- The driver fault of `GetAnalystTargets` for a security, if any. -/
  targetsFault : UUID → Option String
  /-- The driver fault of `GetSentimentScores` for a security, if any. -/
  sentimentFault : UUID → Option String

/-- The statements the scan hands to the calculator for a security (main.go
lines 213-217): the query result, or the empty collection when the read
fails. -/
def scanStatements (w : ScanWorld) (d : DB) (stock : Stock) : List FinancialStatement :=
  match GetFinancialStatements d stock.StockID "annual" (w.statementsFault stock.StockID) with
  | Except.error _ => []
  | Except.ok financialStatements => financialStatements

/-- The analyst targets the scan hands to the calculator for a security
(main.go lines 220-224). -/
def scanTargets (w : ScanWorld) (d : DB) (stock : Stock) : List AnalystTarget :=
  match GetAnalystTargets d stock.StockID (w.targetsFault stock.StockID) with
  | Except.error _ => []
  | Except.ok analystTargets => analystTargets

/-- The sentiment samples the scan hands to the calculator for a security
(main.go lines 227-231). -/
def scanSentiments (w : ScanWorld) (d : DB) (stock : Stock) : List SentimentScore :=
  match GetSentimentScores d stock.StockID (w.AddDate w.now 0 0 (-7)) w.now "Overall"
      (w.sentimentFault stock.StockID) with
  | Except.error _ => []
  | Except.ok sentimentScores => sentimentScores

/-- One turn of the loop of `getUndervaluedStocksHandler` (main.go lines
202-243): `undervaluedStocks` after the turn for `stock`. -/
def scanStep (w : ScanWorld) (d : DB) (undervaluedStocks : List UndervaluationScore)
    (stock : Stock) : List UndervaluationScore :=
  match GetHistoricalPrices d stock.StockID (w.AddDate w.now (-1) 0 0) w.now
      (w.pricesFault stock.StockID) with
  | Except.error _ => undervaluedStocks
  | Except.ok prices =>
    match prices.getLast? with
    | none => undervaluedStocks
    | some last =>
      let latestPrice := last.ClosePrice
      let financialStatements := scanStatements w d stock
      let analystTargets := scanTargets w d stock
      let sentimentScores := scanSentiments w d stock
      match CalculateUndervaluation (some stock) latestPrice financialStatements
          analystTargets sentimentScores with
      | Except.error _ => undervaluedStocks
      | Except.ok score =>
        if score.Score ≥ 50 then undervaluedStocks ++ [score] else undervaluedStocks

/-- The handler `getUndervaluedStocksHandler` (main.go lines 193-247). -/
def getUndervaluedStocksHandler (w : ScanWorld) (d : DB) : Response :=
  match GetAllStocks d w.allStocksFault with
  | Except.error _ =>
    { status := 500, body := Body.text "Failed to retrieve stocks for undervaluation" }
  | Except.ok allStocks =>
    { status := 200, body := Body.undervalued (allStocks.foldl (scanStep w d) []) }

end App

/-! ## Concrete stores and surroundings

Instants are counted in days in these examples. -/

namespace App

open models fmp database undervaluation

/-- A sample `AddDate`: 365 days to the year, 30 to the month. -/
def sampleAddDate (t years months days : Int) : Int :=
  t + 365 * years + 30 * months + days

/-- Surroundings of a scan at day 1000 in which no read fails. -/
def calmScan : ScanWorld :=
  { now := 1000
    AddDate := sampleAddDate
    allStocksFault := none
    pricesFault := fun _ => none
    statementsFault := fun _ => none
    targetsFault := fun _ => none
    sentimentFault := fun _ => none }

/-- Surroundings of a scan at day 1000 in which only the sentiment read
fails. -/
def sentimentDownScan : ScanWorld :=
  { calmScan with sentimentFault := fun _ => some "connection refused" }

/-- A closing price of 100 for the sample security on day 990. -/
def samplePrice : HistoricalPrice :=
  { Time := 990
    StockID := scenarioStock.StockID
    OpenPrice := 99
    HighPrice := 101
    LowPrice := 98
    ClosePrice := 100
    Volume := 1000
    VWAP := 100
    PriceChange := 1
    PctChange := 1 }

/-- The older sentiment sample (day 994): value 0.9, index 150000. -/
def olderSentiment : SentimentScore :=
  { mkSentiment 0.9 150000 with Timestamp := 994 }

/-- The newer sentiment sample (day 999): value 0.1, index 0. -/
def newerSentiment : SentimentScore :=
  { mkSentiment 0.1 0 with Timestamp := 999 }

/-- A store with the sample security, one price, the scenario statement and
target, and two sentiment samples of the source "Overall", the newer one
stored first. -/
def sampleDB : DB :=
  { stocks := [scenarioStock]
    historical_prices := [samplePrice]
    financial_statements := [scenarioStatement]
    analyst_targets := [scenarioTarget]
    sentiment_scores := [newerSentiment, olderSentiment] }

end App

/-! ## The entry of a security in the scan, as the claims word it -/

namespace App

open models fmp database undervaluation

/-- The entry a security contributes to the batch scan: its score when the
price read succeeds with at least one price, `CalculateUndervaluation`
succeeds on the closing price of the last one and on the collections handed
over, and the composite is at least 50; no entry otherwise. -/
def scanEntry (w : ScanWorld) (d : DB) (stock : Stock) : Option UndervaluationScore :=
  match GetHistoricalPrices d stock.StockID (w.AddDate w.now (-1) 0 0) w.now
      (w.pricesFault stock.StockID) with
  | Except.error _ => none
  | Except.ok prices =>
    match prices.getLast? with
    | none => none
    | some last =>
      match CalculateUndervaluation (some stock) last.ClosePrice (scanStatements w d stock)
          (scanTargets w d stock) (scanSentiments w d stock) with
      | Except.error _ => none
      | Except.ok score => if score.Score ≥ 50 then some score else none

end App

/-! ## Vocabulary for the claims on the ingestion -/

namespace database

open models

/-- The natural key `(time, stock_id)` of a price row. -/
def priceKey (row : HistoricalPrice) : Int × UUID := (row.Time, row.StockID)

/-- What the statement of `InsertHistoricalPrice` does to one stored row. -/
def setPrice (price row : HistoricalPrice) : HistoricalPrice :=
  if samePriceKey price row then updatePriceRow price row else row

/-- What a sequence of such statements does to one stored row. -/
def setPrices (prices : List HistoricalPrice) (row : HistoricalPrice) : HistoricalPrice :=
  prices.foldl (fun r price => setPrice price r) row

end database

namespace App

open models fmp database undervaluation

/-- The records of the bars of a fetched sequence whose date parses, in the
fetched order, for a given security identifier. -/
def parsedBars (w : IngestWorld) (stockID : UUID) (fmpPrices : List HistoricalPriceFMP) :
    List HistoricalPrice :=
  fmpPrices.filterMap (fun p =>
    match w.parseDate p.Date with
    | Except.error _ => none
    | Except.ok priceTime => some (toHistoricalPrice stockID priceTime p))

/-- The price records a sequence of calls tried to upsert, in order. -/
def priceInserts (calls : List Call) : List HistoricalPrice :=
  calls.filterMap (fun c =>
    match c with
    | Call.dbInsertHistoricalPrice price => some price
    | _ => none)

/-- The calls of a sequence that write to the store. -/
def storeWrites (calls : List Call) : List Call :=
  calls.filter (fun c =>
    match c with
    | Call.dbInsertStock _ => true
    | Call.dbInsertHistoricalPrice _ => true
    | _ => false)

/-- Surroundings in which no store call fails. -/
def NoFaults (w : IngestWorld) : Prop :=
  w.getStockFault = none ∧ w.insertStockFault = none ∧ ∀ i, w.insertPriceFault i = none

/-- A sample date parser: two dates are known, every other text is an
error. -/
def sampleParse (text : String) : Except String Int :=
  if text = "2024-01-02" then Except.ok 1
  else if text = "2024-01-03" then Except.ok 2
  else Except.error "parsing time: cannot parse"

/-- A fetched bar with the given date text and closing price. -/
def mkBar (date : String) (close : ℚ) : HistoricalPriceFMP :=
  { Date := date
    Open := close
    High := close
    Low := close
    Close := close
    Volume := 10
    VWAP := close
    Change := 0
    PctChange := 0 }

/-- A fetched window of three bars, the middle one with a malformed date. -/
def sampleBars : List HistoricalPriceFMP :=
  [mkBar "2024-01-02" 100, mkBar "02/01/2024" 101, mkBar "2024-01-03" 102]

/-- A company profile for the symbol "NEWCO". -/
def sampleProfile : CompanyProfileFMP :=
  { Symbol := "NEWCO"
    Price := 10
    Beta := 1
    VolAvg := 0
    MktCap := 0
    LastDiv := 0
    Range := ""
    Changes := 0
    CompanyName := "New Company"
    Exchange := "NASDAQ"
    Industry := "Software"
    Website := ""
    Description := ""
    CEO := ""
    Sector := "Technology"
    Country := "US"
    FullTimeEmployees := 1
    Phone := ""
    Address := ""
    City := ""
    State := ""
    Zip := "" }

/-- Surroundings of an ingestion at day 1000: the provider returns the sample
window and the sample profile, and no store call fails. -/
def calmIngest : IngestWorld :=
  { now := 1000
    AddDate := sampleAddDate
    parseDate := sampleParse
    newID := { text := "00000000-0000-0000-0000-000000000002" }
    fmpPrices := Except.ok sampleBars
    fmpProfiles := Except.ok [sampleProfile]
    getStockFault := none
    insertStockFault := none
    insertPriceFault := fun _ => none }

/-- The same surroundings, but every price insertion fails. -/
def allInsertsFailIngest : IngestWorld :=
  { calmIngest with insertPriceFault := fun _ => some "connection refused" }

/-- The same surroundings, but the price fetch of the provider fails. -/
def fetchDownIngest : IngestWorld :=
  { calmIngest with fmpPrices := Except.error "unexpected status 503" }

end App

/-! ## Binary64 arithmetic

Go's `float64` is IEEE 754 binary64.  A finite `float64` value is a rational;
`round64` sends a rational to the nearest rational with a 53-bit significand,
ties going to the even significand, which is what every `float64` operation
of the calculator does to its exact result.  The exponent range is not bounded
here (no overflow to infinity, no subnormal numbers), there is no NaN, and each
operation is rounded on its own (no fused multiply-add). -/

namespace binary64

/-- Round to nearest, ties to even, with a significand of 53 bits: with
`2 ^ (e + 52) ≤ |q| < 2 ^ (e + 53)`, the multiple of `2 ^ e` nearest `q`. -/
def round64 (q : ℚ) : ℚ :=
  if q = 0 then 0
  else
    let e : ℤ := Int.log 2 |q| - 52
    let x : ℚ := |q| / (2 : ℚ) ^ e
    let f : ℤ := ⌊x⌋
    let m : ℤ :=
      if x - f < 1 / 2 then f
      else if 1 / 2 < x - f then f + 1
      else if f % 2 = 0 then f
      else f + 1
    (if q < 0 then -1 else 1) * ((m : ℚ) * (2 : ℚ) ^ e)

/-- The conversion of a decimal constant of the source to `float64`. -/
def lit (q : ℚ) : ℚ := round64 q

/-- The `float64` addition `a + b`. -/
def fadd (a b : ℚ) : ℚ := round64 (a + b)

/-- The `float64` subtraction `a - b`. -/
def fsub (a b : ℚ) : ℚ := round64 (a - b)

/-- The `float64` multiplication `a * b`. -/
def fmul (a b : ℚ) : ℚ := round64 (a * b)

/-- The `float64` division `a / b`. -/
def fdiv (a b : ℚ) : ℚ := round64 (a / b)

end binary64

/-! ## The calculator in binary64 arithmetic

The same function as `CalculateUndervaluation` above, block for block, with
every constant converted to `float64` and every addition, subtraction,
multiplication and division rounded as `float64` does.  Comparisons are exact.
The numeric fields of the inputs are taken to be `float64` values. -/

namespace undervaluation

open models binary64

/-- The local `fundamentalScore` of `CalculateUndervaluation` after the
"Fundamental Analysis Score" block (calculator.go lines 35-65), in binary64. -/
def fundamentalScore64 (financialStatements : List FinancialStatement) : ℚ :=
  match financialStatements with
  | [] => 0.0
  | latestFS :: _ =>
    let s0 : ℚ := 0.0
    let s1 : ℚ :=
      if latestFS.PERatio > 0 then
        if latestFS.PERatio < 10 then fadd s0 (lit 0.3)
        else if latestFS.PERatio < 20 then fadd s0 (lit 0.15)
        else s0
      else s0
    let s2 : ℚ := if latestFS.EPS > 0 then fadd s1 (lit 0.2) else s1
    let s3 : ℚ := if latestFS.ROIC > lit 0.15 then fadd s2 (lit 0.2) else s2
    let s4 : ℚ := if latestFS.FreeCashFlow > 0 then fadd s3 (lit 0.15) else s3
    s4

/-- The local `upside` of `CalculateUndervaluation` (calculator.go line 74), in
binary64. -/
def upside64 (consensusPriceTarget latestPrice : ℚ) : ℚ :=
  fdiv (fsub consensusPriceTarget latestPrice) latestPrice

/-- The local `analystScore` of `CalculateUndervaluation` after the "Analyst
Consensus Score" block (calculator.go lines 67-88), in binary64. -/
def analystScore64 (latestPrice : ℚ) (analystTargets : List AnalystTarget) : ℚ :=
  match analystTargets with
  | [] => 0.0
  | latestAT :: _ =>
    let s0 : ℚ := 0.0
    let s1 : ℚ :=
      if latestAT.ConsensusPriceTarget > 0 ∧ latestPrice > 0 then
        let upside : ℚ := upside64 latestAT.ConsensusPriceTarget latestPrice
        if upside > lit 0.20 then fadd s0 (lit 0.4)
        else if upside > lit 0.10 then fadd s0 (lit 0.2)
        else s0
      else s0
    let s2 : ℚ :=
      if latestAT.ConsensusRatingValue ≥ 4.0 then fadd s1 (lit 0.3)
      else if latestAT.ConsensusRatingValue ≥ 3.0 then fadd s1 (lit 0.15)
      else s1
    s2

/-- The local `normalizedSentiment` of `CalculateUndervaluation`
(calculator.go lines 97-100), in binary64. -/
def normalizedSentiment64 (latestSS : SentimentScore) : ℚ :=
  if latestSS.SentimentScore > 1 then fdiv latestSS.SentimentScore 100.0
  else latestSS.SentimentScore

/-- The local `sentimentScore` of `CalculateUndervaluation` after the
"Sentiment Analysis Score" block (calculator.go lines 90-112), in binary64. -/
def sentimentScore64 (sentimentScores : List SentimentScore) : ℚ :=
  match sentimentScores with
  | [] => 0.0
  | latestSS :: _ =>
    let s0 : ℚ := 0.0
    let s1 : ℚ :=
      if normalizedSentiment64 latestSS > lit 0.7 then fadd s0 (lit 0.2)
      else if normalizedSentiment64 latestSS > lit 0.5 then fadd s0 (lit 0.1)
      else s0
    let s2 : ℚ := if latestSS.AbsoluteIndex > 100000 then fadd s1 (lit 0.1) else s1
    s2

/-- The local `compositeScore` before the cap (calculator.go lines 122-126), in
binary64: the three products are added from left to right and the sum is
multiplied by 100. -/
def compositeScore64 (f a s : ℚ) : ℚ :=
  fmul (fadd (fadd (fmul f (lit 0.50)) (fmul a (lit 0.30))) (fmul s (lit 0.20))) 100

/-- The function `CalculateUndervaluation` (calculator.go lines 22-139), in
binary64. -/
def CalculateUndervaluation64 (stock : Option Stock) (latestPrice : ℚ)
    (financialStatements : List FinancialStatement)
    (analystTargets : List AnalystTarget)
    (sentimentScores : List SentimentScore) : Except String UndervaluationScore :=
  match stock with
  | none => Except.error invalidInput
  | some st =>
    if latestPrice = 0 then Except.error invalidInput
    else
      let f := fundamentalScore64 financialStatements
      let a := analystScore64 latestPrice analystTargets
      let s := sentimentScore64 sentimentScores
      Except.ok
        { StockID := st.StockID.String
          Symbol := st.Symbol
          Score := min (compositeScore64 f a s) 100.0
          FundamentalScore := fmul f 100
          AnalystScore := fmul a 100
          SentimentScore := fmul s 100 }

/-- The statement of the worked scenario as `float64` values: P/E 8, EPS 2.0,
ROIC 0.20, FCF 500. -/
def scenarioStatement64 : FinancialStatement := mkStatement 8 2 (lit 0.20) 500

/-- The target of the worked scenario as `float64` values: consensus target
130, rating 4.2. -/
def scenarioTarget64 : AnalystTarget := mkTarget 130 (lit 4.2)

/-- The sentiment sample of the worked scenario as `float64` values: value 0.8,
index 150000. -/
def scenarioSentiment64 : SentimentScore := mkSentiment (lit 0.8) 150000

/-- The contribution of the upside as the claim words it, in binary64: taken
from the upside only when the consensus target is positive. -/
def specUpsideContribution64 (latestPrice consensusTarget : ℚ) : ℚ :=
  if consensusTarget > 0 then
    if upside64 consensusTarget latestPrice > lit 0.20 then lit 0.4
    else if upside64 consensusTarget latestPrice > lit 0.10 then lit 0.2
    else 0
  else 0

/-- The contribution of the rating as the claim words it, in binary64. -/
def specRatingContribution64 (rating : ℚ) : ℚ :=
  if rating ≥ 4.0 then lit 0.3
  else if rating ≥ 3.0 then lit 0.15
  else 0

end undervaluation

namespace App

open models fmp database undervaluation

/-- The sample store with the one stored price closing at 0. -/
def zeroCloseDB : DB :=
  { sampleDB with historical_prices := [{ samplePrice with ClosePrice := 0 }] }

end App

/-! ## General lemmas on the calculator -/

namespace undervaluation

open models

/-- With a security and a non-zero price the calculator returns its record. -/
theorem calculate_some (st : Stock) (latestPrice : ℚ) (hp : latestPrice ≠ 0)
    (fs : List FinancialStatement) (ats : List AnalystTarget)
    (ss : List SentimentScore) :
    CalculateUndervaluation (some st) latestPrice fs ats ss =
      Except.ok
        { StockID := st.StockID.String
          Symbol := st.Symbol
          Score := min (compositeScore (fundamentalScore fs)
            (analystScore latestPrice ats) (sentimentScore ss)) 100
          FundamentalScore := fundamentalScore fs * 100
          AnalystScore := analystScore latestPrice ats * 100
          SentimentScore := sentimentScore ss * 100 } := by
  simp only [CalculateUndervaluation, hp, if_false]
  norm_num

/-- Inversion of a successful call. -/
theorem calculate_ok_inv {stock : Option Stock} {latestPrice : ℚ}
    {fs : List FinancialStatement} {ats : List AnalystTarget}
    {ss : List SentimentScore} {r : UndervaluationScore}
    (h : CalculateUndervaluation stock latestPrice fs ats ss = Except.ok r) :
    ∃ st, stock = some st ∧ latestPrice ≠ 0 ∧
      r = { StockID := st.StockID.String
            Symbol := st.Symbol
            Score := min (compositeScore (fundamentalScore fs)
              (analystScore latestPrice ats) (sentimentScore ss)) 100
            FundamentalScore := fundamentalScore fs * 100
            AnalystScore := analystScore latestPrice ats * 100
            SentimentScore := sentimentScore ss * 100 } := by
  cases stock with
  | none => simp [CalculateUndervaluation] at h
  | some st =>
    by_cases hp : latestPrice = 0
    · simp [CalculateUndervaluation, hp] at h
    · refine ⟨st, rfl, hp, ?_⟩
      rw [calculate_some st latestPrice hp] at h
      exact (Except.ok.inj h).symm

/-- The fundamental sub-score lies between 0 and 0.85. -/
theorem fundamentalScore_bounds (fs : List FinancialStatement) :
    0 ≤ fundamentalScore fs ∧ fundamentalScore fs ≤ 0.85 := by
  cases fs with
  | nil => norm_num [fundamentalScore]
  | cons x rest =>
    simp only [fundamentalScore]
    split_ifs <;> norm_num

/-- The analyst sub-score lies between 0 and 0.70. -/
theorem analystScore_bounds (p : ℚ) (ats : List AnalystTarget) :
    0 ≤ analystScore p ats ∧ analystScore p ats ≤ 0.70 := by
  cases ats with
  | nil => norm_num [analystScore]
  | cons x rest =>
    simp only [analystScore]
    split_ifs <;> norm_num

/-- The sentiment sub-score lies between 0 and 0.30. -/
theorem sentimentScore_bounds (ss : List SentimentScore) :
    0 ≤ sentimentScore ss ∧ sentimentScore ss ≤ 0.30 := by
  cases ss with
  | nil => norm_num [sentimentScore]
  | cons x rest =>
    simp only [sentimentScore]
    split_ifs <;> norm_num

/-- The composite before the cap lies between 0 and 69.5. -/
theorem compositeScore_bounds (p : ℚ) (fs : List FinancialStatement)
    (ats : List AnalystTarget) (ss : List SentimentScore) :
    0 ≤ compositeScore (fundamentalScore fs) (analystScore p ats) (sentimentScore ss) ∧
    compositeScore (fundamentalScore fs) (analystScore p ats) (sentimentScore ss) ≤ 69.5 := by
  obtain ⟨f0, f1⟩ := fundamentalScore_bounds fs
  obtain ⟨a0, a1⟩ := analystScore_bounds p ats
  obtain ⟨s0, s1⟩ := sentimentScore_bounds ss
  simp only [compositeScore, FundamentalWeight, AnalystWeight, SentimentWeight]
  norm_num at f1 a1 s1 ⊢
  constructor <;> nlinarith

end undervaluation

namespace undervaluation

open models

/-- The nested P/E test of the fundamental block is the P/E contribution of
the specification. -/
theorem pe_step_eq (pe : ℚ) :
    (if pe > 0 then
      (if pe < 10 then (0.0 : ℚ) + 0.3
       else if pe < 20 then (0.0 : ℚ) + 0.15
       else 0.0)
     else 0.0) = specPEContribution pe := by
  unfold specPEContribution
  by_cases h0 : pe > 0
  · by_cases h10 : pe < 10
    · have hc : 0 < pe ∧ pe < 10 := ⟨h0, h10⟩
      simp only [h0, h10, hc, if_true]
      norm_num
    · have hc : ¬ (0 < pe ∧ pe < 10) := fun hh => h10 hh.2
      by_cases h20 : pe < 20
      · have hd : 10 ≤ pe ∧ pe < 20 := ⟨not_lt.mp h10, h20⟩
        simp only [h0, h10, h20, hc, hd, if_true, if_false]
        norm_num
      · have hd : ¬ (10 ≤ pe ∧ pe < 20) := fun hh => h20 hh.2
        simp only [h0, h10, h20, hc, hd, if_true, if_false]
        norm_num
  · have hc : ¬ (0 < pe ∧ pe < 10) := fun hh => h0 hh.1
    have hd : ¬ (10 ≤ pe ∧ pe < 20) := fun hh => h0 (by linarith [hh.1])
    simp only [h0, hc, hd, if_false]
    norm_num

/-- The fundamental block adds up the four contributions of the
specification. -/
theorem fundamentalScore_cons (st : FinancialStatement)
    (rest : List FinancialStatement) :
    fundamentalScore (st :: rest) = specFundamental st := by
  simp only [fundamentalScore]
  rw [pe_step_eq st.PERatio]
  unfold specFundamental specEPSContribution specROICContribution specFCFContribution
  split_ifs <;> norm_num

/-- With a target that is positive and a price that is negative, the upside is
negative. -/
theorem specUpside_neg_of_neg_price (target latestPrice : ℚ) (ht : 0 < target)
    (hp : latestPrice < 0) : specUpside target latestPrice < 0 := by
  unfold specUpside
  exact div_neg_of_pos_of_neg (by linarith) hp

/-- The upside step of the analyst block agrees with the specification at every
non-zero price. -/
theorem upside_step_eq (latestPrice target : ℚ) (hp : latestPrice ≠ 0) :
    (if target > 0 ∧ latestPrice > 0 then
      (if (target - latestPrice) / latestPrice > 0.20 then (0.0 : ℚ) + 0.4
       else if (target - latestPrice) / latestPrice > 0.10 then (0.0 : ℚ) + 0.2
       else 0.0)
     else 0.0) = specUpsideContribution latestPrice target := by
  unfold specUpsideContribution
  by_cases ht : target > 0
  · rcases lt_or_gt_of_ne hp with hneg | hpos
    · have hu := specUpside_neg_of_neg_price target latestPrice ht hneg
      have h1 : ¬ (latestPrice > 0) := not_lt.mpr hneg.le
      have h2 : ¬ (specUpside target latestPrice > 0.20) := by
        intro hc; norm_num at hc; linarith
      have h3 : ¬ (specUpside target latestPrice > 0.10) := by
        intro hc; norm_num at hc; linarith
      simp only [ht, h1, h2, h3, and_false, if_false, if_true]
      norm_num
    · simp only [ht, hpos, and_self, if_true, specUpside]
      split_ifs <;> norm_num
  · simp only [ht, false_and, if_false]
    norm_num

/-- The analyst block is the upside contribution plus the rating contribution
of the specification, at every non-zero price. -/
theorem analystScore_cons (latestPrice : ℚ) (hp : latestPrice ≠ 0)
    (t : AnalystTarget) (rest : List AnalystTarget) :
    analystScore latestPrice (t :: rest) =
      specUpsideContribution latestPrice t.ConsensusPriceTarget +
        specRatingContribution t.ConsensusRatingValue := by
  simp only [analystScore]
  rw [upside_step_eq latestPrice t.ConsensusPriceTarget hp]
  unfold specRatingContribution
  split_ifs <;> norm_num

/-- The two normalisations give the same value contribution. -/
theorem sentiment_value_step_eq (x : SentimentScore) :
    (if normalizedSentiment x > 0.7 then (0.0 : ℚ) + 0.2
     else if normalizedSentiment x > 0.5 then (0.0 : ℚ) + 0.1
     else 0.0) = specSentimentValueContribution x.SentimentScore := by
  unfold specSentimentValueContribution specNormalized normalizedSentiment
  by_cases h1 : x.SentimentScore > 1
  · have habs : |x.SentimentScore| > 1 := lt_of_lt_of_le h1 (le_abs_self _)
    simp only [h1, habs, if_true]
    split_ifs <;> norm_num at * <;> linarith
  · by_cases h2 : x.SentimentScore < -1
    · have habs : |x.SentimentScore| > 1 := by
        rw [abs_of_neg (by linarith)]; linarith
      have a1 : ¬ (x.SentimentScore > 0.7) := by norm_num; linarith
      have a2 : ¬ (x.SentimentScore > 0.5) := by norm_num; linarith
      have b1 : ¬ (x.SentimentScore / 100 > 0.7) := by
        intro hc; norm_num at hc; linarith
      have b2 : ¬ (x.SentimentScore / 100 > 0.5) := by
        intro hc; norm_num at hc; linarith
      simp only [h1, habs, a1, a2, b1, b2, if_false, if_true]
      norm_num
    · have habs : ¬ (|x.SentimentScore| > 1) := by
        rw [not_lt, abs_le]; constructor <;> linarith
      simp only [h1, habs, if_false]
      split_ifs <;> norm_num

/-- The sentiment block is the value contribution plus the volume contribution
of the specification. -/
theorem sentimentScore_cons (x : SentimentScore) (rest : List SentimentScore) :
    sentimentScore (x :: rest) =
      specSentimentValueContribution x.SentimentScore +
        specVolumeContribution x.AbsoluteIndex := by
  simp only [sentimentScore]
  rw [sentiment_value_step_eq x]
  unfold specVolumeContribution
  split_ifs <;> norm_num

end undervaluation

/-! ## The claims on the scoring engine -/

namespace undervaluation

open models

/-- C1: whenever `CalculateUndervaluation` returns a score, whatever the
security, the price and the evidence collections (empty ones included), the
composite `Score` lies in the closed interval [0,100]. -/
theorem score_in_unit_range (stock : Option Stock) (latestPrice : ℚ)
    (fs : List FinancialStatement) (ats : List AnalystTarget)
    (ss : List SentimentScore) (r : UndervaluationScore)
    (h : CalculateUndervaluation stock latestPrice fs ats ss = Except.ok r) :
    0 ≤ r.Score ∧ r.Score ≤ 100 := by
  obtain ⟨st, -, -, rfl⟩ := calculate_ok_inv h
  obtain ⟨c0, -⟩ := compositeScore_bounds latestPrice fs ats ss
  exact ⟨le_min c0 (by norm_num), min_le_right _ _⟩

/-- C1, at the worked scenario: the call succeeds and its composite is within
[0,100]. -/
theorem score_in_unit_range_witness :
    ∃ r, CalculateUndervaluation (some scenarioStock) 100 [scenarioStatement]
        [scenarioTarget] [scenarioSentiment] = Except.ok r ∧
      0 ≤ r.Score ∧ r.Score ≤ 100 :=
  ⟨_, calculate_some scenarioStock 100 (by norm_num) _ _ _,
    score_in_unit_range _ _ _ _ _ _ (calculate_some scenarioStock 100 (by norm_num) _ _ _)⟩

/-- C2 as stated fails: with a security present and the negative price -5
(which is not strictly positive) the calculator returns a score, not an
error. -/
theorem negative_price_accepted :
    (-5 : ℚ) ≤ 0 ∧
    CalculateUndervaluation (some scenarioStock) (-5) [] [] [] =
      Except.ok
        { StockID := "00000000-0000-0000-0000-000000000001"
          Symbol := "ACME"
          Score := 0
          FundamentalScore := 0
          AnalystScore := 0
          SentimentScore := 0 } := by
  refine ⟨by norm_num, ?_⟩
  rw [calculate_some scenarioStock (-5) (by norm_num)]
  norm_num [fundamentalScore, analystScore, sentimentScore, compositeScore,
    scenarioStock, UUID.String]

/-- C2, amended: `CalculateUndervaluation` fails with the invalid-input error
(and returns no score) exactly when the security is unset or `latestPrice`
equals zero, whatever the evidence collections are; with a security and any
non-zero price, negative ones included, it returns a score. -/
theorem invalid_input_iff (stock : Option Stock) (latestPrice : ℚ)
    (fs : List FinancialStatement) (ats : List AnalystTarget)
    (ss : List SentimentScore) :
    (CalculateUndervaluation stock latestPrice fs ats ss = Except.error invalidInput ↔
      (stock = none ∨ latestPrice = 0)) ∧
    ((∃ r, CalculateUndervaluation stock latestPrice fs ats ss = Except.ok r) ↔
      (stock ≠ none ∧ latestPrice ≠ 0)) := by
  cases stock with
  | none => simp [CalculateUndervaluation]
  | some st =>
    by_cases hp : latestPrice = 0
    · simp [CalculateUndervaluation, hp]
    · simp [calculate_some st latestPrice hp, hp]

/-- C3: for every security and every statement, target and sentiment
collection, `CalculateUndervaluation` called with `latestPrice = 0` returns
the invalid-input error and no score. -/
theorem zero_price_rejected (stock : Option Stock)
    (fs : List FinancialStatement) (ats : List AnalystTarget)
    (ss : List SentimentScore) :
    CalculateUndervaluation stock 0 fs ats ss = Except.error invalidInput ∧
    ¬ ∃ r, CalculateUndervaluation stock 0 fs ats ss = Except.ok r := by
  cases stock <;> simp [CalculateUndervaluation]

/-- C5: on every successful call with a non-empty statement collection whose
first element is `st`, the unscaled fundamental sub-score is the sum of the
four independent contributions (P/E: 0.30 if 0 < P/E < 10, else 0.15 if
10 ≤ P/E < 20, else 0; 0.20 if EPS > 0; 0.20 if ROIC > 0.15; 0.15 if free
cash flow > 0), reported scaled by 100; at the boundaries the P/E part is 0.15
for P/E = 10 and 0 for P/E = 20, and the ROIC part is 0 for ROIC = 0.15. -/
theorem fundamental_subscore (stock : Option Stock) (latestPrice : ℚ)
    (st : FinancialStatement) (rest : List FinancialStatement)
    (ats : List AnalystTarget) (ss : List SentimentScore) (r : UndervaluationScore)
    (h : CalculateUndervaluation stock latestPrice (st :: rest) ats ss = Except.ok r) :
    fundamentalScore (st :: rest) =
      (if 0 < st.PERatio ∧ st.PERatio < 10 then 0.30
        else if 10 ≤ st.PERatio ∧ st.PERatio < 20 then 0.15 else 0)
      + (if st.EPS > 0 then 0.20 else 0)
      + (if st.ROIC > 0.15 then 0.20 else 0)
      + (if st.FreeCashFlow > 0 then 0.15 else 0) ∧
    r.FundamentalScore = specFundamental st * 100 ∧
    (st.PERatio = 10 → fundamentalScore (st :: rest) =
      0.15 + specEPSContribution st.EPS + specROICContribution st.ROIC
        + specFCFContribution st.FreeCashFlow) ∧
    (st.PERatio = 20 → fundamentalScore (st :: rest) =
      0 + specEPSContribution st.EPS + specROICContribution st.ROIC
        + specFCFContribution st.FreeCashFlow) ∧
    (st.ROIC = 0.15 → fundamentalScore (st :: rest) =
      specPEContribution st.PERatio + specEPSContribution st.EPS + 0
        + specFCFContribution st.FreeCashFlow) := by
  obtain ⟨s0, -, -, rfl⟩ := calculate_ok_inv h
  rw [fundamentalScore_cons]
  refine ⟨rfl, rfl, ?_, ?_, ?_⟩
  · intro hpe
    simp only [specFundamental, specPEContribution, hpe]
    norm_num
  · intro hpe
    simp only [specFundamental, specPEContribution, hpe]
    norm_num
  · intro hroic
    simp only [specFundamental, specROICContribution, hroic]
    norm_num

/-- C5, at a statement on the boundaries P/E = 10 and ROIC = 0.15 (EPS 2, free
cash flow 500): the sub-score is 0.15 + 0.20 + 0 + 0.15 = 0.50, reported 50. -/
theorem fundamental_subscore_witness :
    ∃ r, CalculateUndervaluation (some scenarioStock) 100
        [mkStatement 10 2 0.15 500] [] [] = Except.ok r ∧
      fundamentalScore [mkStatement 10 2 0.15 500] = 0.50 ∧
      r.FundamentalScore = 50 := by
  have hok := calculate_some scenarioStock 100 (by norm_num)
    [mkStatement 10 2 0.15 500] [] []
  have key := fundamental_subscore _ _ _ _ _ _ _ hok
  refine ⟨_, hok, ?_, ?_⟩
  · rw [key.1]; norm_num [mkStatement]
  · rw [key.2.1]
    norm_num [specFundamental, specPEContribution, specEPSContribution,
      specROICContribution, specFCFContribution, mkStatement]

/-- C7: on every successful call with a non-empty sentiment collection whose
first element has raw value `v` and absolute index `x`, the unscaled sentiment
sub-score is (0.20 if n > 0.7, else 0.10 if n > 0.5, else 0) + (0.10 if
x > 100000, else 0), where `n = v/100` if `|v| > 1` and `n = v` otherwise; this
holds for every `v`, negative values of magnitude above 1 included. -/
theorem sentiment_subscore (stock : Option Stock) (latestPrice : ℚ)
    (fs : List FinancialStatement) (ats : List AnalystTarget)
    (x : SentimentScore) (rest : List SentimentScore) (r : UndervaluationScore)
    (h : CalculateUndervaluation stock latestPrice fs ats (x :: rest) = Except.ok r) :
    sentimentScore (x :: rest) =
      (if (if |x.SentimentScore| > 1 then x.SentimentScore / 100
            else x.SentimentScore) > 0.7 then 0.20
        else if (if |x.SentimentScore| > 1 then x.SentimentScore / 100
            else x.SentimentScore) > 0.5 then 0.10
        else 0)
      + (if x.AbsoluteIndex > 100000 then 0.10 else 0) ∧
    r.SentimentScore =
      (specSentimentValueContribution x.SentimentScore +
        specVolumeContribution x.AbsoluteIndex) * 100 := by
  obtain ⟨s0, -, -, rfl⟩ := calculate_ok_inv h
  rw [sentimentScore_cons]
  exact ⟨rfl, rfl⟩

/-- C7, at the negative raw value -80 (magnitude above 1) with index 150000:
the value part is 0 and the sub-score is 0.10. -/
theorem sentiment_subscore_witness :
    ∃ r, CalculateUndervaluation (some scenarioStock) 100 [] []
        [mkSentiment (-80) 150000] = Except.ok r ∧
      sentimentScore [mkSentiment (-80) 150000] = 0.10 ∧ r.SentimentScore = 10 := by
  have hok := calculate_some scenarioStock 100 (by norm_num)
    [] [] [mkSentiment (-80) 150000]
  have key := sentiment_subscore _ _ _ _ _ _ _ hok
  refine ⟨_, hok, ?_, ?_⟩
  · rw [key.1]; norm_num [mkSentiment, abs_of_neg]
  · rw [key.2]
    norm_num [specSentimentValueContribution, specNormalized,
      specVolumeContribution, mkSentiment, abs_of_neg]

/-- C8: for every security and every non-zero `latestPrice` the call returns a
score in which each reported sub-score is exactly 0 whenever its own collection
is empty; with all three collections empty the composite `Score` is exactly 0
and `FundamentalScore = AnalystScore = SentimentScore = 0`. -/
theorem empty_evidence_zero (st : Stock) (latestPrice : ℚ) (hp : latestPrice ≠ 0)
    (fs : List FinancialStatement) (ats : List AnalystTarget)
    (ss : List SentimentScore) :
    ∃ r, CalculateUndervaluation (some st) latestPrice fs ats ss = Except.ok r ∧
      (fs = [] → fundamentalScore fs = 0 ∧ r.FundamentalScore = 0) ∧
      (ats = [] → analystScore latestPrice ats = 0 ∧ r.AnalystScore = 0) ∧
      (ss = [] → sentimentScore ss = 0 ∧ r.SentimentScore = 0) ∧
      (fs = [] → ats = [] → ss = [] →
        r.Score = 0 ∧ r.FundamentalScore = 0 ∧ r.AnalystScore = 0 ∧
          r.SentimentScore = 0) := by
  refine ⟨_, calculate_some st latestPrice hp fs ats ss, ?_, ?_, ?_, ?_⟩
  · rintro rfl
    norm_num [fundamentalScore]
  · rintro rfl
    norm_num [analystScore]
  · rintro rfl
    norm_num [sentimentScore]
  · rintro rfl rfl rfl
    norm_num [fundamentalScore, analystScore, sentimentScore, compositeScore]

/-- C8, at price 100 with all three collections empty: the record returned has
composite 0 and all sub-scores 0. -/
theorem empty_evidence_zero_witness :
    (100 : ℚ) ≠ 0 ∧
    ∃ r, CalculateUndervaluation (some scenarioStock) 100 [] [] [] = Except.ok r ∧
      r.Score = 0 ∧ r.FundamentalScore = 0 ∧ r.AnalystScore = 0 ∧
      r.SentimentScore = 0 := by
  refine ⟨by norm_num, ?_⟩
  obtain ⟨r, hr, -, -, -, hall⟩ :=
    empty_evidence_zero scenarioStock 100 (by norm_num) [] [] []
  exact ⟨r, hr, hall rfl rfl rfl⟩

end undervaluation

/-! ## The ordering contract and the auto-scale convention -/

namespace undervaluation

open models

/-- Multiplying a sentiment value in (0.01, 1] by 100 does not change its
normalised value. -/
theorem normalizedSentiment_scaled (x : SentimentScore)
    (h1 : 0.01 < x.SentimentScore) (h2 : x.SentimentScore ≤ 1) :
    normalizedSentiment { x with SentimentScore := 100 * x.SentimentScore } =
      normalizedSentiment x := by
  have hbig : 100 * x.SentimentScore > 1 := by norm_num at h1; linarith
  have hsmall : ¬ (x.SentimentScore > 1) := not_lt.mpr h2
  simp only [normalizedSentiment, hbig, hsmall, if_true, if_false]
  norm_num

/-- C11: `CalculateUndervaluation` does not sort and reads only the first
element of each evidence collection: on non-empty collections the result is
the result on the three singletons of their first elements, so replacing,
permuting or dropping the elements after the first never changes the output;
and putting a different record first can change it. -/
theorem first_element_only (stock : Option Stock) (latestPrice : ℚ)
    (x : FinancialStatement) (xs : List FinancialStatement)
    (y : AnalystTarget) (ys : List AnalystTarget)
    (z : SentimentScore) (zs : List SentimentScore) :
    CalculateUndervaluation stock latestPrice (x :: xs) (y :: ys) (z :: zs) =
      CalculateUndervaluation stock latestPrice [x] [y] [z] ∧
    (∀ (xs1 : List FinancialStatement) (ys1 : List AnalystTarget)
        (zs1 : List SentimentScore),
      CalculateUndervaluation stock latestPrice (x :: xs1) (y :: ys1) (z :: zs1) =
        CalculateUndervaluation stock latestPrice (x :: xs) (y :: ys) (z :: zs)) ∧
    CalculateUndervaluation (some scenarioStock) 100
        [scenarioStatement, mkStatement 30 (-1) 0 0] [] [] ≠
      CalculateUndervaluation (some scenarioStock) 100
        [mkStatement 30 (-1) 0 0, scenarioStatement] [] [] := by
  refine ⟨rfl, fun _ _ _ => rfl, ?_⟩
  intro h
  rw [calculate_some scenarioStock 100 (by norm_num),
    calculate_some scenarioStock 100 (by norm_num)] at h
  have hf := congrArg (fun r => r.FundamentalScore) (Except.ok.inj h)
  norm_num [fundamentalScore, scenarioStatement, mkStatement] at hf

/-- C13: for a sentiment value `v` with 0.01 < v ≤ 1, a first sentiment sample
with raw value `100 * v` gives the same sentiment sub-score and the same
result (composite included) as the otherwise identical sample with raw value
`v`. -/
theorem autoscale_same_score (stock : Option Stock) (latestPrice : ℚ)
    (fs : List FinancialStatement) (ats : List AnalystTarget)
    (x : SentimentScore) (rest : List SentimentScore)
    (h1 : 0.01 < x.SentimentScore) (h2 : x.SentimentScore ≤ 1) :
    sentimentScore ({ x with SentimentScore := 100 * x.SentimentScore } :: rest) =
      sentimentScore (x :: rest) ∧
    CalculateUndervaluation stock latestPrice fs ats
        ({ x with SentimentScore := 100 * x.SentimentScore } :: rest) =
      CalculateUndervaluation stock latestPrice fs ats (x :: rest) := by
  have hs : sentimentScore ({ x with SentimentScore := 100 * x.SentimentScore } :: rest) =
      sentimentScore (x :: rest) := by
    simp only [sentimentScore, normalizedSentiment_scaled x h1 h2]
  refine ⟨hs, ?_⟩
  simp only [CalculateUndervaluation, hs]

/-- C13, at value 0.8: the sample with raw value 80 scores as the sample with
raw value 0.8, in sub-score and in the whole result. -/
theorem autoscale_same_score_witness :
    sentimentScore [mkSentiment 80 150000] = sentimentScore [mkSentiment 0.8 150000] ∧
    CalculateUndervaluation (some scenarioStock) 100 [scenarioStatement] [scenarioTarget]
        [mkSentiment 80 150000] =
      CalculateUndervaluation (some scenarioStock) 100 [scenarioStatement] [scenarioTarget]
        [mkSentiment 0.8 150000] := by
  have h80 : ({ mkSentiment 0.8 150000 with
      SentimentScore := 100 * (mkSentiment 0.8 150000).SentimentScore } : SentimentScore) =
      mkSentiment 80 150000 := by
    simp only [mkSentiment]
    norm_num
  have key := autoscale_same_score (some scenarioStock) 100 [scenarioStatement]
    [scenarioTarget] (mkSentiment 0.8 150000) []
    (by norm_num [mkSentiment]) (by norm_num [mkSentiment])
  rw [h80] at key
  exact key

end undervaluation

/-! ## The batch scan -/

namespace App

open models fmp database undervaluation

/-- One turn of the scan appends the entry of the security, if it has one. -/
theorem scanStep_eq (w : ScanWorld) (d : DB) (acc : List UndervaluationScore)
    (stock : Stock) :
    scanStep w d acc stock = acc ++ (scanEntry w d stock).toList := by
  unfold scanStep scanEntry
  split
  · simp
  · split
    · simp
    · simp only []
      split
      · simp
      · split <;> simp

/-- The loop of the scan collects the entries of the securities, in order. -/
theorem scan_foldl (w : ScanWorld) (d : DB) (allStocks : List Stock)
    (acc : List UndervaluationScore) :
    allStocks.foldl (scanStep w d) acc = acc ++ allStocks.filterMap (scanEntry w d) := by
  induction allStocks generalizing acc with
  | nil => simp
  | cons stock rest ih =>
    rw [List.foldl_cons, ih, scanStep_eq, List.append_assoc]
    congr 1
    cases h : scanEntry w d stock <;> simp [List.filterMap_cons, h]

/-- The scan answers 200 with the entries of the securities whenever the list
of securities was obtained. -/
theorem scan_ok (w : ScanWorld) (d : DB) (allStocks : List Stock)
    (hall : GetAllStocks d w.allStocksFault = Except.ok allStocks) :
    getUndervaluedStocksHandler w d =
      { status := 200, body := Body.undervalued (allStocks.filterMap (scanEntry w d)) } := by
  unfold getUndervaluedStocksHandler
  rw [hall]
  simp only [scan_foldl, List.nil_append]

/-- What it takes for a security to have an entry. -/
theorem scanEntry_eq_some_iff (w : ScanWorld) (d : DB) (stock : Stock)
    (r : UndervaluationScore) :
    scanEntry w d stock = some r ↔
      ∃ prices last,
        GetHistoricalPrices d stock.StockID (w.AddDate w.now (-1) 0 0) w.now
          (w.pricesFault stock.StockID) = Except.ok prices ∧
        prices.getLast? = some last ∧
        CalculateUndervaluation (some stock) last.ClosePrice (scanStatements w d stock)
          (scanTargets w d stock) (scanSentiments w d stock) = Except.ok r ∧
        r.Score ≥ 50 := by
  unfold scanEntry
  split
  · rename_i e he
    rw [he]
    constructor
    · intro h; cases h
    · rintro ⟨prices, last, h1, -⟩; cases h1
  · rename_i prices hp
    rw [hp]
    split
    · rename_i hl
      constructor
      · intro h; cases h
      · rintro ⟨prices1, last1, h1, h2, -⟩
        cases h1
        rw [hl] at h2
        cases h2
    · rename_i last hl
      split
      · rename_i e hc
        constructor
        · intro h; cases h
        · rintro ⟨prices1, last1, h1, h2, hc1, -⟩
          cases h1
          rw [hl] at h2
          cases h2
          rw [hc] at hc1
          cases hc1
      · rename_i score hc
        constructor
        · intro h
          split at h
          · rename_i h50
            cases h
            exact ⟨prices, last, rfl, hl, hc, h50⟩
          · cases h
        · rintro ⟨prices1, last1, h1, h2, hc1, h50⟩
          cases h1
          rw [hl] at h2
          cases h2
          rw [hc] at hc1
          cases hc1
          simp [h50]

end App

namespace App

open models fmp database undervaluation

/-- Without statements the composite stays below the threshold of the scan. -/
theorem score_lt_of_no_statements {stock : Option Stock} {latestPrice : ℚ}
    {ats : List AnalystTarget} {ss : List SentimentScore} {r : UndervaluationScore}
    (h : CalculateUndervaluation stock latestPrice [] ats ss = Except.ok r) :
    r.Score < 50 := by
  obtain ⟨st, -, -, rfl⟩ := calculate_ok_inv h
  obtain ⟨-, a1⟩ := analystScore_bounds latestPrice ats
  obtain ⟨-, s1⟩ := sentimentScore_bounds ss
  refine lt_of_le_of_lt (min_le_left _ _) ?_
  simp only [compositeScore, FundamentalWeight, AnalystWeight, SentimentWeight,
    fundamentalScore]
  norm_num at a1 s1 ⊢
  linarith

/-- Without analyst targets the composite stays below the threshold of the
scan. -/
theorem score_lt_of_no_targets {stock : Option Stock} {latestPrice : ℚ}
    {fs : List FinancialStatement} {ss : List SentimentScore} {r : UndervaluationScore}
    (h : CalculateUndervaluation stock latestPrice fs [] ss = Except.ok r) :
    r.Score < 50 := by
  obtain ⟨st, -, -, rfl⟩ := calculate_ok_inv h
  obtain ⟨-, f1⟩ := fundamentalScore_bounds fs
  obtain ⟨-, s1⟩ := sentimentScore_bounds ss
  refine lt_of_le_of_lt (min_le_left _ _) ?_
  simp only [compositeScore, FundamentalWeight, AnalystWeight, SentimentWeight,
    analystScore]
  norm_num at f1 s1 ⊢
  linarith

/-- A security has no entry when `CalculateUndervaluation` would stay below
the threshold on every price. -/
theorem scanEntry_none_of_low (w : ScanWorld) (d : DB) (stock : Stock)
    (hlow : ∀ latestPrice r,
      CalculateUndervaluation (some stock) latestPrice (scanStatements w d stock)
        (scanTargets w d stock) (scanSentiments w d stock) = Except.ok r → r.Score < 50) :
    scanEntry w d stock = none := by
  cases hentry : scanEntry w d stock with
  | none => rfl
  | some r =>
    obtain ⟨prices, last, -, -, hc, h50⟩ := (scanEntry_eq_some_iff w d stock r).mp hentry
    exact absurd (hlow _ _ hc) (not_lt.mpr h50)

/-- The scan of the sample store in calm surroundings. -/
theorem calm_scan_value :
    getUndervaluedStocksHandler calmScan sampleDB =
      { status := 200
        body := Body.undervalued
          [{ StockID := "00000000-0000-0000-0000-000000000001"
             Symbol := "ACME"
             Score := 69.5
             FundamentalScore := 85
             AnalystScore := 70
             SentimentScore := 30 }] } := by
  have hprices : GetHistoricalPrices sampleDB scenarioStock.StockID
      (calmScan.AddDate calmScan.now (-1) 0 0) calmScan.now
      (calmScan.pricesFault scenarioStock.StockID) = Except.ok [samplePrice] := by
    simp [GetHistoricalPrices, calmScan, sampleDB, sampleAddDate, samplePrice, scenarioStock]
  have hs : scanStatements calmScan sampleDB scenarioStock = [scenarioStatement] := by
    simp [scanStatements, GetFinancialStatements, calmScan, sampleDB, scenarioStatement,
      mkStatement, scenarioStock]
  have ht : scanTargets calmScan sampleDB scenarioStock = [scenarioTarget] := by
    simp [scanTargets, GetAnalystTargets, calmScan, sampleDB, scenarioTarget, mkTarget,
      scenarioStock]
  have hss : scanSentiments calmScan sampleDB scenarioStock =
      [olderSentiment, newerSentiment] := by
    simp [scanSentiments, GetSentimentScores, calmScan, sampleDB, sampleAddDate,
      olderSentiment, newerSentiment, mkSentiment, scenarioStock]
  rw [scan_ok calmScan sampleDB [scenarioStock]
    (by simp [GetAllStocks, calmScan, sampleDB])]
  simp only [List.filterMap_cons, List.filterMap_nil, scanEntry, hprices, hs, ht, hss,
    List.getLast?_singleton]
  rw [show samplePrice.ClosePrice = 100 from rfl,
    calculate_some scenarioStock 100 (by norm_num)]
  norm_num [fundamentalScore, analystScore, sentimentScore, normalizedSentiment,
    compositeScore, FundamentalWeight, AnalystWeight, SentimentWeight, scenarioStatement,
    scenarioTarget, olderSentiment, mkStatement, mkTarget, mkSentiment, scenarioStock,
    UUID.String]

end App

/-! ## The claims on the batch scan -/

namespace App

open models fmp database undervaluation

/-- C12, the code at a store with two sentiment samples: the scan hands the
statements and the analyst targets in descending date order, but the
sentiment samples in ascending timestamp order, oldest first.  On the sample
store the calculator therefore reads the older sample (day 994, sub-score 30)
and not the newer one (day 999, sub-score 0). -/
theorem sentiment_handed_oldest_first :
    (∀ (w : ScanWorld) (d : DB) (stock : Stock),
      List.Sorted (fun a b => a.Date ≥ b.Date) (scanStatements w d stock) ∧
      List.Sorted (fun a b => a.Date ≥ b.Date) (scanTargets w d stock) ∧
      List.Sorted (fun a b => a.Timestamp ≤ b.Timestamp) (scanSentiments w d stock)) ∧
    scanSentiments calmScan sampleDB scenarioStock = [olderSentiment, newerSentiment] ∧
    olderSentiment.Timestamp < newerSentiment.Timestamp ∧
    getUndervaluedStocksHandler calmScan sampleDB =
      { status := 200
        body := Body.undervalued
          [{ StockID := "00000000-0000-0000-0000-000000000001"
             Symbol := "ACME"
             Score := 69.5
             FundamentalScore := 85
             AnalystScore := 70
             SentimentScore := 30 }] } ∧
    sentimentScore [newerSentiment, olderSentiment] * 100 = 0 := by
  refine ⟨?_, ?_, ?_, calm_scan_value, ?_⟩
  · intro w d stock
    haveI : IsTotal FinancialStatement (fun a b => a.Date ≥ b.Date) :=
      ⟨fun a b => le_total b.Date a.Date⟩
    haveI : IsTrans FinancialStatement (fun a b => a.Date ≥ b.Date) :=
      ⟨fun _ _ _ hab hbc => le_trans hbc hab⟩
    haveI : IsTotal AnalystTarget (fun a b => a.Date ≥ b.Date) :=
      ⟨fun a b => le_total b.Date a.Date⟩
    haveI : IsTrans AnalystTarget (fun a b => a.Date ≥ b.Date) :=
      ⟨fun _ _ _ hab hbc => le_trans hbc hab⟩
    haveI : IsTotal SentimentScore (fun a b => a.Timestamp ≤ b.Timestamp) :=
      ⟨fun a b => le_total a.Timestamp b.Timestamp⟩
    haveI : IsTrans SentimentScore (fun a b => a.Timestamp ≤ b.Timestamp) :=
      ⟨fun _ _ _ hab hbc => le_trans hab hbc⟩
    refine ⟨?_, ?_, ?_⟩
    · unfold scanStatements GetFinancialStatements
      split
      · exact List.sorted_nil
      · rename_i l hl
        split at hl
        · cases hl
        · cases hl
          exact List.sorted_insertionSort _ _
    · unfold scanTargets GetAnalystTargets
      split
      · exact List.sorted_nil
      · rename_i l hl
        split at hl
        · cases hl
        · cases hl
          exact List.sorted_insertionSort _ _
    · unfold scanSentiments GetSentimentScores
      split
      · exact List.sorted_nil
      · rename_i l hl
        split at hl
        · cases hl
        · cases hl
          exact List.sorted_insertionSort _ _
  · simp [scanSentiments, GetSentimentScores, calmScan, sampleDB, sampleAddDate,
      olderSentiment, newerSentiment, mkSentiment, scenarioStock]
  · simp [olderSentiment, newerSentiment]
  · norm_num [sentimentScore, normalizedSentiment, newerSentiment, mkSentiment]

/-- C14: whenever the list of securities is obtained, the batch scan answers
with exactly the securities whose computed composite is at least 50: the
result is the sequence of entries of the securities in the order of
`GetAllStocks`, at most one per security; every entry has `Score ≥ 50`; and a
security has the entry `r` exactly when the price read returns at least one
price and `CalculateUndervaluation`, on the closing price of the last one,
succeeds with `r` and `r.Score ≥ 50`. -/
theorem scan_returns_undervalued (w : ScanWorld) (d : DB) (allStocks : List Stock)
    (hall : GetAllStocks d w.allStocksFault = Except.ok allStocks) :
    getUndervaluedStocksHandler w d =
      { status := 200, body := Body.undervalued (allStocks.filterMap (scanEntry w d)) } ∧
    (∀ e ∈ allStocks.filterMap (scanEntry w d), e.Score ≥ 50) ∧
    (∀ (stock : Stock) (r : UndervaluationScore),
      scanEntry w d stock = some r ↔
        ∃ prices last,
          GetHistoricalPrices d stock.StockID (w.AddDate w.now (-1) 0 0) w.now
            (w.pricesFault stock.StockID) = Except.ok prices ∧
          prices.getLast? = some last ∧
          CalculateUndervaluation (some stock) last.ClosePrice (scanStatements w d stock)
            (scanTargets w d stock) (scanSentiments w d stock) = Except.ok r ∧
          r.Score ≥ 50) := by
  refine ⟨scan_ok w d allStocks hall, ?_, scanEntry_eq_some_iff w d⟩
  intro e he
  obtain ⟨stock, -, hs⟩ := List.mem_filterMap.mp he
  obtain ⟨-, -, -, -, -, h50⟩ := (scanEntry_eq_some_iff w d stock e).mp hs
  exact h50

/-- C14, at the sample store in calm surroundings: the list of securities is
obtained and the scan answers 200 with the entries, each of composite at
least 50. -/
theorem scan_returns_undervalued_witness :
    GetAllStocks sampleDB calmScan.allStocksFault = Except.ok [scenarioStock] ∧
    getUndervaluedStocksHandler calmScan sampleDB =
      { status := 200
        body := Body.undervalued ([scenarioStock].filterMap (scanEntry calmScan sampleDB)) } ∧
    (∀ e ∈ [scenarioStock].filterMap (scanEntry calmScan sampleDB), e.Score ≥ 50) := by
  have hall : GetAllStocks sampleDB calmScan.allStocksFault = Except.ok [scenarioStock] := by
    simp [GetAllStocks, calmScan, sampleDB]
  have key := scan_returns_undervalued calmScan sampleDB [scenarioStock] hall
  exact ⟨hall, key.1, key.2.1⟩

/-- C15 as stated fails: in the sample store, with the sentiment read of the
security failing, the security is not skipped: it is scored on an empty
sentiment collection and contributes an entry of composite 63.5. -/
theorem sentiment_fault_not_skipped :
    sentimentDownScan.sentimentFault scenarioStock.StockID = some "connection refused" ∧
    getUndervaluedStocksHandler sentimentDownScan sampleDB =
      { status := 200
        body := Body.undervalued
          [{ StockID := "00000000-0000-0000-0000-000000000001"
             Symbol := "ACME"
             Score := 63.5
             FundamentalScore := 85
             AnalystScore := 70
             SentimentScore := 0 }] } := by
  refine ⟨rfl, ?_⟩
  have hprices : GetHistoricalPrices sampleDB scenarioStock.StockID
      (sentimentDownScan.AddDate sentimentDownScan.now (-1) 0 0) sentimentDownScan.now
      (sentimentDownScan.pricesFault scenarioStock.StockID) = Except.ok [samplePrice] := by
    simp [GetHistoricalPrices, sentimentDownScan, calmScan, sampleDB, sampleAddDate,
      samplePrice, scenarioStock]
  have hs : scanStatements sentimentDownScan sampleDB scenarioStock = [scenarioStatement] := by
    simp [scanStatements, GetFinancialStatements, sentimentDownScan, calmScan, sampleDB,
      scenarioStatement, mkStatement, scenarioStock]
  have ht : scanTargets sentimentDownScan sampleDB scenarioStock = [scenarioTarget] := by
    simp [scanTargets, GetAnalystTargets, sentimentDownScan, calmScan, sampleDB,
      scenarioTarget, mkTarget, scenarioStock]
  have hss : scanSentiments sentimentDownScan sampleDB scenarioStock = [] := by
    simp [scanSentiments, GetSentimentScores, sentimentDownScan]
  rw [scan_ok sentimentDownScan sampleDB [scenarioStock]
    (by simp [GetAllStocks, sentimentDownScan, calmScan, sampleDB])]
  simp only [List.filterMap_cons, List.filterMap_nil, scanEntry, hprices, hs, ht, hss,
    List.getLast?_singleton]
  rw [show samplePrice.ClosePrice = 100 from rfl,
    calculate_some scenarioStock 100 (by norm_num)]
  norm_num [fundamentalScore, analystScore, sentimentScore, compositeScore,
    FundamentalWeight, AnalystWeight, SentimentWeight, scenarioStatement, scenarioTarget,
    mkStatement, mkTarget, scenarioStock, UUID.String]

/-- C15, amended: whenever the list of securities was obtained the scan does
not abort and answers 200 with the entries of the securities; a security
contributes no entry when its price read fails or returns no price, when its
statements read fails, when its analyst-targets read fails, or when
`CalculateUndervaluation`, called on the closing price of the last price read
and on the collections handed over, returns an error, which it does exactly
when that closing price is 0; a failed sentiment read is replaced by the empty
collection and the security is scored all the same. -/
theorem scan_skips_and_goes_on (w : ScanWorld) (d : DB) (allStocks : List Stock)
    (hall : GetAllStocks d w.allStocksFault = Except.ok allStocks) :
    getUndervaluedStocksHandler w d =
      { status := 200, body := Body.undervalued (allStocks.filterMap (scanEntry w d)) } ∧
    (∀ (stock : Stock),
      ((∃ e, GetHistoricalPrices d stock.StockID (w.AddDate w.now (-1) 0 0) w.now
          (w.pricesFault stock.StockID) = Except.error e) ∨
        GetHistoricalPrices d stock.StockID (w.AddDate w.now (-1) 0 0) w.now
          (w.pricesFault stock.StockID) = Except.ok [] ∨
        (∃ e, GetFinancialStatements d stock.StockID "annual"
          (w.statementsFault stock.StockID) = Except.error e) ∨
        (∃ e, GetAnalystTargets d stock.StockID (w.targetsFault stock.StockID) =
          Except.error e) ∨
        (∃ prices last e,
          GetHistoricalPrices d stock.StockID (w.AddDate w.now (-1) 0 0) w.now
            (w.pricesFault stock.StockID) = Except.ok prices ∧
          prices.getLast? = some last ∧
          CalculateUndervaluation (some stock) last.ClosePrice (scanStatements w d stock)
            (scanTargets w d stock) (scanSentiments w d stock) = Except.error e)) →
        scanEntry w d stock = none) ∧
    (∀ (stock : Stock) (e : String),
      GetSentimentScores d stock.StockID (w.AddDate w.now 0 0 (-7)) w.now "Overall"
          (w.sentimentFault stock.StockID) = Except.error e →
        scanSentiments w d stock = []) ∧
    (∀ (stock : Stock) (latestPrice : ℚ) (fs : List FinancialStatement)
      (ats : List AnalystTarget) (ss : List SentimentScore),
      (∃ e, CalculateUndervaluation (some stock) latestPrice fs ats ss = Except.error e) ↔
        latestPrice = 0) := by
  refine ⟨scan_ok w d allStocks hall, ?_, ?_, ?_⟩
  · intro stock hcase
    rcases hcase with ⟨e, he⟩ | hempty | ⟨e, he⟩ | ⟨e, he⟩ | ⟨prices, last, e, hp, hl, he⟩
    · simp [scanEntry, he]
    · simp [scanEntry, hempty]
    · apply scanEntry_none_of_low
      intro latestPrice r hr
      have hnil : scanStatements w d stock = [] := by simp [scanStatements, he]
      rw [hnil] at hr
      exact score_lt_of_no_statements hr
    · apply scanEntry_none_of_low
      intro latestPrice r hr
      have hnil : scanTargets w d stock = [] := by simp [scanTargets, he]
      rw [hnil] at hr
      exact score_lt_of_no_targets hr
    · simp only [scanEntry, hp, hl, he]
  · intro stock e he
    simp [scanSentiments, he]
  · intro stock latestPrice fs ats ss
    by_cases hp : latestPrice = 0
    · simp [CalculateUndervaluation, hp]
    · simp [calculate_some stock latestPrice hp, hp]

/-- C15 amended, at the sample store with the one stored price closing at 0,
no read failing: the last close handed to `CalculateUndervaluation` is 0, the
call returns the invalid-input error, the security contributes no entry, and
the scan answers 200 with the empty list. -/
theorem scan_skips_and_goes_on_witness :
    GetAllStocks zeroCloseDB calmScan.allStocksFault = Except.ok [scenarioStock] ∧
    GetHistoricalPrices zeroCloseDB scenarioStock.StockID
      (calmScan.AddDate calmScan.now (-1) 0 0) calmScan.now
      (calmScan.pricesFault scenarioStock.StockID) =
        Except.ok [{ samplePrice with ClosePrice := 0 }] ∧
    CalculateUndervaluation (some scenarioStock) 0 (scanStatements calmScan zeroCloseDB scenarioStock)
      (scanTargets calmScan zeroCloseDB scenarioStock)
      (scanSentiments calmScan zeroCloseDB scenarioStock) = Except.error invalidInput ∧
    scanEntry calmScan zeroCloseDB scenarioStock = none ∧
    getUndervaluedStocksHandler calmScan zeroCloseDB =
      { status := 200, body := Body.undervalued [] } := by
  have hall : GetAllStocks zeroCloseDB calmScan.allStocksFault =
      Except.ok [scenarioStock] := by
    simp [GetAllStocks, calmScan, zeroCloseDB, sampleDB]
  have hprices : GetHistoricalPrices zeroCloseDB scenarioStock.StockID
      (calmScan.AddDate calmScan.now (-1) 0 0) calmScan.now
      (calmScan.pricesFault scenarioStock.StockID) =
        Except.ok [{ samplePrice with ClosePrice := 0 }] := by
    simp [GetHistoricalPrices, calmScan, zeroCloseDB, sampleDB, sampleAddDate,
      samplePrice, scenarioStock]
  have hcalc : CalculateUndervaluation (some scenarioStock) 0
      (scanStatements calmScan zeroCloseDB scenarioStock)
      (scanTargets calmScan zeroCloseDB scenarioStock)
      (scanSentiments calmScan zeroCloseDB scenarioStock) = Except.error invalidInput := by
    simp [CalculateUndervaluation]
  have key := scan_skips_and_goes_on calmScan zeroCloseDB [scenarioStock] hall
  have hnone : scanEntry calmScan zeroCloseDB scenarioStock = none :=
    key.2.1 scenarioStock
      (Or.inr (Or.inr (Or.inr (Or.inr
        ⟨[{ samplePrice with ClosePrice := 0 }], { samplePrice with ClosePrice := 0 },
          invalidInput, hprices, rfl, hcalc⟩))))
  refine ⟨hall, hprices, hcalc, hnone, ?_⟩
  rw [key.1]
  simp only [List.filterMap_cons, List.filterMap_nil, hnone]

end App

/-! ## The upsert of price rows -/

namespace database

open models

/-- A stored row with the key of the proposed one becomes the proposed one. -/
theorem updatePriceRow_eq (price row : HistoricalPrice) (h : samePriceKey price row) :
    updatePriceRow price row = price := by
  obtain ⟨h1, h2⟩ := h
  cases row
  cases price
  simp only at h1 h2
  subst h1 h2
  rfl

/-- Having the same key, in terms of `priceKey`. -/
theorem samePriceKey_iff (price row : HistoricalPrice) :
    samePriceKey price row ↔ priceKey row = priceKey price := by
  simp [samePriceKey, priceKey, Prod.ext_iff]

/-- The statement replaces a row of the same key and leaves the others. -/
theorem setPrice_eq (price row : HistoricalPrice) :
    setPrice price row = if priceKey row = priceKey price then price else row := by
  unfold setPrice
  by_cases h : samePriceKey price row
  · rw [if_pos h, if_pos ((samePriceKey_iff price row).mp h), updatePriceRow_eq price row h]
  · rw [if_neg h, if_neg (fun hk => h ((samePriceKey_iff price row).mpr hk))]

/-- The statement keeps the key of every row. -/
theorem priceKey_setPrice (price row : HistoricalPrice) :
    priceKey (setPrice price row) = priceKey row := by
  rw [setPrice_eq]
  split
  · rename_i h; exact h.symm
  · rfl

/-- A sequence of statements keeps the key of every row. -/
theorem priceKey_setPrices (prices : List HistoricalPrice) (row : HistoricalPrice) :
    priceKey (setPrices prices row) = priceKey row := by
  induction prices generalizing row with
  | nil => rfl
  | cons price rest ih =>
    show priceKey (setPrices rest (setPrice price row)) = priceKey row
    rw [ih, priceKey_setPrice]

/-- The effect of a sequence ending in `price`. -/
theorem setPrices_append_singleton (prices : List HistoricalPrice)
    (price row : HistoricalPrice) :
    setPrices (prices ++ [price]) row = setPrice price (setPrices prices row) := by
  simp [setPrices, List.foldl_append]

/-- The conflict test of the statement, in terms of keys. -/
theorem any_samePriceKey_iff (rows : List HistoricalPrice) (price : HistoricalPrice) :
    rows.any (fun row => decide (samePriceKey price row)) = true ↔
      priceKey price ∈ rows.map priceKey := by
  simp only [List.any_eq_true, decide_eq_true_eq, List.mem_map, samePriceKey_iff]

/-- On a conflict the statement rewrites the rows in place. -/
theorem upsertPrice_of_mem (rows : List HistoricalPrice) (price : HistoricalPrice)
    (h : priceKey price ∈ rows.map priceKey) :
    upsertPrice rows price = rows.map (setPrice price) := by
  unfold upsertPrice
  rw [if_pos ((any_samePriceKey_iff rows price).mpr h)]
  rfl

/-- Without a conflict the statement adds the row. -/
theorem upsertPrice_of_not_mem (rows : List HistoricalPrice) (price : HistoricalPrice)
    (h : priceKey price ∉ rows.map priceKey) :
    upsertPrice rows price = rows ++ [price] := by
  unfold upsertPrice
  rw [if_neg (fun hc => h ((any_samePriceKey_iff rows price).mp hc))]

/-- Rewriting in place keeps the sequence of keys. -/
theorem map_priceKey_map_setPrice (rows : List HistoricalPrice) (price : HistoricalPrice) :
    (rows.map (setPrice price)).map priceKey = rows.map priceKey := by
  rw [List.map_map]
  apply List.map_congr_left
  intro row _
  exact priceKey_setPrice price row

/-- The keys of the table after the statement. -/
theorem map_priceKey_upsertPrice (rows : List HistoricalPrice) (price : HistoricalPrice) :
    (upsertPrice rows price).map priceKey =
      if priceKey price ∈ rows.map priceKey then rows.map priceKey
      else rows.map priceKey ++ [priceKey price] := by
  by_cases h : priceKey price ∈ rows.map priceKey
  · rw [if_pos h, upsertPrice_of_mem rows price h, map_priceKey_map_setPrice]
  · rw [if_neg h, upsertPrice_of_not_mem rows price h, List.map_append]
    rfl

/-- After the statement the key of the proposed row is in the table. -/
theorem priceKey_mem_upsertPrice (rows : List HistoricalPrice) (price : HistoricalPrice) :
    priceKey price ∈ (upsertPrice rows price).map priceKey := by
  rw [map_priceKey_upsertPrice]
  split
  · assumption
  · simp

/-- The statement never removes a key. -/
theorem priceKey_mem_upsertPrice_of_mem (rows : List HistoricalPrice)
    (price : HistoricalPrice) (k : Int × UUID) (hk : k ∈ rows.map priceKey) :
    k ∈ (upsertPrice rows price).map priceKey := by
  rw [map_priceKey_upsertPrice]
  split
  · exact hk
  · exact List.mem_append_left _ hk

/-- The statement keeps the keys of the table free of duplicates. -/
theorem nodup_upsertPrice (rows : List HistoricalPrice) (price : HistoricalPrice)
    (h : (rows.map priceKey).Nodup) : ((upsertPrice rows price).map priceKey).Nodup := by
  rw [map_priceKey_upsertPrice]
  split
  · exact h
  · rename_i hn
    rw [List.nodup_append]
    refine ⟨h, List.nodup_singleton _, ?_⟩
    intro a ha hb
    rw [List.mem_singleton] at hb
    subst hb
    exact hn ha

/-- A sequence of statements never removes a key. -/
theorem priceKey_mem_foldl_of_mem (prices rows : List HistoricalPrice) (k : Int × UUID)
    (hk : k ∈ rows.map priceKey) : k ∈ (prices.foldl upsertPrice rows).map priceKey := by
  induction prices generalizing rows with
  | nil => exact hk
  | cons price rest ih =>
    exact ih (upsertPrice rows price) (priceKey_mem_upsertPrice_of_mem rows price k hk)

/-- After a sequence of statements the key of every proposed row is in the
table. -/
theorem priceKey_mem_foldl (prices rows : List HistoricalPrice) (price : HistoricalPrice)
    (hp : price ∈ prices) : priceKey price ∈ (prices.foldl upsertPrice rows).map priceKey := by
  induction prices generalizing rows with
  | nil => cases hp
  | cons q rest ih =>
    rcases List.mem_cons.mp hp with rfl | hrest
    · exact priceKey_mem_foldl_of_mem rest _ _ (priceKey_mem_upsertPrice rows price)
    · exact ih (upsertPrice rows q) hrest

/-- A sequence of statements keeps the keys of the table free of duplicates. -/
theorem nodup_foldl_upsertPrice (prices rows : List HistoricalPrice)
    (h : (rows.map priceKey).Nodup) :
    ((prices.foldl upsertPrice rows).map priceKey).Nodup := by
  induction prices generalizing rows with
  | nil => exact h
  | cons price rest ih => exact ih (upsertPrice rows price) (nodup_upsertPrice rows price h)

/-- When every proposed key is already in the table, the sequence of
statements rewrites the rows in place. -/
theorem foldl_upsertPrice_of_all_mem (prices rows : List HistoricalPrice)
    (h : ∀ price ∈ prices, priceKey price ∈ rows.map priceKey) :
    prices.foldl upsertPrice rows = rows.map (setPrices prices) := by
  induction prices generalizing rows with
  | nil =>
    have hid : setPrices [] = id := rfl
    rw [hid, List.map_id, List.foldl_nil]
  | cons price rest ih =>
    have hhead := h price (List.mem_cons_self _ _)
    rw [List.foldl_cons, upsertPrice_of_mem rows price hhead]
    rw [ih (rows.map (setPrice price))]
    · rw [List.map_map]
      rfl
    · intro q hq
      rw [map_priceKey_map_setPrice]
      exact h q (List.mem_cons_of_mem _ hq)

/-- A row proposed last in a sequence comes out of that sequence unchanged. -/
theorem setPrice_setPrices_self (prices : List HistoricalPrice) (price : HistoricalPrice) :
    setPrice price (setPrices prices price) = price := by
  rw [setPrice_eq, if_pos (priceKey_setPrices prices price)]

/-- Every row of the table after a sequence of statements comes out of the
same sequence unchanged. -/
theorem setPrices_of_mem_foldl (prices rows : List HistoricalPrice) :
    ∀ row ∈ prices.foldl upsertPrice rows, setPrices prices row = row := by
  induction prices using List.reverseRecOn with
  | nil => intro row _; rfl
  | append_singleton rest price ih =>
    intro row hrow
    rw [List.foldl_append, List.foldl_cons, List.foldl_nil] at hrow
    rw [setPrices_append_singleton]
    by_cases hmem : priceKey price ∈ (rest.foldl upsertPrice rows).map priceKey
    · rw [upsertPrice_of_mem _ _ hmem, List.mem_map] at hrow
      obtain ⟨row0, hrow0, rfl⟩ := hrow
      by_cases hk : priceKey row0 = priceKey price
      · have hval : setPrice price row0 = price := by rw [setPrice_eq, if_pos hk]
        rw [hval]
        exact setPrice_setPrices_self rest price
      · have hval : setPrice price row0 = row0 := by rw [setPrice_eq, if_neg hk]
        rw [hval, ih row0 hrow0]
        exact hval
    · rw [upsertPrice_of_not_mem _ _ hmem, List.mem_append, List.mem_singleton] at hrow
      rcases hrow with hrow | rfl
      · have hk : priceKey row ≠ priceKey price := by
          intro hk
          exact hmem (hk ▸ List.mem_map_of_mem priceKey hrow)
        rw [ih row hrow, setPrice_eq, if_neg hk]
      · exact setPrice_setPrices_self rest row

/-- Running a sequence of upserts a second time changes nothing. -/
theorem foldl_upsertPrice_idem (prices rows : List HistoricalPrice) :
    prices.foldl upsertPrice (prices.foldl upsertPrice rows) =
      prices.foldl upsertPrice rows := by
  rw [foldl_upsertPrice_of_all_mem prices (prices.foldl upsertPrice rows)
    (fun price hp => priceKey_mem_foldl prices rows price hp)]
  conv_rhs => rw [← List.map_id (prices.foldl upsertPrice rows)]
  apply List.map_congr_left
  intro row hrow
  exact setPrices_of_mem_foldl prices rows row hrow

end database

/-! ## The ingestion -/

namespace App

open models fmp database undervaluation

/-- The calls of the loop: one insertion per bar whose date parses, in order,
whatever fails. -/
theorem insertPrices_calls (w : IngestWorld) (stockID : UUID) (i : Nat)
    (fmpPrices : List HistoricalPriceFMP) (d : DB) (calls : List Call) :
    (insertPrices w stockID i fmpPrices d calls).2 =
      calls ++ (parsedBars w stockID fmpPrices).map Call.dbInsertHistoricalPrice := by
  induction fmpPrices generalizing i d calls with
  | nil => simp [insertPrices, parsedBars]
  | cons p rest ih =>
    unfold insertPrices
    cases hparse : w.parseDate p.Date with
    | error e =>
      simp only [ih]
      simp [parsedBars, List.filterMap_cons, hparse]
    | ok priceTime =>
      simp only []
      cases InsertHistoricalPrice d (toHistoricalPrice stockID priceTime p)
          (w.insertPriceFault i) with
      | error e =>
        simp only [ih]
        simp [parsedBars, List.filterMap_cons, hparse]
      | ok d1 =>
        simp only [ih]
        simp [parsedBars, List.filterMap_cons, hparse]

/-- The store after the loop when no insertion fails: the upserts of the
parsed bars, in order, on the price table; the other tables are untouched. -/
theorem insertPrices_db (w : IngestWorld) (stockID : UUID) (i : Nat)
    (fmpPrices : List HistoricalPriceFMP) (d : DB) (calls : List Call)
    (hw : ∀ j, w.insertPriceFault j = none) :
    (insertPrices w stockID i fmpPrices d calls).1 =
      { d with historical_prices :=
          (parsedBars w stockID fmpPrices).foldl upsertPrice d.historical_prices } := by
  induction fmpPrices generalizing i d calls with
  | nil => simp [insertPrices, parsedBars]
  | cons p rest ih =>
    unfold insertPrices
    cases hparse : w.parseDate p.Date with
    | error e =>
      simp only [ih]
      simp [parsedBars, List.filterMap_cons, hparse]
    | ok priceTime =>
      simp only [InsertHistoricalPrice, hw i, ih]
      simp [parsedBars, List.filterMap_cons, hparse]

/-- The loop touches the price table only, whatever fails. -/
theorem insertPrices_frame (w : IngestWorld) (stockID : UUID) (i : Nat)
    (fmpPrices : List HistoricalPriceFMP) (d : DB) (calls : List Call) :
    (insertPrices w stockID i fmpPrices d calls).1.stocks = d.stocks ∧
    (insertPrices w stockID i fmpPrices d calls).1.financial_statements =
      d.financial_statements ∧
    (insertPrices w stockID i fmpPrices d calls).1.analyst_targets = d.analyst_targets ∧
    (insertPrices w stockID i fmpPrices d calls).1.sentiment_scores = d.sentiment_scores := by
  induction fmpPrices generalizing i d calls with
  | nil => simp [insertPrices]
  | cons p rest ih =>
    unfold insertPrices
    cases hparse : w.parseDate p.Date with
    | error e => exact ih _ _ _
    | ok priceTime =>
      simp only []
      cases hfault : w.insertPriceFault i with
      | none =>
        simp only [InsertHistoricalPrice]
        exact ih _ _ _
      | some e =>
        simp only [InsertHistoricalPrice]
        exact ih _ _ _

/-- Every parsed bar carries the identifier it was built for. -/
theorem parsedBars_stockID (w : IngestWorld) (stockID : UUID)
    (fmpPrices : List HistoricalPriceFMP) :
    ∀ price ∈ parsedBars w stockID fmpPrices, price.StockID = stockID := by
  intro price hprice
  unfold parsedBars at hprice
  obtain ⟨p, -, hp⟩ := List.mem_filterMap.mp hprice
  cases hparse : w.parseDate p.Date with
  | error e => simp [hparse] at hp
  | ok priceTime =>
    simp only [hparse, Option.some.injEq] at hp
    subst hp
    rfl

/-- The price insertions among some calls followed by price insertions. -/
theorem priceInserts_append_map (calls : List Call) (prices : List HistoricalPrice) :
    priceInserts (calls ++ prices.map Call.dbInsertHistoricalPrice) =
      priceInserts calls ++ prices := by
  unfold priceInserts
  rw [List.filterMap_append, List.filterMap_map]
  congr 1
  induction prices with
  | nil => rfl
  | cons price rest ih =>
    rw [List.filterMap_cons]
    simp only [Function.comp_apply]
    rw [ih]

/-- The ingestion when the security is found in the store. -/
theorem ingest_found (w : IngestWorld) (d : DB) (symbol : String)
    (fmpPrices : List HistoricalPriceFMP) (stock : Stock)
    (hsym : symbol ≠ "") (hfetch : w.fmpPrices = Except.ok fmpPrices)
    (hget : GetStockBySymbol d symbol w.getStockFault = Except.ok (some stock)) :
    ingestHistoricalPricesHandler w d symbol =
      ingestBars w symbol stock fmpPrices d
        [Call.fmpGetHistoricalPrices symbol (w.AddDate w.now (-1) 0 0) w.now,
         Call.dbGetStockBySymbol symbol] := by
  unfold ingestHistoricalPricesHandler
  rw [if_neg hsym]
  simp only [hfetch, hget]
  rfl

/-- The ingestion when the security is unknown and is created from the first
profile. -/
theorem ingest_created (w : IngestWorld) (d d1 : DB) (symbol : String)
    (fmpPrices : List HistoricalPriceFMP) (profile : CompanyProfileFMP)
    (rest : List CompanyProfileFMP) (stock1 : Stock)
    (hsym : symbol ≠ "") (hfetch : w.fmpPrices = Except.ok fmpPrices)
    (hget : GetStockBySymbol d symbol w.getStockFault = Except.ok none)
    (hprofile : w.fmpProfiles = Except.ok (profile :: rest))
    (hinsert : InsertStock d (newStock symbol profile) w.newID w.now w.insertStockFault =
      Except.ok (stock1, d1)) :
    ingestHistoricalPricesHandler w d symbol =
      ingestBars w symbol stock1 fmpPrices d1
        [Call.fmpGetHistoricalPrices symbol (w.AddDate w.now (-1) 0 0) w.now,
         Call.dbGetStockBySymbol symbol,
         Call.fmpGetCompanyProfile symbol,
         Call.dbInsertStock (newStock symbol profile)] := by
  unfold ingestHistoricalPricesHandler
  rw [if_neg hsym]
  simp only [hfetch, hget, hprofile, hinsert]
  rfl

end App

namespace App

open models fmp database undervaluation

/-- The store after the ingestion of a known security when no insertion
fails. -/
theorem ingest_found_db (w : IngestWorld) (d : DB) (symbol : String)
    (fmpPrices : List HistoricalPriceFMP) (stock : Stock)
    (hsym : symbol ≠ "") (hfetch : w.fmpPrices = Except.ok fmpPrices)
    (hget : GetStockBySymbol d symbol w.getStockFault = Except.ok (some stock))
    (hw : ∀ j, w.insertPriceFault j = none) :
    (ingestHistoricalPricesHandler w d symbol).db =
      { d with historical_prices :=
          (parsedBars w stock.StockID fmpPrices).foldl upsertPrice d.historical_prices } := by
  rw [ingest_found w d symbol fmpPrices stock hsym hfetch hget]
  exact insertPrices_db w stock.StockID 0 fmpPrices d _ hw

/-- The calls of the ingestion of a known security. -/
theorem ingest_found_calls (w : IngestWorld) (d : DB) (symbol : String)
    (fmpPrices : List HistoricalPriceFMP) (stock : Stock)
    (hsym : symbol ≠ "") (hfetch : w.fmpPrices = Except.ok fmpPrices)
    (hget : GetStockBySymbol d symbol w.getStockFault = Except.ok (some stock)) :
    (ingestHistoricalPricesHandler w d symbol).calls =
      [Call.fmpGetHistoricalPrices symbol (w.AddDate w.now (-1) 0 0) w.now,
       Call.dbGetStockBySymbol symbol] ++
        (parsedBars w stock.StockID fmpPrices).map Call.dbInsertHistoricalPrice := by
  rw [ingest_found w d symbol fmpPrices stock hsym hfetch hget]
  exact insertPrices_calls w stock.StockID 0 fmpPrices d _

/-- The calls of the ingestion of a security created from a profile. -/
theorem ingest_created_calls (w : IngestWorld) (d d1 : DB) (symbol : String)
    (fmpPrices : List HistoricalPriceFMP) (profile : CompanyProfileFMP)
    (rest : List CompanyProfileFMP) (stock1 : Stock)
    (hsym : symbol ≠ "") (hfetch : w.fmpPrices = Except.ok fmpPrices)
    (hget : GetStockBySymbol d symbol w.getStockFault = Except.ok none)
    (hprofile : w.fmpProfiles = Except.ok (profile :: rest))
    (hinsert : InsertStock d (newStock symbol profile) w.newID w.now w.insertStockFault =
      Except.ok (stock1, d1)) :
    (ingestHistoricalPricesHandler w d symbol).calls =
      [Call.fmpGetHistoricalPrices symbol (w.AddDate w.now (-1) 0 0) w.now,
       Call.dbGetStockBySymbol symbol,
       Call.fmpGetCompanyProfile symbol,
       Call.dbInsertStock (newStock symbol profile)] ++
        (parsedBars w stock1.StockID fmpPrices).map Call.dbInsertHistoricalPrice := by
  rw [ingest_created w d d1 symbol fmpPrices profile rest stock1 hsym hfetch hget hprofile
    hinsert]
  exact insertPrices_calls w stock1.StockID 0 fmpPrices d1 _

end App

/-! ## The claims on the ingestion -/

namespace App

open models fmp database undervaluation

/-- C17: for every fetched window, once the security is resolved (found in the
store, or created from the first profile), the ingestion tries an upsert for
exactly the bars whose date parses, in the fetched order, each with the
resolved security identifier and with open, high, low, close, volume, vwap,
change and pctChange copied unchanged; a bar whose date does not parse is
passed over; this holds whatever insertions fail.  When no insertion fails,
every bar whose date parses has its key in the price table afterwards. -/
theorem bars_upserted_in_order (w : IngestWorld) (d : DB) (symbol : String)
    (fmpPrices : List HistoricalPriceFMP)
    (hsym : symbol ≠ "") (hfetch : w.fmpPrices = Except.ok fmpPrices) :
    (∀ stock : Stock,
      GetStockBySymbol d symbol w.getStockFault = Except.ok (some stock) →
      priceInserts (ingestHistoricalPricesHandler w d symbol).calls =
        fmpPrices.filterMap (fun p =>
          match w.parseDate p.Date with
          | Except.error _ => none
          | Except.ok priceTime =>
            some
              { Time := priceTime
                StockID := stock.StockID
                OpenPrice := p.Open
                HighPrice := p.High
                LowPrice := p.Low
                ClosePrice := p.Close
                Volume := p.Volume
                VWAP := p.VWAP
                PriceChange := p.Change
                PctChange := p.PctChange })) ∧
    (∀ (profile : CompanyProfileFMP) (rest : List CompanyProfileFMP) (stock1 : Stock)
        (d1 : DB),
      GetStockBySymbol d symbol w.getStockFault = Except.ok none →
      w.fmpProfiles = Except.ok (profile :: rest) →
      InsertStock d (newStock symbol profile) w.newID w.now w.insertStockFault =
        Except.ok (stock1, d1) →
      priceInserts (ingestHistoricalPricesHandler w d symbol).calls =
        fmpPrices.filterMap (fun p =>
          match w.parseDate p.Date with
          | Except.error _ => none
          | Except.ok priceTime =>
            some
              { Time := priceTime
                StockID := stock1.StockID
                OpenPrice := p.Open
                HighPrice := p.High
                LowPrice := p.Low
                ClosePrice := p.Close
                Volume := p.Volume
                VWAP := p.VWAP
                PriceChange := p.Change
                PctChange := p.PctChange })) ∧
    (∀ stock : Stock,
      GetStockBySymbol d symbol w.getStockFault = Except.ok (some stock) →
      (∀ j, w.insertPriceFault j = none) →
      ∀ price ∈ parsedBars w stock.StockID fmpPrices,
        priceKey price ∈
          (ingestHistoricalPricesHandler w d symbol).db.historical_prices.map priceKey) := by
  refine ⟨?_, ?_, ?_⟩
  · intro stock hget
    rw [ingest_found_calls w d symbol fmpPrices stock hsym hfetch hget,
      priceInserts_append_map]
    rfl
  · intro profile rest stock1 d1 hget hprofile hinsert
    rw [ingest_created_calls w d d1 symbol fmpPrices profile rest stock1 hsym hfetch hget
      hprofile hinsert, priceInserts_append_map]
    rfl
  · intro stock hget hw price hprice
    rw [ingest_found_db w d symbol fmpPrices stock hsym hfetch hget hw]
    exact priceKey_mem_foldl _ _ price hprice

/-- C17, at the sample window (three bars, the middle one with a malformed
date) for the known symbol "ACME", with every insertion failing: the two
well-dated bars are tried, in order, with the stored identifier. -/
theorem bars_upserted_in_order_witness :
    priceInserts (ingestHistoricalPricesHandler allInsertsFailIngest sampleDB "ACME").calls =
      [toHistoricalPrice scenarioStock.StockID 1 (mkBar "2024-01-02" 100),
       toHistoricalPrice scenarioStock.StockID 2 (mkBar "2024-01-03" 102)] := by
  have hget : GetStockBySymbol sampleDB "ACME" allInsertsFailIngest.getStockFault =
      Except.ok (some scenarioStock) := by
    simp [GetStockBySymbol, allInsertsFailIngest, calmIngest, sampleDB, scenarioStock]
  have key := (bars_upserted_in_order allInsertsFailIngest sampleDB "ACME" sampleBars
    (by decide) rfl).1 scenarioStock hget
  rw [key]
  simp [sampleBars, mkBar, allInsertsFailIngest, calmIngest, sampleParse, toHistoricalPrice]

/-- C18: when the ingestion fails because the price fetch of the provider
fails, or because the symbol is unknown and the profile fetch fails or returns
no profile, the store is unchanged and no write to the store was tried: no
security record and no price bar is written. -/
theorem failed_ingest_writes_nothing (w : IngestWorld) (d : DB) (symbol : String)
    (hsym : symbol ≠ "") :
    (∀ e, w.fmpPrices = Except.error e →
      (ingestHistoricalPricesHandler w d symbol).db = d ∧
      storeWrites (ingestHistoricalPricesHandler w d symbol).calls = [] ∧
      (ingestHistoricalPricesHandler w d symbol).response.status = 500) ∧
    (∀ fmpPrices, w.fmpPrices = Except.ok fmpPrices →
      GetStockBySymbol d symbol w.getStockFault = Except.ok none →
      ((∃ e, w.fmpProfiles = Except.error e) ∨ w.fmpProfiles = Except.ok []) →
      (ingestHistoricalPricesHandler w d symbol).db = d ∧
      storeWrites (ingestHistoricalPricesHandler w d symbol).calls = [] ∧
      (ingestHistoricalPricesHandler w d symbol).response.status = 500) := by
  constructor
  · intro e he
    unfold ingestHistoricalPricesHandler
    rw [if_neg hsym]
    simp only [he]
    refine ⟨?_, ?_, ?_⟩ <;> trivial
  · intro fmpPrices hfetch hget hprofile
    unfold ingestHistoricalPricesHandler
    rw [if_neg hsym]
    rcases hprofile with ⟨e, he⟩ | hnil
    · simp only [hfetch, hget, he]
      refine ⟨?_, ?_, ?_⟩ <;> trivial
    · simp only [hfetch, hget, hnil]
      refine ⟨?_, ?_, ?_⟩ <;> trivial

/-- C18, at the sample store with the provider's price fetch failing: the
store is unchanged and nothing was written. -/
theorem failed_ingest_writes_nothing_witness :
    (ingestHistoricalPricesHandler fetchDownIngest sampleDB "NEWCO").db = sampleDB ∧
    storeWrites (ingestHistoricalPricesHandler fetchDownIngest sampleDB "NEWCO").calls = [] ∧
    (ingestHistoricalPricesHandler fetchDownIngest sampleDB "NEWCO").response.status = 500 :=
  (failed_ingest_writes_nothing fetchDownIngest sampleDB "NEWCO" (by decide)).1
    "unexpected status 503" rfl

/-- C19: for a symbol already in the store (`GetStockBySymbol` returns a
record) the ingestion never calls the profile fetch of the provider, never
upserts the security, leaves the table of securities as it was, and every
price bar it tries to persist carries the stored identifier. -/
theorem known_symbol_keeps_identity (w : IngestWorld) (d : DB) (symbol : String)
    (stock : Stock)
    (hget : GetStockBySymbol d symbol w.getStockFault = Except.ok (some stock)) :
    (∀ s, Call.fmpGetCompanyProfile s ∉ (ingestHistoricalPricesHandler w d symbol).calls) ∧
    (∀ st, Call.dbInsertStock st ∉ (ingestHistoricalPricesHandler w d symbol).calls) ∧
    (ingestHistoricalPricesHandler w d symbol).db.stocks = d.stocks ∧
    (∀ price ∈ priceInserts (ingestHistoricalPricesHandler w d symbol).calls,
      price.StockID = stock.StockID) := by
  by_cases hsym : symbol = ""
  · simp [ingestHistoricalPricesHandler, hsym, priceInserts]
  · cases hfetch : w.fmpPrices with
    | error e =>
      unfold ingestHistoricalPricesHandler
      rw [if_neg hsym]
      simp only [hfetch]
      simp [priceInserts]
    | ok fmpPrices =>
      have hcalls := ingest_found_calls w d symbol fmpPrices stock hsym hfetch hget
      refine ⟨?_, ?_, ?_, ?_⟩
      · intro s hmem
        rw [hcalls] at hmem
        simp at hmem
      · intro st hmem
        rw [hcalls] at hmem
        simp at hmem
      · rw [ingest_found w d symbol fmpPrices stock hsym hfetch hget]
        exact (insertPrices_frame w stock.StockID 0 fmpPrices d _).1
      · intro price hprice
        rw [hcalls, priceInserts_append_map] at hprice
        simp only [priceInserts, List.filterMap_cons, List.filterMap_nil,
          List.nil_append] at hprice
        exact parsedBars_stockID w stock.StockID fmpPrices price hprice

/-- C19, at the sample store for the known symbol "ACME": no profile fetch, no
security upsert, and the table of securities is unchanged. -/
theorem known_symbol_keeps_identity_witness :
    (∀ s, Call.fmpGetCompanyProfile s ∉
      (ingestHistoricalPricesHandler calmIngest sampleDB "ACME").calls) ∧
    (∀ st, Call.dbInsertStock st ∉
      (ingestHistoricalPricesHandler calmIngest sampleDB "ACME").calls) ∧
    (ingestHistoricalPricesHandler calmIngest sampleDB "ACME").db.stocks = [scenarioStock] := by
  have hget : GetStockBySymbol sampleDB "ACME" calmIngest.getStockFault =
      Except.ok (some scenarioStock) := by
    simp [GetStockBySymbol, calmIngest, sampleDB, scenarioStock]
  have key := known_symbol_keeps_identity calmIngest sampleDB "ACME" scenarioStock hget
  exact ⟨key.1, key.2.1, key.2.2.1⟩

/-- C20: once the price fetch has succeeded and the security is resolved
(found in the store, or created from the first profile), the ingestion answers
200 for every sequence of fetched bars and whatever parsing or insertion
fails. -/
theorem resolved_ingest_succeeds (w : IngestWorld) (d : DB) (symbol : String)
    (fmpPrices : List HistoricalPriceFMP)
    (hsym : symbol ≠ "") (hfetch : w.fmpPrices = Except.ok fmpPrices) :
    (∀ stock : Stock,
      GetStockBySymbol d symbol w.getStockFault = Except.ok (some stock) →
      (ingestHistoricalPricesHandler w d symbol).response =
        { status := 200
          body := Body.text ("Successfully ingested historical prices for " ++ symbol) }) ∧
    (∀ (profile : CompanyProfileFMP) (rest : List CompanyProfileFMP) (stock1 : Stock)
        (d1 : DB),
      GetStockBySymbol d symbol w.getStockFault = Except.ok none →
      w.fmpProfiles = Except.ok (profile :: rest) →
      InsertStock d (newStock symbol profile) w.newID w.now w.insertStockFault =
        Except.ok (stock1, d1) →
      (ingestHistoricalPricesHandler w d symbol).response =
        { status := 200
          body := Body.text ("Successfully ingested historical prices for " ++ symbol) }) := by
  constructor
  · intro stock hget
    rw [ingest_found w d symbol fmpPrices stock hsym hfetch hget]
    rfl
  · intro profile rest stock1 d1 hget hprofile hinsert
    rw [ingest_created w d d1 symbol fmpPrices profile rest stock1 hsym hfetch hget hprofile
      hinsert]
    rfl

/-- C20, at the sample window for the known symbol "ACME" with one bar
malformed and every insertion failing: the answer is 200 all the same, and the
store is unchanged. -/
theorem resolved_ingest_succeeds_witness :
    (ingestHistoricalPricesHandler allInsertsFailIngest sampleDB "ACME").response =
      { status := 200
        body := Body.text "Successfully ingested historical prices for ACME" } := by
  have hget : GetStockBySymbol sampleDB "ACME" allInsertsFailIngest.getStockFault =
      Except.ok (some scenarioStock) := by
    simp [GetStockBySymbol, allInsertsFailIngest, calmIngest, sampleDB, scenarioStock]
  have key := (resolved_ingest_succeeds allInsertsFailIngest sampleDB "ACME" sampleBars
    (by decide) rfl).1 scenarioStock hget
  rw [key]
  rfl

end App

namespace App

open models fmp database undervaluation

/-- The parsed bars depend on the surroundings through the date parser
only. -/
theorem parsedBars_congr (w1 w2 : IngestWorld) (stockID : UUID)
    (fmpPrices : List HistoricalPriceFMP) (hparse : w2.parseDate = w1.parseDate) :
    parsedBars w2 stockID fmpPrices = parsedBars w1 stockID fmpPrices := by
  unfold parsedBars
  rw [hparse]

/-- The store after the ingestion of a security created from a profile when no
insertion fails. -/
theorem ingest_created_db (w : IngestWorld) (d d1 : DB) (symbol : String)
    (fmpPrices : List HistoricalPriceFMP) (profile : CompanyProfileFMP)
    (rest : List CompanyProfileFMP) (stock1 : Stock)
    (hsym : symbol ≠ "") (hfetch : w.fmpPrices = Except.ok fmpPrices)
    (hget : GetStockBySymbol d symbol w.getStockFault = Except.ok none)
    (hprofile : w.fmpProfiles = Except.ok (profile :: rest))
    (hinsert : InsertStock d (newStock symbol profile) w.newID w.now w.insertStockFault =
      Except.ok (stock1, d1))
    (hw : ∀ j, w.insertPriceFault j = none) :
    (ingestHistoricalPricesHandler w d symbol).db =
      { d1 with historical_prices :=
          (parsedBars w stock1.StockID fmpPrices).foldl upsertPrice d1.historical_prices } := by
  rw [ingest_created w d d1 symbol fmpPrices profile rest stock1 hsym hfetch hget hprofile
    hinsert]
  exact insertPrices_db w stock1.StockID 0 fmpPrices d1 _ hw

/-- A second ingestion of a security that the store returns, over a store
whose price table already took the same bars, changes nothing. -/
theorem ingest_again_found (w : IngestWorld) (d : DB) (symbol : String)
    (fmpPrices : List HistoricalPriceFMP) (stock : Stock) (prices : List HistoricalPrice)
    (hsym : symbol ≠ "") (hfetch : w.fmpPrices = Except.ok fmpPrices)
    (hget : GetStockBySymbol d symbol w.getStockFault = Except.ok (some stock))
    (hw : ∀ j, w.insertPriceFault j = none)
    (hd : d.historical_prices =
      (parsedBars w stock.StockID fmpPrices).foldl upsertPrice prices) :
    (ingestHistoricalPricesHandler w d symbol).db = d := by
  rw [ingest_found_db w d symbol fmpPrices stock hsym hfetch hget hw, hd,
    foldl_upsertPrice_idem, ← hd]

/-- Looking up a symbol that only the appended row carries. -/
theorem find_symbol_append (stocks : List Stock) (stock1 : Stock) (symbol : String)
    (hnone : stocks.find? (fun row => decide (row.Symbol = symbol)) = none)
    (hsym : stock1.Symbol = symbol) :
    (stocks ++ [stock1]).find? (fun row => decide (row.Symbol = symbol)) = some stock1 := by
  rw [List.find?_append, hnone]
  simp [hsym]

/-- No stored row carries a symbol that the lookup does not find. -/
theorem filter_symbol_of_find_none (stocks : List Stock) (symbol : String)
    (hnone : stocks.find? (fun row => decide (row.Symbol = symbol)) = none) :
    stocks.filter (fun row => decide (row.Symbol = symbol)) = [] := by
  rw [List.filter_eq_nil_iff]
  intro row hrow
  have := List.find?_eq_none.mp hnone row hrow
  exact this

/-- The store after one ingestion when no store call fails: unchanged, or the
known security with the parsed bars upserted, or the security created from the
first profile with the parsed bars upserted. -/
theorem ingest_db_cases (w : IngestWorld) (d : DB) (symbol : String) (hw : NoFaults w) :
    (ingestHistoricalPricesHandler w d symbol).db = d ∨
    (∃ fmpPrices stock,
      symbol ≠ "" ∧ w.fmpPrices = Except.ok fmpPrices ∧
      d.stocks.find? (fun row => decide (row.Symbol = symbol)) = some stock ∧
      (ingestHistoricalPricesHandler w d symbol).db =
        { d with historical_prices :=
            (parsedBars w stock.StockID fmpPrices).foldl upsertPrice d.historical_prices }) ∨
    (∃ fmpPrices profile rest,
      symbol ≠ "" ∧ w.fmpPrices = Except.ok fmpPrices ∧
      d.stocks.find? (fun row => decide (row.Symbol = symbol)) = none ∧
      w.fmpProfiles = Except.ok (profile :: rest) ∧
      (ingestHistoricalPricesHandler w d symbol).db =
        { d with
          stocks := d.stocks ++
            [{ newStock symbol profile with
                StockID := w.newID, CreatedAt := w.now, UpdatedAt := w.now }]
          historical_prices :=
            (parsedBars w w.newID fmpPrices).foldl upsertPrice d.historical_prices }) := by
  obtain ⟨hg, hi, hp⟩ := hw
  by_cases hsym : symbol = ""
  · left
    simp [ingestHistoricalPricesHandler, hsym]
  · cases hfetch : w.fmpPrices with
    | error e =>
      left
      unfold ingestHistoricalPricesHandler
      rw [if_neg hsym]
      simp only [hfetch]
    | ok fmpPrices =>
      cases hfind : d.stocks.find? (fun row => decide (row.Symbol = symbol)) with
      | some stock =>
        right; left
        have hget : GetStockBySymbol d symbol w.getStockFault = Except.ok (some stock) := by
          simp only [GetStockBySymbol, hg, hfind]
        exact ⟨fmpPrices, stock, hsym, rfl, rfl,
          ingest_found_db w d symbol fmpPrices stock hsym hfetch hget hp⟩
      | none =>
        have hget : GetStockBySymbol d symbol w.getStockFault = Except.ok none := by
          simp only [GetStockBySymbol, hg, hfind]
        cases hprofile : w.fmpProfiles with
        | error e =>
          left
          unfold ingestHistoricalPricesHandler
          rw [if_neg hsym]
          simp only [hfetch, hget, hprofile]
        | ok profiles =>
          cases profiles with
          | nil =>
            left
            unfold ingestHistoricalPricesHandler
            rw [if_neg hsym]
            simp only [hfetch, hget, hprofile]
          | cons profile rest =>
            right; right
            have hinsert : InsertStock d (newStock symbol profile) w.newID w.now
                w.insertStockFault =
                Except.ok
                  ({ newStock symbol profile with
                      StockID := w.newID, CreatedAt := w.now, UpdatedAt := w.now },
                   { d with stocks := d.stocks ++
                      [{ newStock symbol profile with
                          StockID := w.newID, CreatedAt := w.now, UpdatedAt := w.now }] }) := by
              have hfind1 : d.stocks.find? (fun row =>
                  decide (row.Symbol = (newStock symbol profile).Symbol)) = none := hfind
              simp only [InsertStock, hi, hfind1]
            refine ⟨fmpPrices, profile, rest, hsym, rfl, rfl, rfl, ?_⟩
            rw [ingest_created_db w d _ symbol fmpPrices profile rest _ hsym hfetch hget
              hprofile hinsert hp]

end App

namespace App

open models fmp database undervaluation

/-- A second ingestion with the same provider answers, no store call failing
in either, leaves the store as the first one left it. -/
theorem ingest_twice_db (w1 w2 : IngestWorld) (d : DB) (symbol : String)
    (hfetch : w2.fmpPrices = w1.fmpPrices) (hprofile : w2.fmpProfiles = w1.fmpProfiles)
    (hparse : w2.parseDate = w1.parseDate) (h1 : NoFaults w1) (h2 : NoFaults w2) :
    (ingestHistoricalPricesHandler w2 (ingestHistoricalPricesHandler w1 d symbol).db symbol).db =
      (ingestHistoricalPricesHandler w1 d symbol).db := by
  obtain ⟨hg1, hi1, hp1⟩ := h1
  obtain ⟨hg2, hi2, hp2⟩ := h2
  by_cases hsym : symbol = ""
  · simp [ingestHistoricalPricesHandler, hsym]
  · cases hf1 : w1.fmpPrices with
    | error e =>
      have hf2 : w2.fmpPrices = Except.error e := hfetch.trans hf1
      have honce : (ingestHistoricalPricesHandler w1 d symbol).db = d := by
        unfold ingestHistoricalPricesHandler
        rw [if_neg hsym]
        simp only [hf1]
      rw [honce]
      unfold ingestHistoricalPricesHandler
      rw [if_neg hsym]
      simp only [hf2]
    | ok fmpPrices =>
      have hf2 : w2.fmpPrices = Except.ok fmpPrices := hfetch.trans hf1
      cases hfind : d.stocks.find? (fun row => decide (row.Symbol = symbol)) with
      | some stock =>
        have hget1 : GetStockBySymbol d symbol w1.getStockFault = Except.ok (some stock) := by
          simp only [GetStockBySymbol, hg1, hfind]
        have honce := ingest_found_db w1 d symbol fmpPrices stock hsym hf1 hget1 hp1
        apply ingest_again_found w2 _ symbol fmpPrices stock d.historical_prices hsym hf2 _ hp2
        · rw [honce, parsedBars_congr w1 w2 stock.StockID fmpPrices hparse]
        · rw [honce]
          simp only [GetStockBySymbol, hg2, hfind]
      | none =>
        have hget1 : GetStockBySymbol d symbol w1.getStockFault = Except.ok none := by
          simp only [GetStockBySymbol, hg1, hfind]
        have hget2 : GetStockBySymbol d symbol w2.getStockFault = Except.ok none := by
          simp only [GetStockBySymbol, hg2, hfind]
        cases hprof1 : w1.fmpProfiles with
        | error e =>
          have hprof2 : w2.fmpProfiles = Except.error e := hprofile.trans hprof1
          have honce : (ingestHistoricalPricesHandler w1 d symbol).db = d := by
            unfold ingestHistoricalPricesHandler
            rw [if_neg hsym]
            simp only [hf1, hget1, hprof1]
          rw [honce]
          unfold ingestHistoricalPricesHandler
          rw [if_neg hsym]
          simp only [hf2, hget2, hprof2]
        | ok profiles =>
          cases profiles with
          | nil =>
            have hprof2 : w2.fmpProfiles = Except.ok [] := hprofile.trans hprof1
            have honce : (ingestHistoricalPricesHandler w1 d symbol).db = d := by
              unfold ingestHistoricalPricesHandler
              rw [if_neg hsym]
              simp only [hf1, hget1, hprof1]
            rw [honce]
            unfold ingestHistoricalPricesHandler
            rw [if_neg hsym]
            simp only [hf2, hget2, hprof2]
          | cons profile rest =>
            have hfind1 : d.stocks.find? (fun row =>
                decide (row.Symbol = (newStock symbol profile).Symbol)) = none := hfind
            have hinsert : InsertStock d (newStock symbol profile) w1.newID w1.now
                w1.insertStockFault =
                Except.ok
                  ({ newStock symbol profile with
                      StockID := w1.newID, CreatedAt := w1.now, UpdatedAt := w1.now },
                   { d with stocks := d.stocks ++
                      [{ newStock symbol profile with
                          StockID := w1.newID, CreatedAt := w1.now,
                          UpdatedAt := w1.now }] }) := by
              simp only [InsertStock, hi1, hfind1]
            have honce := ingest_created_db w1 d _ symbol fmpPrices profile rest _ hsym hf1
              hget1 hprof1 hinsert hp1
            apply ingest_again_found w2 _ symbol fmpPrices
              { newStock symbol profile with
                StockID := w1.newID, CreatedAt := w1.now, UpdatedAt := w1.now }
              d.historical_prices hsym hf2 _ hp2
            · rw [honce, parsedBars_congr w1 w2 _ fmpPrices hparse]
            · rw [honce]
              simp only [GetStockBySymbol, hg2]
              rw [find_symbol_append d.stocks _ symbol hfind rfl]

/-- C16: running the ingestion a second time for the same symbol, with the
provider returning the same bars and profile and no store call failing, leaves
the store exactly as the first run left it: the same security record under the
same identifier and the same price rows.  The second run adds no duplicate:
a symbol stored at most once before is stored at most once after, and price
keys `(time, stock_id)` that were distinct before are distinct after. -/
theorem ingest_twice_same_store (w1 w2 : IngestWorld) (d : DB) (symbol : String)
    (hfetch : w2.fmpPrices = w1.fmpPrices) (hprofile : w2.fmpProfiles = w1.fmpProfiles)
    (hparse : w2.parseDate = w1.parseDate) (h1 : NoFaults w1) (h2 : NoFaults w2) :
    (ingestHistoricalPricesHandler w2 (ingestHistoricalPricesHandler w1 d symbol).db symbol).db =
      (ingestHistoricalPricesHandler w1 d symbol).db ∧
    GetStockBySymbol
        (ingestHistoricalPricesHandler w2 (ingestHistoricalPricesHandler w1 d symbol).db
          symbol).db symbol none =
      GetStockBySymbol (ingestHistoricalPricesHandler w1 d symbol).db symbol none ∧
    ((d.stocks.filter (fun row => decide (row.Symbol = symbol))).length ≤ 1 →
      ((ingestHistoricalPricesHandler w2 (ingestHistoricalPricesHandler w1 d symbol).db
          symbol).db.stocks.filter (fun row => decide (row.Symbol = symbol))).length ≤ 1) ∧
    ((d.historical_prices.map priceKey).Nodup →
      ((ingestHistoricalPricesHandler w2 (ingestHistoricalPricesHandler w1 d symbol).db
          symbol).db.historical_prices.map priceKey).Nodup) := by
  have htwice := ingest_twice_db w1 w2 d symbol hfetch hprofile hparse h1 h2
  rw [htwice]
  refine ⟨rfl, rfl, ?_, ?_⟩
  · intro hcount
    rcases ingest_db_cases w1 d symbol h1 with hsame | ⟨bars, stock, -, -, -, hdb⟩ |
      ⟨bars, profile, rest, -, -, hfind, -, hdb⟩
    · rw [hsame]; exact hcount
    · rw [hdb]; exact hcount
    · rw [hdb]
      simp only [List.filter_append, filter_symbol_of_find_none d.stocks symbol hfind,
        List.nil_append]
      exact (List.length_filter_le _ _).trans (by simp)
  · intro hnodup
    rcases ingest_db_cases w1 d symbol h1 with hsame | ⟨bars, stock, -, -, -, hdb⟩ |
      ⟨bars, profile, rest, -, -, -, -, hdb⟩
    · rw [hsame]; exact hnodup
    · rw [hdb]; exact nodup_foldl_upsertPrice _ _ hnodup
    · rw [hdb]; exact nodup_foldl_upsertPrice _ _ hnodup

/-- C16, at the sample store for the unknown symbol "NEWCO": the first run
creates the security and upserts the two well-dated bars; the second run
leaves that store as it is. -/
theorem ingest_twice_same_store_witness :
    (ingestHistoricalPricesHandler calmIngest
        (ingestHistoricalPricesHandler calmIngest sampleDB "NEWCO").db "NEWCO").db =
      (ingestHistoricalPricesHandler calmIngest sampleDB "NEWCO").db ∧
    ((ingestHistoricalPricesHandler calmIngest
        (ingestHistoricalPricesHandler calmIngest sampleDB "NEWCO").db "NEWCO").db.stocks.filter
        (fun row => decide (row.Symbol = "NEWCO"))).length ≤ 1 := by
  have key := ingest_twice_same_store calmIngest calmIngest sampleDB "NEWCO" rfl rfl rfl
    ⟨rfl, rfl, fun _ => rfl⟩ ⟨rfl, rfl, fun _ => rfl⟩
  refine ⟨key.1, key.2.2.1 ?_⟩
  simp [sampleDB, scenarioStock]

end App

/-! ## The ceiling of the composite -/

namespace App

open models fmp database undervaluation

/-- C21: on every successful call the composite before the cap,
`(f*0.50 + a*0.30 + s*0.20) * 100`, is at most 69.5, so the cap at 100 leaves
it as it is and the returned `Score` is that value and never exceeds 69.5; a
call with an empty statement collection or with an empty target collection
returns a `Score` below 50, the threshold of the batch scan, and a security
whose statements or targets handed to the calculator are empty has no entry in
the scan. -/
theorem composite_ceiling (stock : Option Stock) (latestPrice : ℚ)
    (fs : List FinancialStatement) (ats : List AnalystTarget)
    (ss : List SentimentScore) (r : UndervaluationScore)
    (h : CalculateUndervaluation stock latestPrice fs ats ss = Except.ok r) :
    (fundamentalScore fs * 0.50 + analystScore latestPrice ats * 0.30
      + sentimentScore ss * 0.20) * 100 ≤ 69.5 ∧
    r.Score = (fundamentalScore fs * 0.50 + analystScore latestPrice ats * 0.30
      + sentimentScore ss * 0.20) * 100 ∧
    r.Score ≤ 69.5 ∧
    (fs = [] → r.Score < 50) ∧
    (ats = [] → r.Score < 50) ∧
    (∀ (w : ScanWorld) (d : DB) (st : Stock),
      scanStatements w d st = [] ∨ scanTargets w d st = [] → scanEntry w d st = none) := by
  have hbound := (compositeScore_bounds latestPrice fs ats ss).2
  have hform : compositeScore (fundamentalScore fs) (analystScore latestPrice ats)
      (sentimentScore ss) =
      (fundamentalScore fs * 0.50 + analystScore latestPrice ats * 0.30
        + sentimentScore ss * 0.20) * 100 := by
    simp only [compositeScore, FundamentalWeight, AnalystWeight, SentimentWeight]
  have hscore : r.Score = compositeScore (fundamentalScore fs)
      (analystScore latestPrice ats) (sentimentScore ss) := by
    obtain ⟨st, -, -, rfl⟩ := calculate_ok_inv h
    exact min_eq_left (hbound.trans (by norm_num))
  refine ⟨hform ▸ hbound, hscore.trans hform, hscore ▸ hbound, ?_, ?_, ?_⟩
  · intro hfs
    subst hfs
    exact score_lt_of_no_statements h
  · intro hats
    subst hats
    exact score_lt_of_no_targets h
  · intro w d st hempty
    apply scanEntry_none_of_low
    intro p r1 hr1
    rcases hempty with he | he
    · rw [he] at hr1
      exact score_lt_of_no_statements hr1
    · rw [he] at hr1
      exact score_lt_of_no_targets hr1

/-- C21, at the worked scenario, where every contribution is taken: the
composite is 69.5, its ceiling, and the cap has not changed it. -/
theorem composite_ceiling_witness :
    ∃ r, CalculateUndervaluation (some scenarioStock) 100 [scenarioStatement]
        [scenarioTarget] [scenarioSentiment] = Except.ok r ∧
      r.Score = (fundamentalScore [scenarioStatement] * 0.50
        + analystScore 100 [scenarioTarget] * 0.30
        + sentimentScore [scenarioSentiment] * 0.20) * 100 ∧
      r.Score ≤ 69.5 := by
  have hok := calculate_some scenarioStock 100 (by norm_num)
    [scenarioStatement] [scenarioTarget] [scenarioSentiment]
  have key := composite_ceiling _ _ _ _ _ _ hok
  exact ⟨_, hok, key.2.1, key.2.2.1⟩

end App

/-! ## Binary64 arithmetic: rounding certificates -/

namespace binary64

/-- Rounding zero gives zero. -/
theorem round64_zero : round64 0 = 0 := by
  simp [round64]

/-- The binade of a positive rational fixes its binary logarithm. -/
theorem log_eq_of_binade (q : ℚ) (k : ℤ) (hlo : (2 : ℚ) ^ k ≤ q)
    (hhi : q < (2 : ℚ) ^ (k + 1)) : Int.log 2 q = k := by
  have hq : 0 < q := lt_of_lt_of_le (by positivity) hlo
  have h1 : k ≤ Int.log 2 q :=
    (Int.zpow_le_iff_le_log (by norm_num) hq).mp (by exact_mod_cast hlo)
  have h2 : Int.log 2 q < k + 1 :=
    (Int.lt_zpow_iff_log_lt (by norm_num) hq).mp (by exact_mod_cast hhi)
  omega

/-- A rational in the binade of `2 ^ e` that lies less than half a unit in the
last place from `m * 2 ^ e` rounds to `m * 2 ^ e`. -/
theorem round64_of_near (q : ℚ) (m e : ℤ) (hlo : (2 : ℚ) ^ (e + 52) ≤ q)
    (hhi : q < (2 : ℚ) ^ (e + 52 + 1))
    (h1 : m * (2 : ℚ) ^ e - (2 : ℚ) ^ e / 2 < q)
    (h2 : q < m * (2 : ℚ) ^ e + (2 : ℚ) ^ e / 2) :
    round64 q = m * (2 : ℚ) ^ e := by
  have hq : 0 < q := lt_of_lt_of_le (by positivity) hlo
  have hlog := log_eq_of_binade q (e + 52) hlo hhi
  have hpow : (0 : ℚ) < (2 : ℚ) ^ e := by positivity
  have habs : |q| = q := abs_of_pos hq
  have hx1 : (m : ℚ) - 1 / 2 < q / (2 : ℚ) ^ e := by
    rw [lt_div_iff₀ hpow]
    linarith
  have hx2 : q / (2 : ℚ) ^ e < (m : ℚ) + 1 / 2 := by
    rw [div_lt_iff₀ hpow]
    linarith
  unfold round64
  rw [if_neg (ne_of_gt hq)]
  simp only [habs, hlog, add_sub_cancel_right, if_neg (not_lt.mpr hq.le), one_mul]
  congr 1
  norm_cast
  by_cases hge : (m : ℚ) ≤ q / (2 : ℚ) ^ e
  · have hfloor : ⌊q / (2 : ℚ) ^ e⌋ = m := by
      rw [Int.floor_eq_iff]
      constructor
      · exact hge
      · linarith
    rw [hfloor, if_pos (by linarith)]
  · push_neg at hge
    have hfloor : ⌊q / (2 : ℚ) ^ e⌋ = m - 1 := by
      rw [Int.floor_eq_iff]
      constructor
      · push_cast; linarith
      · push_cast; linarith
    rw [hfloor]
    have hn : ¬ (q / (2 : ℚ) ^ e - ((m - 1 : ℤ) : ℚ) < 1 / 2) := by
      push_cast; linarith
    have hp : 1 / 2 < q / (2 : ℚ) ^ e - ((m - 1 : ℤ) : ℚ) := by
      push_cast; linarith
    rw [if_neg hn, if_pos hp]
    ring

/-- A rational in the binade of `2 ^ e` that lies exactly half a unit in the
last place from `m * 2 ^ e`, with `m` even, rounds to `m * 2 ^ e`. -/
theorem round64_of_tie (q : ℚ) (m e : ℤ) (hlo : (2 : ℚ) ^ (e + 52) ≤ q)
    (hhi : q < (2 : ℚ) ^ (e + 52 + 1))
    (htie : q = m * (2 : ℚ) ^ e + (2 : ℚ) ^ e / 2 ∨ q = m * (2 : ℚ) ^ e - (2 : ℚ) ^ e / 2)
    (heven : m % 2 = 0) :
    round64 q = m * (2 : ℚ) ^ e := by
  have hq : 0 < q := lt_of_lt_of_le (by positivity) hlo
  have hlog := log_eq_of_binade q (e + 52) hlo hhi
  have hpow : (0 : ℚ) < (2 : ℚ) ^ e := by positivity
  have habs : |q| = q := abs_of_pos hq
  unfold round64
  rw [if_neg (ne_of_gt hq)]
  simp only [habs, hlog, add_sub_cancel_right, if_neg (not_lt.mpr hq.le), one_mul]
  congr 1
  norm_cast
  rcases htie with hup | hdown
  · have hx : q / (2 : ℚ) ^ e = (m : ℚ) + 1 / 2 := by
      rw [div_eq_iff (ne_of_gt hpow), hup]
      ring
    have hfloor : ⌊q / (2 : ℚ) ^ e⌋ = m := by
      rw [Int.floor_eq_iff]
      constructor <;> linarith
    rw [hfloor, if_neg (by linarith), if_neg (by linarith), if_pos heven]
  · have hx : q / (2 : ℚ) ^ e = (m : ℚ) - 1 / 2 := by
      rw [div_eq_iff (ne_of_gt hpow), hdown]
      ring
    have hfloor : ⌊q / (2 : ℚ) ^ e⌋ = m - 1 := by
      rw [Int.floor_eq_iff]
      constructor <;> (push_cast; linarith)
    rw [hfloor]
    have hn : ¬ (q / (2 : ℚ) ^ e - ((m - 1 : ℤ) : ℚ) < 1 / 2) := by
      push_cast; linarith
    have hp : ¬ (1 / 2 < q / (2 : ℚ) ^ e - ((m - 1 : ℤ) : ℚ)) := by
      push_cast; linarith
    have hodd : ¬ ((m - 1) % 2 = 0) := by omega
    rw [if_neg hn, if_neg hp, if_neg hodd]
    ring

/-- Rounding commutes with negation. -/
theorem round64_neg (q : ℚ) : round64 (-q) = - round64 q := by
  unfold round64
  by_cases h0 : q = 0
  · simp [h0]
  · have h0n : -q ≠ 0 := neg_ne_zero.mpr h0
    rw [if_neg h0, if_neg h0n]
    simp only [abs_neg]
    rcases lt_or_gt_of_ne h0 with hneg | hpos
    · have hn : ¬ (-q < 0) := by linarith
      simp only [hneg, hn, if_true, if_false]
      ring
    · have hp : -q < 0 := by linarith
      have hn : ¬ (q < 0) := by linarith
      simp only [hp, hn, if_true, if_false]
      ring

/-- Rounding keeps a non-negative rational non-negative. -/
theorem round64_nonneg (q : ℚ) (hq : 0 ≤ q) : 0 ≤ round64 q := by
  unfold round64
  by_cases h0 : q = 0
  · simp [h0]
  · rw [if_neg h0]
    simp only [if_neg (not_lt.mpr hq), one_mul]
    have hx : 0 ≤ |q| / (2 : ℚ) ^ (Int.log 2 |q| - 52) := by positivity
    have hf : 0 ≤ ⌊|q| / (2 : ℚ) ^ (Int.log 2 |q| - 52)⌋ := Int.floor_nonneg.mpr hx
    apply mul_nonneg _ (by positivity)
    split_ifs <;> norm_cast <;> omega

/-- Rounding keeps a non-positive rational non-positive. -/
theorem round64_nonpos (q : ℚ) (hq : q ≤ 0) : round64 q ≤ 0 := by
  have h := round64_nonneg (-q) (by linarith)
  rw [round64_neg] at h
  linarith

end binary64

/-! ## Binary64 arithmetic: the constants and sums of the calculator -/

namespace binary64

/-- The binary64 value of the constant 0.3 is 0.3. -/
theorem lit_0_3 :
    lit 0.3 = 5404319552844595 / 18014398509481984 := by
  unfold lit
  rw [round64_of_near (0.3) 5404319552844595 (-54) (by norm_num) (by norm_num)
    (by norm_num) (by norm_num)]
  norm_num

/-- The binary64 value of the constant 0.15 is 0.15. -/
theorem lit_0_15 :
    lit 0.15 = 5404319552844595 / 36028797018963968 := by
  unfold lit
  rw [round64_of_near (0.15) 5404319552844595 (-55) (by norm_num) (by norm_num)
    (by norm_num) (by norm_num)]
  norm_num

/-- The binary64 value of the constant 0.2 is 0.2. -/
theorem lit_0_2 :
    lit 0.2 = 3602879701896397 / 18014398509481984 := by
  unfold lit
  rw [round64_of_near (0.2) 7205759403792794 (-55) (by norm_num) (by norm_num)
    (by norm_num) (by norm_num)]
  norm_num

/-- The binary64 value of the constant 0.4 is 0.4. -/
theorem lit_0_4 :
    lit 0.4 = 3602879701896397 / 9007199254740992 := by
  unfold lit
  rw [round64_of_near (0.4) 7205759403792794 (-54) (by norm_num) (by norm_num)
    (by norm_num) (by norm_num)]
  norm_num

/-- The binary64 value of the constant 0.1 is 0.1. -/
theorem lit_0_1 :
    lit 0.1 = 3602879701896397 / 36028797018963968 := by
  unfold lit
  rw [round64_of_near (0.1) 7205759403792794 (-56) (by norm_num) (by norm_num)
    (by norm_num) (by norm_num)]
  norm_num

/-- The binary64 value of the constant 0.20 is 0.2. -/
theorem lit_0_20 :
    lit 0.20 = 3602879701896397 / 18014398509481984 := by
  unfold lit
  rw [round64_of_near (0.20) 7205759403792794 (-55) (by norm_num) (by norm_num)
    (by norm_num) (by norm_num)]
  norm_num

/-- The binary64 value of the constant 0.10 is 0.1. -/
theorem lit_0_10 :
    lit 0.10 = 3602879701896397 / 36028797018963968 := by
  unfold lit
  rw [round64_of_near (0.10) 7205759403792794 (-56) (by norm_num) (by norm_num)
    (by norm_num) (by norm_num)]
  norm_num

/-- The binary64 value of the constant 0.7 is 0.7. -/
theorem lit_0_7 :
    lit 0.7 = 3152519739159347 / 4503599627370496 := by
  unfold lit
  rw [round64_of_near (0.7) 6305039478318694 (-53) (by norm_num) (by norm_num)
    (by norm_num) (by norm_num)]
  norm_num

/-- The binary64 value of the constant 0.5 is 0.5. -/
theorem lit_0_5 :
    lit 0.5 = 1 / 2 := by
  unfold lit
  rw [round64_of_near (0.5) 4503599627370496 (-53) (by norm_num) (by norm_num)
    (by norm_num) (by norm_num)]
  norm_num

/-- The binary64 value of the constant 0.50 is 0.5. -/
theorem lit_0_50 :
    lit 0.50 = 1 / 2 := by
  unfold lit
  rw [round64_of_near (0.50) 4503599627370496 (-53) (by norm_num) (by norm_num)
    (by norm_num) (by norm_num)]
  norm_num

/-- The binary64 value of the constant 0.30 is 0.3. -/
theorem lit_0_30 :
    lit 0.30 = 5404319552844595 / 18014398509481984 := by
  unfold lit
  rw [round64_of_near (0.30) 5404319552844595 (-54) (by norm_num) (by norm_num)
    (by norm_num) (by norm_num)]
  norm_num

/-- The binary64 value of the constant 0.8 is 0.8. -/
theorem lit_0_8 :
    lit 0.8 = 3602879701896397 / 4503599627370496 := by
  unfold lit
  rw [round64_of_near (0.8) 7205759403792794 (-53) (by norm_num) (by norm_num)
    (by norm_num) (by norm_num)]
  norm_num

/-- The binary64 value of the constant 4.2 is 4.2. -/
theorem lit_4_2 :
    lit 4.2 = 4728779608739021 / 1125899906842624 := by
  unfold lit
  rw [round64_of_near (4.2) 4728779608739021 (-50) (by norm_num) (by norm_num)
    (by norm_num) (by norm_num)]
  norm_num

/-- The binary64 value of the constant 0.85 is 0.85. -/
theorem lit_0_85 :
    lit 0.85 = 7656119366529843 / 9007199254740992 := by
  unfold lit
  rw [round64_of_near (0.85) 7656119366529843 (-53) (by norm_num) (by norm_num)
    (by norm_num) (by norm_num)]
  norm_num

/-- The binary64 value of the constant 0.70 is 0.7. -/
theorem lit_0_70 :
    lit 0.70 = 3152519739159347 / 4503599627370496 := by
  unfold lit
  rw [round64_of_near (0.70) 6305039478318694 (-53) (by norm_num) (by norm_num)
    (by norm_num) (by norm_num)]
  norm_num

/-- The binary64 value of the constant 14.90 is 14.9. -/
theorem lit_14_90 :
    lit 14.90 = 8387954305977549 / 562949953421312 := by
  unfold lit
  rw [round64_of_near (14.90) 8387954305977549 (-49) (by norm_num) (by norm_num)
    (by norm_num) (by norm_num)]
  norm_num

/-- The binary64 value of the constant 16.39 is 16.39. -/
theorem lit_16_39 :
    lit 16.39 = 1153343717071913 / 70368744177664 := by
  unfold lit
  rw [round64_of_near (16.39) 4613374868287652 (-48) (by norm_num) (by norm_num)
    (by norm_num) (by norm_num)]
  norm_num

/-- In binary64, 0.0 + 0.15 gives 0.15 (exactly). -/
theorem fadd_eval_1 :
    fadd 0 (5404319552844595 / 36028797018963968) = 5404319552844595 / 36028797018963968 := by
  unfold fadd
  rw [round64_of_near (0 + (5404319552844595 / 36028797018963968)) 5404319552844595 (-55) (by norm_num) (by norm_num)
    (by norm_num) (by norm_num)]
  norm_num

/-- In binary64, 0.0 + 0.2 gives 0.2 (exactly). -/
theorem fadd_eval_2 :
    fadd 0 (3602879701896397 / 18014398509481984) = 3602879701896397 / 18014398509481984 := by
  unfold fadd
  rw [round64_of_near (0 + (3602879701896397 / 18014398509481984)) 7205759403792794 (-55) (by norm_num) (by norm_num)
    (by norm_num) (by norm_num)]
  norm_num

/-- In binary64, 0.2 + 0.15 gives 0.35 (rounded, a tie broken to even). -/
theorem fadd_eval_3 :
    fadd (3602879701896397 / 18014398509481984) (5404319552844595 / 36028797018963968) = 3152519739159347 / 9007199254740992 := by
  unfold fadd
  rw [round64_of_tie ((3602879701896397 / 18014398509481984) + (5404319552844595 / 36028797018963968)) 6305039478318694 (-54) (by norm_num) (by norm_num)
    (Or.inl (by norm_num)) (by norm_num)]
  norm_num

/-- In binary64, 0.2 + 0.2 gives 0.4 (exactly). -/
theorem fadd_eval_4 :
    fadd (3602879701896397 / 18014398509481984) (3602879701896397 / 18014398509481984) = 3602879701896397 / 9007199254740992 := by
  unfold fadd
  rw [round64_of_near ((3602879701896397 / 18014398509481984) + (3602879701896397 / 18014398509481984)) 7205759403792794 (-54) (by norm_num) (by norm_num)
    (by norm_num) (by norm_num)]
  norm_num

/-- In binary64, 0.4 + 0.15 gives 0.55 (rounded). -/
theorem fadd_eval_5 :
    fadd (3602879701896397 / 9007199254740992) (5404319552844595 / 36028797018963968) = 2476979795053773 / 4503599627370496 := by
  unfold fadd
  rw [round64_of_near ((3602879701896397 / 9007199254740992) + (5404319552844595 / 36028797018963968)) 4953959590107546 (-53) (by norm_num) (by norm_num)
    (by norm_num) (by norm_num)]
  norm_num

/-- In binary64, 0.0 + 0.3 gives 0.3 (exactly). -/
theorem fadd_eval_6 :
    fadd 0 (5404319552844595 / 18014398509481984) = 5404319552844595 / 18014398509481984 := by
  unfold fadd
  rw [round64_of_near (0 + (5404319552844595 / 18014398509481984)) 5404319552844595 (-54) (by norm_num) (by norm_num)
    (by norm_num) (by norm_num)]
  norm_num

/-- In binary64, 0.3 + 0.15 gives 0.44999999999999996 (rounded, a tie broken to even). -/
theorem fadd_eval_7 :
    fadd (5404319552844595 / 18014398509481984) (5404319552844595 / 36028797018963968) = 2026619832316723 / 4503599627370496 := by
  unfold fadd
  rw [round64_of_tie ((5404319552844595 / 18014398509481984) + (5404319552844595 / 36028797018963968)) 8106479329266892 (-54) (by norm_num) (by norm_num)
    (Or.inl (by norm_num)) (by norm_num)]
  norm_num

/-- In binary64, 0.3 + 0.2 gives 0.5 (exactly). -/
theorem fadd_eval_8 :
    fadd (5404319552844595 / 18014398509481984) (3602879701896397 / 18014398509481984) = 1 / 2 := by
  unfold fadd
  rw [round64_of_near ((5404319552844595 / 18014398509481984) + (3602879701896397 / 18014398509481984)) 4503599627370496 (-53) (by norm_num) (by norm_num)
    (by norm_num) (by norm_num)]
  norm_num

/-- In binary64, 0.5 + 0.15 gives 0.65 (rounded). -/
theorem fadd_eval_9 :
    fadd (1 / 2) (5404319552844595 / 36028797018963968) = 5854679515581645 / 9007199254740992 := by
  unfold fadd
  rw [round64_of_near ((1 / 2) + (5404319552844595 / 36028797018963968)) 5854679515581645 (-53) (by norm_num) (by norm_num)
    (by norm_num) (by norm_num)]
  norm_num

/-- In binary64, 0.5 + 0.2 gives 0.7 (rounded, a tie broken to even). -/
theorem fadd_eval_10 :
    fadd (1 / 2) (3602879701896397 / 18014398509481984) = 3152519739159347 / 4503599627370496 := by
  unfold fadd
  rw [round64_of_tie ((1 / 2) + (3602879701896397 / 18014398509481984)) 6305039478318694 (-53) (by norm_num) (by norm_num)
    (Or.inl (by norm_num)) (by norm_num)]
  norm_num

/-- In binary64, 0.7 + 0.15 gives 0.85 (rounded). -/
theorem fadd_eval_11 :
    fadd (3152519739159347 / 4503599627370496) (5404319552844595 / 36028797018963968) = 7656119366529843 / 9007199254740992 := by
  unfold fadd
  rw [round64_of_near ((3152519739159347 / 4503599627370496) + (5404319552844595 / 36028797018963968)) 7656119366529843 (-53) (by norm_num) (by norm_num)
    (by norm_num) (by norm_num)]
  norm_num

/-- In binary64, 0.15 + 0.15 gives 0.3 (exactly). -/
theorem fadd_eval_12 :
    fadd (5404319552844595 / 36028797018963968) (5404319552844595 / 36028797018963968) = 5404319552844595 / 18014398509481984 := by
  unfold fadd
  rw [round64_of_near ((5404319552844595 / 36028797018963968) + (5404319552844595 / 36028797018963968)) 5404319552844595 (-54) (by norm_num) (by norm_num)
    (by norm_num) (by norm_num)]
  norm_num

/-- In binary64, 0.15 + 0.2 gives 0.35 (rounded, a tie broken to even). -/
theorem fadd_eval_13 :
    fadd (5404319552844595 / 36028797018963968) (3602879701896397 / 18014398509481984) = 3152519739159347 / 9007199254740992 := by
  unfold fadd
  rw [round64_of_tie ((5404319552844595 / 36028797018963968) + (3602879701896397 / 18014398509481984)) 6305039478318694 (-54) (by norm_num) (by norm_num)
    (Or.inl (by norm_num)) (by norm_num)]
  norm_num

/-- In binary64, 0.35 + 0.15 gives 0.5 (rounded, a tie broken to even). -/
theorem fadd_eval_14 :
    fadd (3152519739159347 / 9007199254740992) (5404319552844595 / 36028797018963968) = 1 / 2 := by
  unfold fadd
  rw [round64_of_tie ((3152519739159347 / 9007199254740992) + (5404319552844595 / 36028797018963968)) 9007199254740992 (-54) (by norm_num) (by norm_num)
    (Or.inr (by norm_num)) (by norm_num)]
  norm_num

/-- In binary64, 0.35 + 0.2 gives 0.55 (rounded, a tie broken to even). -/
theorem fadd_eval_15 :
    fadd (3152519739159347 / 9007199254740992) (3602879701896397 / 18014398509481984) = 2476979795053773 / 4503599627370496 := by
  unfold fadd
  rw [round64_of_tie ((3152519739159347 / 9007199254740992) + (3602879701896397 / 18014398509481984)) 4953959590107546 (-53) (by norm_num) (by norm_num)
    (Or.inr (by norm_num)) (by norm_num)]
  norm_num

/-- In binary64, 0.55 + 0.15 gives 0.7000000000000001 (rounded). -/
theorem fadd_eval_16 :
    fadd (2476979795053773 / 4503599627370496) (5404319552844595 / 36028797018963968) = 6305039478318695 / 9007199254740992 := by
  unfold fadd
  rw [round64_of_near ((2476979795053773 / 4503599627370496) + (5404319552844595 / 36028797018963968)) 6305039478318695 (-53) (by norm_num) (by norm_num)
    (by norm_num) (by norm_num)]
  norm_num

/-- In binary64, 0.0 + 0.4 gives 0.4 (exactly). -/
theorem fadd_eval_17 :
    fadd 0 (3602879701896397 / 9007199254740992) = 3602879701896397 / 9007199254740992 := by
  unfold fadd
  rw [round64_of_near (0 + (3602879701896397 / 9007199254740992)) 7205759403792794 (-54) (by norm_num) (by norm_num)
    (by norm_num) (by norm_num)]
  norm_num

/-- In binary64, 0.4 + 0.3 gives 0.7 (rounded, a tie broken to even). -/
theorem fadd_eval_18 :
    fadd (3602879701896397 / 9007199254740992) (5404319552844595 / 18014398509481984) = 3152519739159347 / 4503599627370496 := by
  unfold fadd
  rw [round64_of_tie ((3602879701896397 / 9007199254740992) + (5404319552844595 / 18014398509481984)) 6305039478318694 (-53) (by norm_num) (by norm_num)
    (Or.inl (by norm_num)) (by norm_num)]
  norm_num

/-- In binary64, 0.2 + 0.3 gives 0.5 (exactly). -/
theorem fadd_eval_19 :
    fadd (3602879701896397 / 18014398509481984) (5404319552844595 / 18014398509481984) = 1 / 2 := by
  unfold fadd
  rw [round64_of_near ((3602879701896397 / 18014398509481984) + (5404319552844595 / 18014398509481984)) 4503599627370496 (-53) (by norm_num) (by norm_num)
    (by norm_num) (by norm_num)]
  norm_num

/-- In binary64, 0.0 + 0.1 gives 0.1 (exactly). -/
theorem fadd_eval_20 :
    fadd 0 (3602879701896397 / 36028797018963968) = 3602879701896397 / 36028797018963968 := by
  unfold fadd
  rw [round64_of_near (0 + (3602879701896397 / 36028797018963968)) 7205759403792794 (-56) (by norm_num) (by norm_num)
    (by norm_num) (by norm_num)]
  norm_num

/-- In binary64, 0.2 + 0.1 gives 0.30000000000000004 (rounded, a tie broken to even). -/
theorem fadd_eval_21 :
    fadd (3602879701896397 / 18014398509481984) (3602879701896397 / 36028797018963968) = 1351079888211149 / 4503599627370496 := by
  unfold fadd
  rw [round64_of_tie ((3602879701896397 / 18014398509481984) + (3602879701896397 / 36028797018963968)) 5404319552844596 (-54) (by norm_num) (by norm_num)
    (Or.inr (by norm_num)) (by norm_num)]
  norm_num

/-- In binary64, 0.1 + 0.1 gives 0.2 (exactly). -/
theorem fadd_eval_22 :
    fadd (3602879701896397 / 36028797018963968) (3602879701896397 / 36028797018963968) = 3602879701896397 / 18014398509481984 := by
  unfold fadd
  rw [round64_of_near ((3602879701896397 / 36028797018963968) + (3602879701896397 / 36028797018963968)) 7205759403792794 (-55) (by norm_num) (by norm_num)
    (by norm_num) (by norm_num)]
  norm_num

/-- In binary64, 0.0 + 0.0 gives 0.0 (exactly). -/
theorem fadd_eval_23 :
    fadd 0 0 = 0 := by
  unfold fadd
  rw [show (0 + 0 : ℚ) = 0 by norm_num]
  exact round64_zero

/-- In binary64, 0.4 + 0.0 gives 0.4 (exactly). -/
theorem fadd_eval_24 :
    fadd (3602879701896397 / 9007199254740992) 0 = 3602879701896397 / 9007199254740992 := by
  unfold fadd
  rw [round64_of_near ((3602879701896397 / 9007199254740992) + 0) 7205759403792794 (-54) (by norm_num) (by norm_num)
    (by norm_num) (by norm_num)]
  norm_num

/-- In binary64, 0.2 + 0.0 gives 0.2 (exactly). -/
theorem fadd_eval_25 :
    fadd (3602879701896397 / 18014398509481984) 0 = 3602879701896397 / 18014398509481984 := by
  unfold fadd
  rw [round64_of_near ((3602879701896397 / 18014398509481984) + 0) 7205759403792794 (-55) (by norm_num) (by norm_num)
    (by norm_num) (by norm_num)]
  norm_num

/-- In binary64, 0.0 * 100.0 gives 0.0 (exactly). -/
theorem fmul_eval_26 :
    fmul 0 100 = 0 := by
  unfold fmul
  rw [show (0 * 100 : ℚ) = 0 by norm_num]
  exact round64_zero

/-- In binary64, 0.1 * 100.0 gives 10.0 (rounded). -/
theorem fmul_eval_27 :
    fmul (3602879701896397 / 36028797018963968) 100 = 10 := by
  unfold fmul
  rw [round64_of_near ((3602879701896397 / 36028797018963968) * 100) 5629499534213120 (-49) (by norm_num) (by norm_num)
    (by norm_num) (by norm_num)]
  norm_num

/-- In binary64, 0.15 * 100.0 gives 15.0 (rounded). -/
theorem fmul_eval_28 :
    fmul (5404319552844595 / 36028797018963968) 100 = 15 := by
  unfold fmul
  rw [round64_of_near ((5404319552844595 / 36028797018963968) * 100) 8444249301319680 (-49) (by norm_num) (by norm_num)
    (by norm_num) (by norm_num)]
  norm_num

/-- In binary64, 0.2 * 100.0 gives 20.0 (rounded). -/
theorem fmul_eval_29 :
    fmul (3602879701896397 / 18014398509481984) 100 = 20 := by
  unfold fmul
  rw [round64_of_near ((3602879701896397 / 18014398509481984) * 100) 5629499534213120 (-48) (by norm_num) (by norm_num)
    (by norm_num) (by norm_num)]
  norm_num

/-- In binary64, 0.3 * 100.0 gives 30.0 (rounded). -/
theorem fmul_eval_30 :
    fmul (5404319552844595 / 18014398509481984) 100 = 30 := by
  unfold fmul
  rw [round64_of_near ((5404319552844595 / 18014398509481984) * 100) 8444249301319680 (-48) (by norm_num) (by norm_num)
    (by norm_num) (by norm_num)]
  norm_num

/-- In binary64, 0.30000000000000004 * 100.0 gives 30.000000000000004 (rounded). -/
theorem fmul_eval_31 :
    fmul (1351079888211149 / 4503599627370496) 100 = 8444249301319681 / 281474976710656 := by
  unfold fmul
  rw [round64_of_near ((1351079888211149 / 4503599627370496) * 100) 8444249301319681 (-48) (by norm_num) (by norm_num)
    (by norm_num) (by norm_num)]
  norm_num

/-- In binary64, 0.35 * 100.0 gives 35.0 (rounded). -/
theorem fmul_eval_32 :
    fmul (3152519739159347 / 9007199254740992) 100 = 35 := by
  unfold fmul
  rw [round64_of_near ((3152519739159347 / 9007199254740992) * 100) 4925812092436480 (-47) (by norm_num) (by norm_num)
    (by norm_num) (by norm_num)]
  norm_num

/-- In binary64, 0.4 * 100.0 gives 40.0 (rounded). -/
theorem fmul_eval_33 :
    fmul (3602879701896397 / 9007199254740992) 100 = 40 := by
  unfold fmul
  rw [round64_of_near ((3602879701896397 / 9007199254740992) * 100) 5629499534213120 (-47) (by norm_num) (by norm_num)
    (by norm_num) (by norm_num)]
  norm_num

/-- In binary64, 0.44999999999999996 * 100.0 gives 44.99999999999999 (rounded). -/
theorem fmul_eval_34 :
    fmul (2026619832316723 / 4503599627370496) 100 = 6333186975989759 / 140737488355328 := by
  unfold fmul
  rw [round64_of_near ((2026619832316723 / 4503599627370496) * 100) 6333186975989759 (-47) (by norm_num) (by norm_num)
    (by norm_num) (by norm_num)]
  norm_num

/-- In binary64, 0.5 * 100.0 gives 50.0 (exactly). -/
theorem fmul_eval_35 :
    fmul (1 / 2) 100 = 50 := by
  unfold fmul
  rw [round64_of_near ((1 / 2) * 100) 7036874417766400 (-47) (by norm_num) (by norm_num)
    (by norm_num) (by norm_num)]
  norm_num

/-- In binary64, 0.55 * 100.0 gives 55.00000000000001 (rounded). -/
theorem fmul_eval_36 :
    fmul (2476979795053773 / 4503599627370496) 100 = 7740561859543041 / 140737488355328 := by
  unfold fmul
  rw [round64_of_near ((2476979795053773 / 4503599627370496) * 100) 7740561859543041 (-47) (by norm_num) (by norm_num)
    (by norm_num) (by norm_num)]
  norm_num

/-- In binary64, 0.65 * 100.0 gives 65.0 (rounded). -/
theorem fmul_eval_37 :
    fmul (5854679515581645 / 9007199254740992) 100 = 65 := by
  unfold fmul
  rw [round64_of_near ((5854679515581645 / 9007199254740992) * 100) 4573968371548160 (-46) (by norm_num) (by norm_num)
    (by norm_num) (by norm_num)]
  norm_num

/-- In binary64, 0.7 * 100.0 gives 70.0 (rounded). -/
theorem fmul_eval_38 :
    fmul (3152519739159347 / 4503599627370496) 100 = 70 := by
  unfold fmul
  rw [round64_of_near ((3152519739159347 / 4503599627370496) * 100) 4925812092436480 (-46) (by norm_num) (by norm_num)
    (by norm_num) (by norm_num)]
  norm_num

/-- In binary64, 0.7000000000000001 * 100.0 gives 70.0 (rounded). -/
theorem fmul_eval_39 :
    fmul (6305039478318695 / 9007199254740992) 100 = 70 := by
  unfold fmul
  rw [round64_of_near ((6305039478318695 / 9007199254740992) * 100) 4925812092436480 (-46) (by norm_num) (by norm_num)
    (by norm_num) (by norm_num)]
  norm_num

/-- In binary64, 0.85 * 100.0 gives 85.0 (rounded). -/
theorem fmul_eval_40 :
    fmul (7656119366529843 / 9007199254740992) 100 = 85 := by
  unfold fmul
  rw [round64_of_near ((7656119366529843 / 9007199254740992) * 100) 5981343255101440 (-46) (by norm_num) (by norm_num)
    (by norm_num) (by norm_num)]
  norm_num

/-- In binary64, 0.85 * 0.5 gives 0.425 (exactly). -/
theorem fmul_eval_41 :
    fmul (7656119366529843 / 9007199254740992) (1 / 2) = 7656119366529843 / 18014398509481984 := by
  unfold fmul
  rw [round64_of_near ((7656119366529843 / 9007199254740992) * (1 / 2)) 7656119366529843 (-54) (by norm_num) (by norm_num)
    (by norm_num) (by norm_num)]
  norm_num

/-- In binary64, 0.7 * 0.3 gives 0.21 (rounded). -/
theorem fmul_eval_42 :
    fmul (3152519739159347 / 4503599627370496) (5404319552844595 / 18014398509481984) = 7566047373982433 / 36028797018963968 := by
  unfold fmul
  rw [round64_of_near ((3152519739159347 / 4503599627370496) * (5404319552844595 / 18014398509481984)) 7566047373982433 (-55) (by norm_num) (by norm_num)
    (by norm_num) (by norm_num)]
  norm_num

/-- In binary64, 0.425 + 0.21 gives 0.635 (rounded). -/
theorem fadd_eval_43 :
    fadd (7656119366529843 / 18014398509481984) (7566047373982433 / 36028797018963968) = 2859785763380265 / 4503599627370496 := by
  unfold fadd
  rw [round64_of_near ((7656119366529843 / 18014398509481984) + (7566047373982433 / 36028797018963968)) 5719571526760530 (-53) (by norm_num) (by norm_num)
    (by norm_num) (by norm_num)]
  norm_num

/-- In binary64, 0.30000000000000004 * 0.2 gives 0.06000000000000001 (rounded). -/
theorem fmul_eval_44 :
    fmul (1351079888211149 / 4503599627370496) (3602879701896397 / 18014398509481984) = 4323455642275677 / 72057594037927936 := by
  unfold fmul
  rw [round64_of_near ((1351079888211149 / 4503599627370496) * (3602879701896397 / 18014398509481984)) 8646911284551354 (-57) (by norm_num) (by norm_num)
    (by norm_num) (by norm_num)]
  norm_num

/-- In binary64, 0.635 + 0.06000000000000001 gives 0.6950000000000001 (rounded). -/
theorem fadd_eval_45 :
    fadd (2859785763380265 / 4503599627370496) (4323455642275677 / 72057594037927936) = 3130001741022495 / 4503599627370496 := by
  unfold fadd
  rw [round64_of_near ((2859785763380265 / 4503599627370496) + (4323455642275677 / 72057594037927936)) 6260003482044990 (-53) (by norm_num) (by norm_num)
    (by norm_num) (by norm_num)]
  norm_num

/-- In binary64, 0.6950000000000001 * 100.0 gives 69.5 (rounded). -/
theorem fmul_eval_46 :
    fmul (3130001741022495 / 4503599627370496) 100 = 139 / 2 := by
  unfold fmul
  rw [round64_of_near ((3130001741022495 / 4503599627370496) * 100) 4890627720347648 (-46) (by norm_num) (by norm_num)
    (by norm_num) (by norm_num)]
  norm_num

/-- In binary64, 0.0 * 0.5 gives 0.0 (exactly). -/
theorem fmul_eval_47 :
    fmul 0 (1 / 2) = 0 := by
  unfold fmul
  rw [show (0 * (1 / 2) : ℚ) = 0 by norm_num]
  exact round64_zero

/-- In binary64, 0.0 * 0.3 gives 0.0 (exactly). -/
theorem fmul_eval_48 :
    fmul 0 (5404319552844595 / 18014398509481984) = 0 := by
  unfold fmul
  rw [show (0 * (5404319552844595 / 18014398509481984) : ℚ) = 0 by norm_num]
  exact round64_zero

/-- In binary64, 0.1 * 0.2 gives 0.020000000000000004 (rounded). -/
theorem fmul_eval_49 :
    fmul (3602879701896397 / 36028797018963968) (3602879701896397 / 18014398509481984) = 1441151880758559 / 72057594037927936 := by
  unfold fmul
  rw [round64_of_near ((3602879701896397 / 36028797018963968) * (3602879701896397 / 18014398509481984)) 5764607523034236 (-58) (by norm_num) (by norm_num)
    (by norm_num) (by norm_num)]
  norm_num

/-- In binary64, 0.0 + 0.020000000000000004 gives 0.020000000000000004 (exactly). -/
theorem fadd_eval_50 :
    fadd 0 (1441151880758559 / 72057594037927936) = 1441151880758559 / 72057594037927936 := by
  unfold fadd
  rw [round64_of_near (0 + (1441151880758559 / 72057594037927936)) 5764607523034236 (-58) (by norm_num) (by norm_num)
    (by norm_num) (by norm_num)]
  norm_num

/-- In binary64, 0.020000000000000004 * 100.0 gives 2.0000000000000004 (rounded). -/
theorem fmul_eval_51 :
    fmul (1441151880758559 / 72057594037927936) 100 = 4503599627370497 / 2251799813685248 := by
  unfold fmul
  rw [round64_of_near ((1441151880758559 / 72057594037927936) * 100) 4503599627370497 (-51) (by norm_num) (by norm_num)
    (by norm_num) (by norm_num)]
  norm_num

/-- In binary64, 0.5 * 0.0 gives 0.0 (exactly). -/
theorem fmul_eval_52 :
    fmul (1 / 2) 0 = 0 := by
  unfold fmul
  rw [show ((1 / 2) * 0 : ℚ) = 0 by norm_num]
  exact round64_zero

/-- In binary64, 0.3 * 0.0 gives 0.0 (exactly). -/
theorem fmul_eval_53 :
    fmul (5404319552844595 / 18014398509481984) 0 = 0 := by
  unfold fmul
  rw [show ((5404319552844595 / 18014398509481984) * 0 : ℚ) = 0 by norm_num]
  exact round64_zero

/-- In binary64, 0.2 * 10.0 gives 2.0 (rounded). -/
theorem fmul_eval_54 :
    fmul (3602879701896397 / 18014398509481984) 10 = 2 := by
  unfold fmul
  rw [round64_of_near ((3602879701896397 / 18014398509481984) * 10) 4503599627370496 (-51) (by norm_num) (by norm_num)
    (by norm_num) (by norm_num)]
  norm_num

/-- In binary64, 0.0 + 2.0 gives 2.0 (exactly). -/
theorem fadd_eval_55 :
    fadd 0 2 = 2 := by
  unfold fadd
  rw [round64_of_near (0 + 2) 4503599627370496 (-51) (by norm_num) (by norm_num)
    (by norm_num) (by norm_num)]
  norm_num

/-- In binary64, 130.0 - 100.0 gives 30.0 (exactly). -/
theorem fsub_eval_56 :
    fsub 130 100 = 30 := by
  unfold fsub
  rw [round64_of_near (130 - 100) 8444249301319680 (-48) (by norm_num) (by norm_num)
    (by norm_num) (by norm_num)]
  norm_num

/-- In binary64, 30.0 / 100.0 gives 0.3 (rounded). -/
theorem fdiv_eval_57 :
    fdiv 30 100 = 5404319552844595 / 18014398509481984 := by
  unfold fdiv
  rw [round64_of_near (30 / 100) 5404319552844595 (-54) (by norm_num) (by norm_num)
    (by norm_num) (by norm_num)]
  norm_num

/-- In binary64, 16.39 - 14.9 gives 1.4900000000000002 (exactly). -/
theorem fsub_eval_58 :
    fsub (1153343717071913 / 70368744177664) (8387954305977549 / 562949953421312) = 838795430597755 / 562949953421312 := by
  unfold fsub
  rw [round64_of_near ((1153343717071913 / 70368744177664) - (8387954305977549 / 562949953421312)) 6710363444782040 (-52) (by norm_num) (by norm_num)
    (by norm_num) (by norm_num)]
  norm_num

/-- In binary64, 1.4900000000000002 / 14.9 gives 0.1 (rounded). -/
theorem fdiv_eval_59 :
    fdiv (838795430597755 / 562949953421312) (8387954305977549 / 562949953421312) = 3602879701896397 / 36028797018963968 := by
  unfold fdiv
  rw [round64_of_near ((838795430597755 / 562949953421312) / (8387954305977549 / 562949953421312)) 7205759403792794 (-56) (by norm_num) (by norm_num)
    (by norm_num) (by norm_num)]
  norm_num

end binary64

/-! ## The calculator in binary64 arithmetic: general lemmas -/

namespace undervaluation

open models binary64

/-- The literal `0.0` is zero. -/
theorem zero_lit : (0.0 : ℚ) = 0 := by norm_num

/-- With a security and a non-zero price the binary64 calculator returns its
record. -/
theorem calculate64_some (st : Stock) (latestPrice : ℚ) (hp : latestPrice ≠ 0)
    (fs : List FinancialStatement) (ats : List AnalystTarget)
    (ss : List SentimentScore) :
    CalculateUndervaluation64 (some st) latestPrice fs ats ss =
      Except.ok
        { StockID := st.StockID.String
          Symbol := st.Symbol
          Score := min (compositeScore64 (fundamentalScore64 fs)
            (analystScore64 latestPrice ats) (sentimentScore64 ss)) 100
          FundamentalScore := fmul (fundamentalScore64 fs) 100
          AnalystScore := fmul (analystScore64 latestPrice ats) 100
          SentimentScore := fmul (sentimentScore64 ss) 100 } := by
  simp only [CalculateUndervaluation64, hp, if_false]
  norm_num

/-- Inversion of a successful call of the binary64 calculator. -/
theorem calculate64_ok_inv {stock : Option Stock} {latestPrice : ℚ}
    {fs : List FinancialStatement} {ats : List AnalystTarget}
    {ss : List SentimentScore} {r : UndervaluationScore}
    (h : CalculateUndervaluation64 stock latestPrice fs ats ss = Except.ok r) :
    ∃ st, stock = some st ∧ latestPrice ≠ 0 ∧
      r = { StockID := st.StockID.String
            Symbol := st.Symbol
            Score := min (compositeScore64 (fundamentalScore64 fs)
              (analystScore64 latestPrice ats) (sentimentScore64 ss)) 100
            FundamentalScore := fmul (fundamentalScore64 fs) 100
            AnalystScore := fmul (analystScore64 latestPrice ats) 100
            SentimentScore := fmul (sentimentScore64 ss) 100 } := by
  cases stock with
  | none => simp [CalculateUndervaluation64] at h
  | some st =>
    by_cases hp : latestPrice = 0
    · simp [CalculateUndervaluation64, hp] at h
    · refine ⟨st, rfl, hp, ?_⟩
      rw [calculate64_some st latestPrice hp] at h
      exact (Except.ok.inj h).symm

/-- In binary64 the fundamental sub-score lies between 0 and 0.85, and its
reported value between 0 and 85. -/
theorem fundamentalScore64_bounds (fs : List FinancialStatement) :
    (0 ≤ fundamentalScore64 fs ∧ fundamentalScore64 fs ≤ 0.85) ∧
    (0 ≤ fmul (fundamentalScore64 fs) 100 ∧ fmul (fundamentalScore64 fs) 100 ≤ 85) := by
  cases fs with
  | nil =>
    simp only [fundamentalScore64, zero_lit, lit_0_3, lit_0_15, lit_0_2, lit_0_4, lit_0_1, lit_0_20, lit_0_10, lit_0_7, lit_0_5,
      lit_0_50, lit_0_30, lit_0_8, lit_4_2, lit_0_85, lit_0_70, lit_14_90, lit_16_39,
      fadd_eval_1, fadd_eval_2, fadd_eval_3, fadd_eval_4, fadd_eval_5, fadd_eval_6,
      fadd_eval_7, fadd_eval_8, fadd_eval_9, fadd_eval_10, fadd_eval_11, fadd_eval_12,
      fadd_eval_13, fadd_eval_14, fadd_eval_15, fadd_eval_16, fadd_eval_17, fadd_eval_18,
      fadd_eval_19, fadd_eval_20, fadd_eval_21, fadd_eval_22, fadd_eval_23, fadd_eval_24,
      fadd_eval_25, fmul_eval_26, fmul_eval_27, fmul_eval_28, fmul_eval_29, fmul_eval_30,
      fmul_eval_31, fmul_eval_32, fmul_eval_33, fmul_eval_34, fmul_eval_35, fmul_eval_36,
      fmul_eval_37, fmul_eval_38, fmul_eval_39, fmul_eval_40, fmul_eval_41, fmul_eval_42,
      fadd_eval_43, fmul_eval_44, fadd_eval_45, fmul_eval_46, fmul_eval_47, fmul_eval_48,
      fmul_eval_49, fadd_eval_50, fmul_eval_51, fmul_eval_52, fmul_eval_53, fmul_eval_54,
      fadd_eval_55, fsub_eval_56, fdiv_eval_57, fsub_eval_58, fdiv_eval_59]
    norm_num
  | cons x rest =>
    simp only [fundamentalScore64]
    split_ifs <;> simp only [zero_lit, lit_0_3, lit_0_15, lit_0_2, lit_0_4, lit_0_1, lit_0_20, lit_0_10, lit_0_7, lit_0_5,
      lit_0_50, lit_0_30, lit_0_8, lit_4_2, lit_0_85, lit_0_70, lit_14_90, lit_16_39,
      fadd_eval_1, fadd_eval_2, fadd_eval_3, fadd_eval_4, fadd_eval_5, fadd_eval_6,
      fadd_eval_7, fadd_eval_8, fadd_eval_9, fadd_eval_10, fadd_eval_11, fadd_eval_12,
      fadd_eval_13, fadd_eval_14, fadd_eval_15, fadd_eval_16, fadd_eval_17, fadd_eval_18,
      fadd_eval_19, fadd_eval_20, fadd_eval_21, fadd_eval_22, fadd_eval_23, fadd_eval_24,
      fadd_eval_25, fmul_eval_26, fmul_eval_27, fmul_eval_28, fmul_eval_29, fmul_eval_30,
      fmul_eval_31, fmul_eval_32, fmul_eval_33, fmul_eval_34, fmul_eval_35, fmul_eval_36,
      fmul_eval_37, fmul_eval_38, fmul_eval_39, fmul_eval_40, fmul_eval_41, fmul_eval_42,
      fadd_eval_43, fmul_eval_44, fadd_eval_45, fmul_eval_46, fmul_eval_47, fmul_eval_48,
      fmul_eval_49, fadd_eval_50, fmul_eval_51, fmul_eval_52, fmul_eval_53, fmul_eval_54,
      fadd_eval_55, fsub_eval_56, fdiv_eval_57, fsub_eval_58, fdiv_eval_59] <;> norm_num

/-- In binary64 the analyst sub-score lies between 0 and 0.70, and its reported
value between 0 and 70. -/
theorem analystScore64_bounds (p : ℚ) (ats : List AnalystTarget) :
    (0 ≤ analystScore64 p ats ∧ analystScore64 p ats ≤ 0.70) ∧
    (0 ≤ fmul (analystScore64 p ats) 100 ∧ fmul (analystScore64 p ats) 100 ≤ 70) := by
  cases ats with
  | nil =>
    simp only [analystScore64, zero_lit, lit_0_3, lit_0_15, lit_0_2, lit_0_4, lit_0_1, lit_0_20, lit_0_10, lit_0_7, lit_0_5,
      lit_0_50, lit_0_30, lit_0_8, lit_4_2, lit_0_85, lit_0_70, lit_14_90, lit_16_39,
      fadd_eval_1, fadd_eval_2, fadd_eval_3, fadd_eval_4, fadd_eval_5, fadd_eval_6,
      fadd_eval_7, fadd_eval_8, fadd_eval_9, fadd_eval_10, fadd_eval_11, fadd_eval_12,
      fadd_eval_13, fadd_eval_14, fadd_eval_15, fadd_eval_16, fadd_eval_17, fadd_eval_18,
      fadd_eval_19, fadd_eval_20, fadd_eval_21, fadd_eval_22, fadd_eval_23, fadd_eval_24,
      fadd_eval_25, fmul_eval_26, fmul_eval_27, fmul_eval_28, fmul_eval_29, fmul_eval_30,
      fmul_eval_31, fmul_eval_32, fmul_eval_33, fmul_eval_34, fmul_eval_35, fmul_eval_36,
      fmul_eval_37, fmul_eval_38, fmul_eval_39, fmul_eval_40, fmul_eval_41, fmul_eval_42,
      fadd_eval_43, fmul_eval_44, fadd_eval_45, fmul_eval_46, fmul_eval_47, fmul_eval_48,
      fmul_eval_49, fadd_eval_50, fmul_eval_51, fmul_eval_52, fmul_eval_53, fmul_eval_54,
      fadd_eval_55, fsub_eval_56, fdiv_eval_57, fsub_eval_58, fdiv_eval_59]
    norm_num
  | cons x rest =>
    simp only [analystScore64]
    split_ifs <;> simp only [zero_lit, lit_0_3, lit_0_15, lit_0_2, lit_0_4, lit_0_1, lit_0_20, lit_0_10, lit_0_7, lit_0_5,
      lit_0_50, lit_0_30, lit_0_8, lit_4_2, lit_0_85, lit_0_70, lit_14_90, lit_16_39,
      fadd_eval_1, fadd_eval_2, fadd_eval_3, fadd_eval_4, fadd_eval_5, fadd_eval_6,
      fadd_eval_7, fadd_eval_8, fadd_eval_9, fadd_eval_10, fadd_eval_11, fadd_eval_12,
      fadd_eval_13, fadd_eval_14, fadd_eval_15, fadd_eval_16, fadd_eval_17, fadd_eval_18,
      fadd_eval_19, fadd_eval_20, fadd_eval_21, fadd_eval_22, fadd_eval_23, fadd_eval_24,
      fadd_eval_25, fmul_eval_26, fmul_eval_27, fmul_eval_28, fmul_eval_29, fmul_eval_30,
      fmul_eval_31, fmul_eval_32, fmul_eval_33, fmul_eval_34, fmul_eval_35, fmul_eval_36,
      fmul_eval_37, fmul_eval_38, fmul_eval_39, fmul_eval_40, fmul_eval_41, fmul_eval_42,
      fadd_eval_43, fmul_eval_44, fadd_eval_45, fmul_eval_46, fmul_eval_47, fmul_eval_48,
      fmul_eval_49, fadd_eval_50, fmul_eval_51, fmul_eval_52, fmul_eval_53, fmul_eval_54,
      fadd_eval_55, fsub_eval_56, fdiv_eval_57, fsub_eval_58, fdiv_eval_59] <;> norm_num

/-- In binary64 the sentiment sub-score lies between 0 and
0.30000000000000004, the sum of the binary64 values of 0.2 and 0.1, and its
reported value between 0 and 30.000000000000004. -/
theorem sentimentScore64_bounds (ss : List SentimentScore) :
    (0 ≤ sentimentScore64 ss ∧
      sentimentScore64 ss ≤ 1351079888211149 / 4503599627370496) ∧
    (0 ≤ fmul (sentimentScore64 ss) 100 ∧
      fmul (sentimentScore64 ss) 100 ≤ 8444249301319681 / 281474976710656) := by
  cases ss with
  | nil =>
    simp only [sentimentScore64, zero_lit, lit_0_3, lit_0_15, lit_0_2, lit_0_4, lit_0_1, lit_0_20, lit_0_10, lit_0_7, lit_0_5,
      lit_0_50, lit_0_30, lit_0_8, lit_4_2, lit_0_85, lit_0_70, lit_14_90, lit_16_39,
      fadd_eval_1, fadd_eval_2, fadd_eval_3, fadd_eval_4, fadd_eval_5, fadd_eval_6,
      fadd_eval_7, fadd_eval_8, fadd_eval_9, fadd_eval_10, fadd_eval_11, fadd_eval_12,
      fadd_eval_13, fadd_eval_14, fadd_eval_15, fadd_eval_16, fadd_eval_17, fadd_eval_18,
      fadd_eval_19, fadd_eval_20, fadd_eval_21, fadd_eval_22, fadd_eval_23, fadd_eval_24,
      fadd_eval_25, fmul_eval_26, fmul_eval_27, fmul_eval_28, fmul_eval_29, fmul_eval_30,
      fmul_eval_31, fmul_eval_32, fmul_eval_33, fmul_eval_34, fmul_eval_35, fmul_eval_36,
      fmul_eval_37, fmul_eval_38, fmul_eval_39, fmul_eval_40, fmul_eval_41, fmul_eval_42,
      fadd_eval_43, fmul_eval_44, fadd_eval_45, fmul_eval_46, fmul_eval_47, fmul_eval_48,
      fmul_eval_49, fadd_eval_50, fmul_eval_51, fmul_eval_52, fmul_eval_53, fmul_eval_54,
      fadd_eval_55, fsub_eval_56, fdiv_eval_57, fsub_eval_58, fdiv_eval_59]
    norm_num
  | cons x rest =>
    simp only [sentimentScore64]
    split_ifs <;> simp only [zero_lit, lit_0_3, lit_0_15, lit_0_2, lit_0_4, lit_0_1, lit_0_20, lit_0_10, lit_0_7, lit_0_5,
      lit_0_50, lit_0_30, lit_0_8, lit_4_2, lit_0_85, lit_0_70, lit_14_90, lit_16_39,
      fadd_eval_1, fadd_eval_2, fadd_eval_3, fadd_eval_4, fadd_eval_5, fadd_eval_6,
      fadd_eval_7, fadd_eval_8, fadd_eval_9, fadd_eval_10, fadd_eval_11, fadd_eval_12,
      fadd_eval_13, fadd_eval_14, fadd_eval_15, fadd_eval_16, fadd_eval_17, fadd_eval_18,
      fadd_eval_19, fadd_eval_20, fadd_eval_21, fadd_eval_22, fadd_eval_23, fadd_eval_24,
      fadd_eval_25, fmul_eval_26, fmul_eval_27, fmul_eval_28, fmul_eval_29, fmul_eval_30,
      fmul_eval_31, fmul_eval_32, fmul_eval_33, fmul_eval_34, fmul_eval_35, fmul_eval_36,
      fmul_eval_37, fmul_eval_38, fmul_eval_39, fmul_eval_40, fmul_eval_41, fmul_eval_42,
      fadd_eval_43, fmul_eval_44, fadd_eval_45, fmul_eval_46, fmul_eval_47, fmul_eval_48,
      fmul_eval_49, fadd_eval_50, fmul_eval_51, fmul_eval_52, fmul_eval_53, fmul_eval_54,
      fadd_eval_55, fsub_eval_56, fdiv_eval_57, fsub_eval_58, fdiv_eval_59] <;> norm_num

end undervaluation

/-! ## The claims on the scoring engine that depend on rounding -/

namespace undervaluation

open models binary64

/-- The fundamental sub-score of the worked scenario in binary64: the binary64
value of 0.85. -/
theorem fundamental64_full (st : FinancialStatement) (rest : List FinancialStatement)
    (hpe0 : 0 < st.PERatio) (hpe10 : st.PERatio < 10) (heps : st.EPS > 0)
    (hroic : st.ROIC > lit 0.15) (hfcf : st.FreeCashFlow > 0) :
    fundamentalScore64 (st :: rest) = 7656119366529843 / 9007199254740992 := by
  simp only [fundamentalScore64, hpe0, hpe10, heps, hroic, hfcf, gt_iff_lt, if_true]
  simp only [zero_lit, lit_0_3, lit_0_15, lit_0_2, lit_0_4, lit_0_1, lit_0_20, lit_0_10, lit_0_7, lit_0_5,
    lit_0_50, lit_0_30, lit_0_8, lit_4_2, lit_0_85, lit_0_70, lit_14_90, lit_16_39,
    fadd_eval_1, fadd_eval_2, fadd_eval_3, fadd_eval_4, fadd_eval_5, fadd_eval_6,
    fadd_eval_7, fadd_eval_8, fadd_eval_9, fadd_eval_10, fadd_eval_11, fadd_eval_12,
    fadd_eval_13, fadd_eval_14, fadd_eval_15, fadd_eval_16, fadd_eval_17, fadd_eval_18,
    fadd_eval_19, fadd_eval_20, fadd_eval_21, fadd_eval_22, fadd_eval_23, fadd_eval_24,
    fadd_eval_25, fmul_eval_26, fmul_eval_27, fmul_eval_28, fmul_eval_29, fmul_eval_30,
    fmul_eval_31, fmul_eval_32, fmul_eval_33, fmul_eval_34, fmul_eval_35, fmul_eval_36,
    fmul_eval_37, fmul_eval_38, fmul_eval_39, fmul_eval_40, fmul_eval_41, fmul_eval_42,
    fadd_eval_43, fmul_eval_44, fadd_eval_45, fmul_eval_46, fmul_eval_47, fmul_eval_48,
    fmul_eval_49, fadd_eval_50, fmul_eval_51, fmul_eval_52, fmul_eval_53, fmul_eval_54,
    fadd_eval_55, fsub_eval_56, fdiv_eval_57, fsub_eval_58, fdiv_eval_59]

/-- A positive upside in binary64 needs a positive target when the price is
positive. -/
theorem target_pos_of_upside64 (target latestPrice : ℚ) (hp : latestPrice > 0)
    (hup : upside64 target latestPrice > lit 0.20) : target > 0 := by
  by_contra hneg
  push_neg at hneg
  have h1 : fsub target latestPrice ≤ 0 := round64_nonpos _ (by linarith)
  have h2 : fsub target latestPrice / latestPrice ≤ 0 :=
    div_nonpos_of_nonpos_of_nonneg h1 hp.le
  have h3 : upside64 target latestPrice ≤ 0 := round64_nonpos _ h2
  have h4 : (0 : ℚ) ≤ lit 0.20 := round64_nonneg _ (by norm_num)
  linarith

/-- The analyst sub-score of the worked scenario in binary64: the binary64
value of 0.70. -/
theorem analyst64_full (latestPrice : ℚ) (t : AnalystTarget) (rest : List AnalystTarget)
    (hp : latestPrice > 0)
    (hup : upside64 t.ConsensusPriceTarget latestPrice > lit 0.20)
    (hrating : t.ConsensusRatingValue ≥ 4.0) :
    analystScore64 latestPrice (t :: rest) = 3152519739159347 / 4503599627370496 := by
  have ht := target_pos_of_upside64 t.ConsensusPriceTarget latestPrice hp hup
  simp only [analystScore64, ht, hp, hup, hrating, and_self, if_true]
  simp only [zero_lit, lit_0_3, lit_0_15, lit_0_2, lit_0_4, lit_0_1, lit_0_20, lit_0_10, lit_0_7, lit_0_5,
    lit_0_50, lit_0_30, lit_0_8, lit_4_2, lit_0_85, lit_0_70, lit_14_90, lit_16_39,
    fadd_eval_1, fadd_eval_2, fadd_eval_3, fadd_eval_4, fadd_eval_5, fadd_eval_6,
    fadd_eval_7, fadd_eval_8, fadd_eval_9, fadd_eval_10, fadd_eval_11, fadd_eval_12,
    fadd_eval_13, fadd_eval_14, fadd_eval_15, fadd_eval_16, fadd_eval_17, fadd_eval_18,
    fadd_eval_19, fadd_eval_20, fadd_eval_21, fadd_eval_22, fadd_eval_23, fadd_eval_24,
    fadd_eval_25, fmul_eval_26, fmul_eval_27, fmul_eval_28, fmul_eval_29, fmul_eval_30,
    fmul_eval_31, fmul_eval_32, fmul_eval_33, fmul_eval_34, fmul_eval_35, fmul_eval_36,
    fmul_eval_37, fmul_eval_38, fmul_eval_39, fmul_eval_40, fmul_eval_41, fmul_eval_42,
    fadd_eval_43, fmul_eval_44, fadd_eval_45, fmul_eval_46, fmul_eval_47, fmul_eval_48,
    fmul_eval_49, fadd_eval_50, fmul_eval_51, fmul_eval_52, fmul_eval_53, fmul_eval_54,
    fadd_eval_55, fsub_eval_56, fdiv_eval_57, fsub_eval_58, fdiv_eval_59]

/-- The sentiment sub-score of the worked scenario in binary64:
0.30000000000000004, the sum of the binary64 values of 0.2 and 0.1. -/
theorem sentiment64_full (x : SentimentScore) (rest : List SentimentScore)
    (hsent : normalizedSentiment64 x > lit 0.7) (hvol : x.AbsoluteIndex > 100000) :
    sentimentScore64 (x :: rest) = 1351079888211149 / 4503599627370496 := by
  simp only [sentimentScore64, hsent, hvol, if_true]
  simp only [zero_lit, lit_0_3, lit_0_15, lit_0_2, lit_0_4, lit_0_1, lit_0_20, lit_0_10, lit_0_7, lit_0_5,
    lit_0_50, lit_0_30, lit_0_8, lit_4_2, lit_0_85, lit_0_70, lit_14_90, lit_16_39,
    fadd_eval_1, fadd_eval_2, fadd_eval_3, fadd_eval_4, fadd_eval_5, fadd_eval_6,
    fadd_eval_7, fadd_eval_8, fadd_eval_9, fadd_eval_10, fadd_eval_11, fadd_eval_12,
    fadd_eval_13, fadd_eval_14, fadd_eval_15, fadd_eval_16, fadd_eval_17, fadd_eval_18,
    fadd_eval_19, fadd_eval_20, fadd_eval_21, fadd_eval_22, fadd_eval_23, fadd_eval_24,
    fadd_eval_25, fmul_eval_26, fmul_eval_27, fmul_eval_28, fmul_eval_29, fmul_eval_30,
    fmul_eval_31, fmul_eval_32, fmul_eval_33, fmul_eval_34, fmul_eval_35, fmul_eval_36,
    fmul_eval_37, fmul_eval_38, fmul_eval_39, fmul_eval_40, fmul_eval_41, fmul_eval_42,
    fadd_eval_43, fmul_eval_44, fadd_eval_45, fmul_eval_46, fmul_eval_47, fmul_eval_48,
    fmul_eval_49, fadd_eval_50, fmul_eval_51, fmul_eval_52, fmul_eval_53, fmul_eval_54,
    fadd_eval_55, fsub_eval_56, fdiv_eval_57, fsub_eval_58, fdiv_eval_59]

/-- The statement of the worked scenario meets the conditions of the four
contributions. -/
theorem scenarioStatement64_conditions :
    0 < scenarioStatement64.PERatio ∧ scenarioStatement64.PERatio < 10 ∧
    scenarioStatement64.EPS > 0 ∧ scenarioStatement64.ROIC > lit 0.15 ∧
    scenarioStatement64.FreeCashFlow > 0 := by
  simp only [scenarioStatement64, mkStatement, lit_0_20, lit_0_15]
  norm_num

/-- The target of the worked scenario gives, over the price 100, an upside
above 0.20 and has a rating of at least 4. -/
theorem scenarioTarget64_conditions :
    upside64 scenarioTarget64.ConsensusPriceTarget 100 > lit 0.20 ∧
    scenarioTarget64.ConsensusRatingValue ≥ 4.0 := by
  simp only [scenarioTarget64, mkTarget, upside64, lit_0_3, lit_0_15, lit_0_2, lit_0_4, lit_0_1, lit_0_20, lit_0_10, lit_0_7, lit_0_5,
    lit_0_50, lit_0_30, lit_0_8, lit_4_2, lit_0_85, lit_0_70, lit_14_90, lit_16_39,
    fadd_eval_1, fadd_eval_2, fadd_eval_3, fadd_eval_4, fadd_eval_5, fadd_eval_6,
    fadd_eval_7, fadd_eval_8, fadd_eval_9, fadd_eval_10, fadd_eval_11, fadd_eval_12,
    fadd_eval_13, fadd_eval_14, fadd_eval_15, fadd_eval_16, fadd_eval_17, fadd_eval_18,
    fadd_eval_19, fadd_eval_20, fadd_eval_21, fadd_eval_22, fadd_eval_23, fadd_eval_24,
    fadd_eval_25, fmul_eval_26, fmul_eval_27, fmul_eval_28, fmul_eval_29, fmul_eval_30,
    fmul_eval_31, fmul_eval_32, fmul_eval_33, fmul_eval_34, fmul_eval_35, fmul_eval_36,
    fmul_eval_37, fmul_eval_38, fmul_eval_39, fmul_eval_40, fmul_eval_41, fmul_eval_42,
    fadd_eval_43, fmul_eval_44, fadd_eval_45, fmul_eval_46, fmul_eval_47, fmul_eval_48,
    fmul_eval_49, fadd_eval_50, fmul_eval_51, fmul_eval_52, fmul_eval_53, fmul_eval_54,
    fadd_eval_55, fsub_eval_56, fdiv_eval_57, fsub_eval_58, fdiv_eval_59]
  norm_num

/-- The sentiment sample of the worked scenario has a normalised value above
0.7 and an index above 100000. -/
theorem scenarioSentiment64_conditions :
    normalizedSentiment64 scenarioSentiment64 > lit 0.7 ∧
    scenarioSentiment64.AbsoluteIndex > 100000 := by
  simp only [scenarioSentiment64, mkSentiment, normalizedSentiment64, lit_0_8, lit_0_7]
  norm_num

/-- C4 as stated fails in binary64: on a call with no statement, no target and
one sentiment sample of value 0 and index 150000 the reported sub-scores are
0, 0 and 10, and the composite is 2.0000000000000004, which is not
`min(100, 0.50*0 + 0.30*0 + 0.20*10) = 2`, whether that expression is
evaluated exactly or in binary64. -/
theorem composite_identity_fails64 :
    ∃ r, CalculateUndervaluation64 (some scenarioStock) 100 [] []
        [mkSentiment 0 150000] = Except.ok r ∧
      r.FundamentalScore = 0 ∧ r.AnalystScore = 0 ∧ r.SentimentScore = 10 ∧
      r.Score = 4503599627370497 / 2251799813685248 ∧
      r.Score ≠ min 100 (0.50 * r.FundamentalScore + 0.30 * r.AnalystScore
        + 0.20 * r.SentimentScore) ∧
      r.Score ≠ min 100 (fadd (fadd (fmul (lit 0.50) r.FundamentalScore)
        (fmul (lit 0.30) r.AnalystScore)) (fmul (lit 0.20) r.SentimentScore)) := by
  refine ⟨_, calculate64_some scenarioStock 100 (by norm_num) _ _ _, ?_⟩
  have hs : sentimentScore64 [mkSentiment 0 150000] =
      3602879701896397 / 36028797018963968 := by
    simp only [sentimentScore64, normalizedSentiment64, mkSentiment, zero_lit, lit_0_3, lit_0_15, lit_0_2, lit_0_4, lit_0_1, lit_0_20, lit_0_10, lit_0_7, lit_0_5,
      lit_0_50, lit_0_30, lit_0_8, lit_4_2, lit_0_85, lit_0_70, lit_14_90, lit_16_39,
      fadd_eval_1, fadd_eval_2, fadd_eval_3, fadd_eval_4, fadd_eval_5, fadd_eval_6,
      fadd_eval_7, fadd_eval_8, fadd_eval_9, fadd_eval_10, fadd_eval_11, fadd_eval_12,
      fadd_eval_13, fadd_eval_14, fadd_eval_15, fadd_eval_16, fadd_eval_17, fadd_eval_18,
      fadd_eval_19, fadd_eval_20, fadd_eval_21, fadd_eval_22, fadd_eval_23, fadd_eval_24,
      fadd_eval_25, fmul_eval_26, fmul_eval_27, fmul_eval_28, fmul_eval_29, fmul_eval_30,
      fmul_eval_31, fmul_eval_32, fmul_eval_33, fmul_eval_34, fmul_eval_35, fmul_eval_36,
      fmul_eval_37, fmul_eval_38, fmul_eval_39, fmul_eval_40, fmul_eval_41, fmul_eval_42,
      fadd_eval_43, fmul_eval_44, fadd_eval_45, fmul_eval_46, fmul_eval_47, fmul_eval_48,
      fmul_eval_49, fadd_eval_50, fmul_eval_51, fmul_eval_52, fmul_eval_53, fmul_eval_54,
      fadd_eval_55, fsub_eval_56, fdiv_eval_57, fsub_eval_58, fdiv_eval_59]
    norm_num [lit_0_3, lit_0_15, lit_0_2, lit_0_4, lit_0_1, lit_0_20, lit_0_10, lit_0_7, lit_0_5,
      lit_0_50, lit_0_30, lit_0_8, lit_4_2, lit_0_85, lit_0_70, lit_14_90, lit_16_39,
      fadd_eval_1, fadd_eval_2, fadd_eval_3, fadd_eval_4, fadd_eval_5, fadd_eval_6,
      fadd_eval_7, fadd_eval_8, fadd_eval_9, fadd_eval_10, fadd_eval_11, fadd_eval_12,
      fadd_eval_13, fadd_eval_14, fadd_eval_15, fadd_eval_16, fadd_eval_17, fadd_eval_18,
      fadd_eval_19, fadd_eval_20, fadd_eval_21, fadd_eval_22, fadd_eval_23, fadd_eval_24,
      fadd_eval_25, fmul_eval_26, fmul_eval_27, fmul_eval_28, fmul_eval_29, fmul_eval_30,
      fmul_eval_31, fmul_eval_32, fmul_eval_33, fmul_eval_34, fmul_eval_35, fmul_eval_36,
      fmul_eval_37, fmul_eval_38, fmul_eval_39, fmul_eval_40, fmul_eval_41, fmul_eval_42,
      fadd_eval_43, fmul_eval_44, fadd_eval_45, fmul_eval_46, fmul_eval_47, fmul_eval_48,
      fmul_eval_49, fadd_eval_50, fmul_eval_51, fmul_eval_52, fmul_eval_53, fmul_eval_54,
      fadd_eval_55, fsub_eval_56, fdiv_eval_57, fsub_eval_58, fdiv_eval_59]
  simp only [hs, fundamentalScore64, analystScore64, compositeScore64, zero_lit, lit_0_3, lit_0_15, lit_0_2, lit_0_4, lit_0_1, lit_0_20, lit_0_10, lit_0_7, lit_0_5,
    lit_0_50, lit_0_30, lit_0_8, lit_4_2, lit_0_85, lit_0_70, lit_14_90, lit_16_39,
    fadd_eval_1, fadd_eval_2, fadd_eval_3, fadd_eval_4, fadd_eval_5, fadd_eval_6,
    fadd_eval_7, fadd_eval_8, fadd_eval_9, fadd_eval_10, fadd_eval_11, fadd_eval_12,
    fadd_eval_13, fadd_eval_14, fadd_eval_15, fadd_eval_16, fadd_eval_17, fadd_eval_18,
    fadd_eval_19, fadd_eval_20, fadd_eval_21, fadd_eval_22, fadd_eval_23, fadd_eval_24,
    fadd_eval_25, fmul_eval_26, fmul_eval_27, fmul_eval_28, fmul_eval_29, fmul_eval_30,
    fmul_eval_31, fmul_eval_32, fmul_eval_33, fmul_eval_34, fmul_eval_35, fmul_eval_36,
    fmul_eval_37, fmul_eval_38, fmul_eval_39, fmul_eval_40, fmul_eval_41, fmul_eval_42,
    fadd_eval_43, fmul_eval_44, fadd_eval_45, fmul_eval_46, fmul_eval_47, fmul_eval_48,
    fmul_eval_49, fadd_eval_50, fmul_eval_51, fmul_eval_52, fmul_eval_53, fmul_eval_54,
    fadd_eval_55, fsub_eval_56, fdiv_eval_57, fsub_eval_58, fdiv_eval_59]
  norm_num

/-- C4, amended: on every successful call, in binary64 arithmetic with `f`,
`a`, `s` the unscaled sub-scores, the composite is
`min(100, (f*0.50 + a*0.30 + s*0.20) * 100)`, the products being added from
left to right, and the reported sub-scores are `f*100`, `a*100`, `s*100`. -/
theorem composite_formula64 (stock : Option Stock) (latestPrice : ℚ)
    (fs : List FinancialStatement) (ats : List AnalystTarget)
    (ss : List SentimentScore) (r : UndervaluationScore)
    (h : CalculateUndervaluation64 stock latestPrice fs ats ss = Except.ok r) :
    r.Score = min 100 (fmul (fadd (fadd (fmul (fundamentalScore64 fs) (lit 0.50))
      (fmul (analystScore64 latestPrice ats) (lit 0.30)))
      (fmul (sentimentScore64 ss) (lit 0.20))) 100) ∧
    r.FundamentalScore = fmul (fundamentalScore64 fs) 100 ∧
    r.AnalystScore = fmul (analystScore64 latestPrice ats) 100 ∧
    r.SentimentScore = fmul (sentimentScore64 ss) 100 := by
  obtain ⟨st, -, -, rfl⟩ := calculate64_ok_inv h
  refine ⟨?_, rfl, rfl, rfl⟩
  simp only [compositeScore64]
  rw [min_comm]

/-- C4 amended, at the worked scenario: the call succeeds, the composite is
69.5 and the reported sub-scores are 85, 70 and 30.000000000000004. -/
theorem composite_formula64_witness :
    ∃ r, CalculateUndervaluation64 (some scenarioStock) 100 [scenarioStatement64]
        [scenarioTarget64] [scenarioSentiment64] = Except.ok r ∧
      r.Score = 69.5 ∧ r.FundamentalScore = 85 ∧ r.AnalystScore = 70 ∧
      r.SentimentScore = 8444249301319681 / 281474976710656 := by
  have hok := calculate64_some scenarioStock 100 (by norm_num)
    [scenarioStatement64] [scenarioTarget64] [scenarioSentiment64]
  have key := composite_formula64 _ _ _ _ _ _ hok
  obtain ⟨c1, c2, c3, c4, c5⟩ := scenarioStatement64_conditions
  obtain ⟨t1, t2⟩ := scenarioTarget64_conditions
  obtain ⟨s1, s2⟩ := scenarioSentiment64_conditions
  have hf := fundamental64_full scenarioStatement64 [] c1 c2 c3 c4 c5
  have ha := analyst64_full 100 scenarioTarget64 [] (by norm_num) t1 t2
  have hs := sentiment64_full scenarioSentiment64 [] s1 s2
  refine ⟨_, hok, ?_, ?_, ?_, ?_⟩
  · rw [key.1, hf, ha, hs]
    simp only [lit_0_3, lit_0_15, lit_0_2, lit_0_4, lit_0_1, lit_0_20, lit_0_10, lit_0_7, lit_0_5,
      lit_0_50, lit_0_30, lit_0_8, lit_4_2, lit_0_85, lit_0_70, lit_14_90, lit_16_39,
      fadd_eval_1, fadd_eval_2, fadd_eval_3, fadd_eval_4, fadd_eval_5, fadd_eval_6,
      fadd_eval_7, fadd_eval_8, fadd_eval_9, fadd_eval_10, fadd_eval_11, fadd_eval_12,
      fadd_eval_13, fadd_eval_14, fadd_eval_15, fadd_eval_16, fadd_eval_17, fadd_eval_18,
      fadd_eval_19, fadd_eval_20, fadd_eval_21, fadd_eval_22, fadd_eval_23, fadd_eval_24,
      fadd_eval_25, fmul_eval_26, fmul_eval_27, fmul_eval_28, fmul_eval_29, fmul_eval_30,
      fmul_eval_31, fmul_eval_32, fmul_eval_33, fmul_eval_34, fmul_eval_35, fmul_eval_36,
      fmul_eval_37, fmul_eval_38, fmul_eval_39, fmul_eval_40, fmul_eval_41, fmul_eval_42,
      fadd_eval_43, fmul_eval_44, fadd_eval_45, fmul_eval_46, fmul_eval_47, fmul_eval_48,
      fmul_eval_49, fadd_eval_50, fmul_eval_51, fmul_eval_52, fmul_eval_53, fmul_eval_54,
      fadd_eval_55, fsub_eval_56, fdiv_eval_57, fsub_eval_58, fdiv_eval_59]
    norm_num
  · rw [key.2.1, hf]
    simp only [lit_0_3, lit_0_15, lit_0_2, lit_0_4, lit_0_1, lit_0_20, lit_0_10, lit_0_7, lit_0_5,
      lit_0_50, lit_0_30, lit_0_8, lit_4_2, lit_0_85, lit_0_70, lit_14_90, lit_16_39,
      fadd_eval_1, fadd_eval_2, fadd_eval_3, fadd_eval_4, fadd_eval_5, fadd_eval_6,
      fadd_eval_7, fadd_eval_8, fadd_eval_9, fadd_eval_10, fadd_eval_11, fadd_eval_12,
      fadd_eval_13, fadd_eval_14, fadd_eval_15, fadd_eval_16, fadd_eval_17, fadd_eval_18,
      fadd_eval_19, fadd_eval_20, fadd_eval_21, fadd_eval_22, fadd_eval_23, fadd_eval_24,
      fadd_eval_25, fmul_eval_26, fmul_eval_27, fmul_eval_28, fmul_eval_29, fmul_eval_30,
      fmul_eval_31, fmul_eval_32, fmul_eval_33, fmul_eval_34, fmul_eval_35, fmul_eval_36,
      fmul_eval_37, fmul_eval_38, fmul_eval_39, fmul_eval_40, fmul_eval_41, fmul_eval_42,
      fadd_eval_43, fmul_eval_44, fadd_eval_45, fmul_eval_46, fmul_eval_47, fmul_eval_48,
      fmul_eval_49, fadd_eval_50, fmul_eval_51, fmul_eval_52, fmul_eval_53, fmul_eval_54,
      fadd_eval_55, fsub_eval_56, fdiv_eval_57, fsub_eval_58, fdiv_eval_59]
  · rw [key.2.2.1, ha]
    simp only [lit_0_3, lit_0_15, lit_0_2, lit_0_4, lit_0_1, lit_0_20, lit_0_10, lit_0_7, lit_0_5,
      lit_0_50, lit_0_30, lit_0_8, lit_4_2, lit_0_85, lit_0_70, lit_14_90, lit_16_39,
      fadd_eval_1, fadd_eval_2, fadd_eval_3, fadd_eval_4, fadd_eval_5, fadd_eval_6,
      fadd_eval_7, fadd_eval_8, fadd_eval_9, fadd_eval_10, fadd_eval_11, fadd_eval_12,
      fadd_eval_13, fadd_eval_14, fadd_eval_15, fadd_eval_16, fadd_eval_17, fadd_eval_18,
      fadd_eval_19, fadd_eval_20, fadd_eval_21, fadd_eval_22, fadd_eval_23, fadd_eval_24,
      fadd_eval_25, fmul_eval_26, fmul_eval_27, fmul_eval_28, fmul_eval_29, fmul_eval_30,
      fmul_eval_31, fmul_eval_32, fmul_eval_33, fmul_eval_34, fmul_eval_35, fmul_eval_36,
      fmul_eval_37, fmul_eval_38, fmul_eval_39, fmul_eval_40, fmul_eval_41, fmul_eval_42,
      fadd_eval_43, fmul_eval_44, fadd_eval_45, fmul_eval_46, fmul_eval_47, fmul_eval_48,
      fmul_eval_49, fadd_eval_50, fmul_eval_51, fmul_eval_52, fmul_eval_53, fmul_eval_54,
      fadd_eval_55, fsub_eval_56, fdiv_eval_57, fsub_eval_58, fdiv_eval_59]
  · rw [key.2.2.2, hs]
    simp only [lit_0_3, lit_0_15, lit_0_2, lit_0_4, lit_0_1, lit_0_20, lit_0_10, lit_0_7, lit_0_5,
      lit_0_50, lit_0_30, lit_0_8, lit_4_2, lit_0_85, lit_0_70, lit_14_90, lit_16_39,
      fadd_eval_1, fadd_eval_2, fadd_eval_3, fadd_eval_4, fadd_eval_5, fadd_eval_6,
      fadd_eval_7, fadd_eval_8, fadd_eval_9, fadd_eval_10, fadd_eval_11, fadd_eval_12,
      fadd_eval_13, fadd_eval_14, fadd_eval_15, fadd_eval_16, fadd_eval_17, fadd_eval_18,
      fadd_eval_19, fadd_eval_20, fadd_eval_21, fadd_eval_22, fadd_eval_23, fadd_eval_24,
      fadd_eval_25, fmul_eval_26, fmul_eval_27, fmul_eval_28, fmul_eval_29, fmul_eval_30,
      fmul_eval_31, fmul_eval_32, fmul_eval_33, fmul_eval_34, fmul_eval_35, fmul_eval_36,
      fmul_eval_37, fmul_eval_38, fmul_eval_39, fmul_eval_40, fmul_eval_41, fmul_eval_42,
      fadd_eval_43, fmul_eval_44, fadd_eval_45, fmul_eval_46, fmul_eval_47, fmul_eval_48,
      fmul_eval_49, fadd_eval_50, fmul_eval_51, fmul_eval_52, fmul_eval_53, fmul_eval_54,
      fadd_eval_55, fsub_eval_56, fdiv_eval_57, fsub_eval_58, fdiv_eval_59]

end undervaluation

/-! ## The worked scenario and the maxima in binary64 arithmetic -/

namespace undervaluation

open models binary64

/-- C9 as stated fails in binary64: on the worked scenario the sentiment
sub-score is 0.30000000000000004 and is reported as 30.000000000000004, not
0.30 and 30. -/
theorem scenario_sentiment_rounded64 :
    ∃ r, CalculateUndervaluation64 (some scenarioStock) 100 [scenarioStatement64]
        [scenarioTarget64] [scenarioSentiment64] = Except.ok r ∧
      sentimentScore64 [scenarioSentiment64] = 1351079888211149 / 4503599627370496 ∧
      sentimentScore64 [scenarioSentiment64] ≠ 0.30 ∧
      sentimentScore64 [scenarioSentiment64] ≠ lit 0.30 ∧
      r.SentimentScore = 8444249301319681 / 281474976710656 ∧
      r.SentimentScore ≠ 30 := by
  obtain ⟨s1, s2⟩ := scenarioSentiment64_conditions
  have hs := sentiment64_full scenarioSentiment64 [] s1 s2
  refine ⟨_, calculate64_some scenarioStock 100 (by norm_num) _ _ _, hs, ?_, ?_, ?_, ?_⟩
  · rw [hs]; norm_num
  · rw [hs, lit_0_30]; norm_num
  · simp only [hs, lit_0_3, lit_0_15, lit_0_2, lit_0_4, lit_0_1, lit_0_20, lit_0_10, lit_0_7, lit_0_5,
    lit_0_50, lit_0_30, lit_0_8, lit_4_2, lit_0_85, lit_0_70, lit_14_90, lit_16_39,
    fadd_eval_1, fadd_eval_2, fadd_eval_3, fadd_eval_4, fadd_eval_5, fadd_eval_6,
    fadd_eval_7, fadd_eval_8, fadd_eval_9, fadd_eval_10, fadd_eval_11, fadd_eval_12,
    fadd_eval_13, fadd_eval_14, fadd_eval_15, fadd_eval_16, fadd_eval_17, fadd_eval_18,
    fadd_eval_19, fadd_eval_20, fadd_eval_21, fadd_eval_22, fadd_eval_23, fadd_eval_24,
    fadd_eval_25, fmul_eval_26, fmul_eval_27, fmul_eval_28, fmul_eval_29, fmul_eval_30,
    fmul_eval_31, fmul_eval_32, fmul_eval_33, fmul_eval_34, fmul_eval_35, fmul_eval_36,
    fmul_eval_37, fmul_eval_38, fmul_eval_39, fmul_eval_40, fmul_eval_41, fmul_eval_42,
    fadd_eval_43, fmul_eval_44, fadd_eval_45, fmul_eval_46, fmul_eval_47, fmul_eval_48,
    fmul_eval_49, fadd_eval_50, fmul_eval_51, fmul_eval_52, fmul_eval_53, fmul_eval_54,
    fadd_eval_55, fsub_eval_56, fdiv_eval_57, fsub_eval_58, fdiv_eval_59]
  · simp only [hs, lit_0_3, lit_0_15, lit_0_2, lit_0_4, lit_0_1, lit_0_20, lit_0_10, lit_0_7, lit_0_5,
    lit_0_50, lit_0_30, lit_0_8, lit_4_2, lit_0_85, lit_0_70, lit_14_90, lit_16_39,
    fadd_eval_1, fadd_eval_2, fadd_eval_3, fadd_eval_4, fadd_eval_5, fadd_eval_6,
    fadd_eval_7, fadd_eval_8, fadd_eval_9, fadd_eval_10, fadd_eval_11, fadd_eval_12,
    fadd_eval_13, fadd_eval_14, fadd_eval_15, fadd_eval_16, fadd_eval_17, fadd_eval_18,
    fadd_eval_19, fadd_eval_20, fadd_eval_21, fadd_eval_22, fadd_eval_23, fadd_eval_24,
    fadd_eval_25, fmul_eval_26, fmul_eval_27, fmul_eval_28, fmul_eval_29, fmul_eval_30,
    fmul_eval_31, fmul_eval_32, fmul_eval_33, fmul_eval_34, fmul_eval_35, fmul_eval_36,
    fmul_eval_37, fmul_eval_38, fmul_eval_39, fmul_eval_40, fmul_eval_41, fmul_eval_42,
    fadd_eval_43, fmul_eval_44, fadd_eval_45, fmul_eval_46, fmul_eval_47, fmul_eval_48,
    fmul_eval_49, fadd_eval_50, fmul_eval_51, fmul_eval_52, fmul_eval_53, fmul_eval_54,
    fadd_eval_55, fsub_eval_56, fdiv_eval_57, fsub_eval_58, fdiv_eval_59]
    norm_num

/-- C9, amended: when the first statement has 0 < P/E < 10, EPS > 0,
ROIC > 0.15 and free cash flow > 0, the first target gives, in binary64, an
upside above 0.20 over a positive `latestPrice` with rating ≥ 4.0, and the
first sentiment sample has normalized value above 0.7 and absolute index above
100000, the call returns, in binary64, fundamental = 0.85 and analyst = 0.70
(the binary64 values of these constants), sentiment = 0.30000000000000004 (the
binary64 sum of 0.2 and 0.1), reported as 85, 70 and 30.000000000000004, and
composite = 69.5. -/
theorem full_marks_scenario64 (stock : Stock) (latestPrice : ℚ)
    (st : FinancialStatement) (fsRest : List FinancialStatement)
    (t : AnalystTarget) (atRest : List AnalystTarget)
    (x : SentimentScore) (ssRest : List SentimentScore)
    (hpe0 : 0 < st.PERatio) (hpe10 : st.PERatio < 10) (heps : st.EPS > 0)
    (hroic : st.ROIC > lit 0.15) (hfcf : st.FreeCashFlow > 0)
    (hprice : latestPrice > 0)
    (hup : fdiv (fsub t.ConsensusPriceTarget latestPrice) latestPrice > lit 0.20)
    (hrating : t.ConsensusRatingValue ≥ 4.0)
    (hsent : normalizedSentiment64 x > lit 0.7) (hvol : x.AbsoluteIndex > 100000) :
    ∃ r, CalculateUndervaluation64 (some stock) latestPrice (st :: fsRest)
        (t :: atRest) (x :: ssRest) = Except.ok r ∧
      fundamentalScore64 (st :: fsRest) = lit 0.85 ∧
      analystScore64 latestPrice (t :: atRest) = lit 0.70 ∧
      sentimentScore64 (x :: ssRest) = fadd (lit 0.2) (lit 0.1) ∧
      sentimentScore64 (x :: ssRest) = 1351079888211149 / 4503599627370496 ∧
      r.FundamentalScore = 85 ∧ r.AnalystScore = 70 ∧
      r.SentimentScore = 8444249301319681 / 281474976710656 ∧
      r.Score = 69.5 := by
  have hf := fundamental64_full st fsRest hpe0 hpe10 heps hroic hfcf
  have ha := analyst64_full latestPrice t atRest hprice hup hrating
  have hs := sentiment64_full x ssRest hsent hvol
  refine ⟨_, calculate64_some stock latestPrice (ne_of_gt hprice) _ _ _,
    ?_, ?_, ?_, hs, ?_, ?_, ?_, ?_⟩
  · rw [hf, lit_0_85]
  · rw [ha, lit_0_70]
  · rw [hs]
    simp only [lit_0_3, lit_0_15, lit_0_2, lit_0_4, lit_0_1, lit_0_20, lit_0_10, lit_0_7, lit_0_5,
      lit_0_50, lit_0_30, lit_0_8, lit_4_2, lit_0_85, lit_0_70, lit_14_90, lit_16_39,
      fadd_eval_1, fadd_eval_2, fadd_eval_3, fadd_eval_4, fadd_eval_5, fadd_eval_6,
      fadd_eval_7, fadd_eval_8, fadd_eval_9, fadd_eval_10, fadd_eval_11, fadd_eval_12,
      fadd_eval_13, fadd_eval_14, fadd_eval_15, fadd_eval_16, fadd_eval_17, fadd_eval_18,
      fadd_eval_19, fadd_eval_20, fadd_eval_21, fadd_eval_22, fadd_eval_23, fadd_eval_24,
      fadd_eval_25, fmul_eval_26, fmul_eval_27, fmul_eval_28, fmul_eval_29, fmul_eval_30,
      fmul_eval_31, fmul_eval_32, fmul_eval_33, fmul_eval_34, fmul_eval_35, fmul_eval_36,
      fmul_eval_37, fmul_eval_38, fmul_eval_39, fmul_eval_40, fmul_eval_41, fmul_eval_42,
      fadd_eval_43, fmul_eval_44, fadd_eval_45, fmul_eval_46, fmul_eval_47, fmul_eval_48,
      fmul_eval_49, fadd_eval_50, fmul_eval_51, fmul_eval_52, fmul_eval_53, fmul_eval_54,
      fadd_eval_55, fsub_eval_56, fdiv_eval_57, fsub_eval_58, fdiv_eval_59]
  · simp only [hf, lit_0_3, lit_0_15, lit_0_2, lit_0_4, lit_0_1, lit_0_20, lit_0_10, lit_0_7, lit_0_5,
    lit_0_50, lit_0_30, lit_0_8, lit_4_2, lit_0_85, lit_0_70, lit_14_90, lit_16_39,
    fadd_eval_1, fadd_eval_2, fadd_eval_3, fadd_eval_4, fadd_eval_5, fadd_eval_6,
    fadd_eval_7, fadd_eval_8, fadd_eval_9, fadd_eval_10, fadd_eval_11, fadd_eval_12,
    fadd_eval_13, fadd_eval_14, fadd_eval_15, fadd_eval_16, fadd_eval_17, fadd_eval_18,
    fadd_eval_19, fadd_eval_20, fadd_eval_21, fadd_eval_22, fadd_eval_23, fadd_eval_24,
    fadd_eval_25, fmul_eval_26, fmul_eval_27, fmul_eval_28, fmul_eval_29, fmul_eval_30,
    fmul_eval_31, fmul_eval_32, fmul_eval_33, fmul_eval_34, fmul_eval_35, fmul_eval_36,
    fmul_eval_37, fmul_eval_38, fmul_eval_39, fmul_eval_40, fmul_eval_41, fmul_eval_42,
    fadd_eval_43, fmul_eval_44, fadd_eval_45, fmul_eval_46, fmul_eval_47, fmul_eval_48,
    fmul_eval_49, fadd_eval_50, fmul_eval_51, fmul_eval_52, fmul_eval_53, fmul_eval_54,
    fadd_eval_55, fsub_eval_56, fdiv_eval_57, fsub_eval_58, fdiv_eval_59]
  · simp only [ha, lit_0_3, lit_0_15, lit_0_2, lit_0_4, lit_0_1, lit_0_20, lit_0_10, lit_0_7, lit_0_5,
    lit_0_50, lit_0_30, lit_0_8, lit_4_2, lit_0_85, lit_0_70, lit_14_90, lit_16_39,
    fadd_eval_1, fadd_eval_2, fadd_eval_3, fadd_eval_4, fadd_eval_5, fadd_eval_6,
    fadd_eval_7, fadd_eval_8, fadd_eval_9, fadd_eval_10, fadd_eval_11, fadd_eval_12,
    fadd_eval_13, fadd_eval_14, fadd_eval_15, fadd_eval_16, fadd_eval_17, fadd_eval_18,
    fadd_eval_19, fadd_eval_20, fadd_eval_21, fadd_eval_22, fadd_eval_23, fadd_eval_24,
    fadd_eval_25, fmul_eval_26, fmul_eval_27, fmul_eval_28, fmul_eval_29, fmul_eval_30,
    fmul_eval_31, fmul_eval_32, fmul_eval_33, fmul_eval_34, fmul_eval_35, fmul_eval_36,
    fmul_eval_37, fmul_eval_38, fmul_eval_39, fmul_eval_40, fmul_eval_41, fmul_eval_42,
    fadd_eval_43, fmul_eval_44, fadd_eval_45, fmul_eval_46, fmul_eval_47, fmul_eval_48,
    fmul_eval_49, fadd_eval_50, fmul_eval_51, fmul_eval_52, fmul_eval_53, fmul_eval_54,
    fadd_eval_55, fsub_eval_56, fdiv_eval_57, fsub_eval_58, fdiv_eval_59]
  · simp only [hs, lit_0_3, lit_0_15, lit_0_2, lit_0_4, lit_0_1, lit_0_20, lit_0_10, lit_0_7, lit_0_5,
    lit_0_50, lit_0_30, lit_0_8, lit_4_2, lit_0_85, lit_0_70, lit_14_90, lit_16_39,
    fadd_eval_1, fadd_eval_2, fadd_eval_3, fadd_eval_4, fadd_eval_5, fadd_eval_6,
    fadd_eval_7, fadd_eval_8, fadd_eval_9, fadd_eval_10, fadd_eval_11, fadd_eval_12,
    fadd_eval_13, fadd_eval_14, fadd_eval_15, fadd_eval_16, fadd_eval_17, fadd_eval_18,
    fadd_eval_19, fadd_eval_20, fadd_eval_21, fadd_eval_22, fadd_eval_23, fadd_eval_24,
    fadd_eval_25, fmul_eval_26, fmul_eval_27, fmul_eval_28, fmul_eval_29, fmul_eval_30,
    fmul_eval_31, fmul_eval_32, fmul_eval_33, fmul_eval_34, fmul_eval_35, fmul_eval_36,
    fmul_eval_37, fmul_eval_38, fmul_eval_39, fmul_eval_40, fmul_eval_41, fmul_eval_42,
    fadd_eval_43, fmul_eval_44, fadd_eval_45, fmul_eval_46, fmul_eval_47, fmul_eval_48,
    fmul_eval_49, fadd_eval_50, fmul_eval_51, fmul_eval_52, fmul_eval_53, fmul_eval_54,
    fadd_eval_55, fsub_eval_56, fdiv_eval_57, fsub_eval_58, fdiv_eval_59]
  · simp only [hf, ha, hs, compositeScore64, lit_0_3, lit_0_15, lit_0_2, lit_0_4, lit_0_1, lit_0_20, lit_0_10, lit_0_7, lit_0_5,
    lit_0_50, lit_0_30, lit_0_8, lit_4_2, lit_0_85, lit_0_70, lit_14_90, lit_16_39,
    fadd_eval_1, fadd_eval_2, fadd_eval_3, fadd_eval_4, fadd_eval_5, fadd_eval_6,
    fadd_eval_7, fadd_eval_8, fadd_eval_9, fadd_eval_10, fadd_eval_11, fadd_eval_12,
    fadd_eval_13, fadd_eval_14, fadd_eval_15, fadd_eval_16, fadd_eval_17, fadd_eval_18,
    fadd_eval_19, fadd_eval_20, fadd_eval_21, fadd_eval_22, fadd_eval_23, fadd_eval_24,
    fadd_eval_25, fmul_eval_26, fmul_eval_27, fmul_eval_28, fmul_eval_29, fmul_eval_30,
    fmul_eval_31, fmul_eval_32, fmul_eval_33, fmul_eval_34, fmul_eval_35, fmul_eval_36,
    fmul_eval_37, fmul_eval_38, fmul_eval_39, fmul_eval_40, fmul_eval_41, fmul_eval_42,
    fadd_eval_43, fmul_eval_44, fadd_eval_45, fmul_eval_46, fmul_eval_47, fmul_eval_48,
    fmul_eval_49, fadd_eval_50, fmul_eval_51, fmul_eval_52, fmul_eval_53, fmul_eval_54,
    fadd_eval_55, fsub_eval_56, fdiv_eval_57, fsub_eval_58, fdiv_eval_59]
    norm_num

/-- C9 amended, at the worked scenario: P/E 8, EPS 2.0, ROIC 0.20, FCF 500,
target 130, rating 4.2, latestPrice 100, sentiment 0.8, absolute index 150000,
the decimal inputs converted to binary64. -/
theorem full_marks_scenario64_witness :
    ∃ r, CalculateUndervaluation64 (some scenarioStock) 100 [scenarioStatement64]
        [scenarioTarget64] [scenarioSentiment64] = Except.ok r ∧
      fundamentalScore64 [scenarioStatement64] = lit 0.85 ∧
      analystScore64 100 [scenarioTarget64] = lit 0.70 ∧
      sentimentScore64 [scenarioSentiment64] = fadd (lit 0.2) (lit 0.1) ∧
      sentimentScore64 [scenarioSentiment64] = 1351079888211149 / 4503599627370496 ∧
      r.FundamentalScore = 85 ∧ r.AnalystScore = 70 ∧
      r.SentimentScore = 8444249301319681 / 281474976710656 ∧
      r.Score = 69.5 :=
  full_marks_scenario64 scenarioStock 100 scenarioStatement64 [] scenarioTarget64 []
    scenarioSentiment64 []
    scenarioStatement64_conditions.1 scenarioStatement64_conditions.2.1
    scenarioStatement64_conditions.2.2.1 scenarioStatement64_conditions.2.2.2.1
    scenarioStatement64_conditions.2.2.2.2 (by norm_num)
    scenarioTarget64_conditions.1 scenarioTarget64_conditions.2
    scenarioSentiment64_conditions.1 scenarioSentiment64_conditions.2

/-- C10 as stated fails in binary64: on the worked scenario the sentiment
sub-score exceeds 0.30 and its reported value exceeds 30. -/
theorem sentiment_exceeds_bound64 :
    sentimentScore64 [scenarioSentiment64] > 0.30 ∧
    ∃ r, CalculateUndervaluation64 (some scenarioStock) 100 [scenarioStatement64]
        [scenarioTarget64] [scenarioSentiment64] = Except.ok r ∧
      r.SentimentScore > 30 := by
  obtain ⟨s1, s2⟩ := scenarioSentiment64_conditions
  have hs := sentiment64_full scenarioSentiment64 [] s1 s2
  refine ⟨?_, _, calculate64_some scenarioStock 100 (by norm_num) _ _ _, ?_⟩
  · rw [hs]; norm_num
  · simp only [hs, lit_0_3, lit_0_15, lit_0_2, lit_0_4, lit_0_1, lit_0_20, lit_0_10, lit_0_7, lit_0_5,
    lit_0_50, lit_0_30, lit_0_8, lit_4_2, lit_0_85, lit_0_70, lit_14_90, lit_16_39,
    fadd_eval_1, fadd_eval_2, fadd_eval_3, fadd_eval_4, fadd_eval_5, fadd_eval_6,
    fadd_eval_7, fadd_eval_8, fadd_eval_9, fadd_eval_10, fadd_eval_11, fadd_eval_12,
    fadd_eval_13, fadd_eval_14, fadd_eval_15, fadd_eval_16, fadd_eval_17, fadd_eval_18,
    fadd_eval_19, fadd_eval_20, fadd_eval_21, fadd_eval_22, fadd_eval_23, fadd_eval_24,
    fadd_eval_25, fmul_eval_26, fmul_eval_27, fmul_eval_28, fmul_eval_29, fmul_eval_30,
    fmul_eval_31, fmul_eval_32, fmul_eval_33, fmul_eval_34, fmul_eval_35, fmul_eval_36,
    fmul_eval_37, fmul_eval_38, fmul_eval_39, fmul_eval_40, fmul_eval_41, fmul_eval_42,
    fadd_eval_43, fmul_eval_44, fadd_eval_45, fmul_eval_46, fmul_eval_47, fmul_eval_48,
    fmul_eval_49, fadd_eval_50, fmul_eval_51, fmul_eval_52, fmul_eval_53, fmul_eval_54,
    fadd_eval_55, fsub_eval_56, fdiv_eval_57, fsub_eval_58, fdiv_eval_59]
    norm_num

/-- C10, amended: on every successful call, in binary64, the unscaled
fundamental and analyst sub-scores are non-negative and at most 0.85 and 0.70
(reported at most 85 and 70), and the sentiment sub-score is non-negative and
at most 0.30000000000000004, the binary64 sum of 0.2 and 0.1 (reported at most
30.000000000000004); each maximum is attained: the worked scenario reaches all
three at once. -/
theorem subscore_maxima64 :
    (∀ (stock : Option Stock) (latestPrice : ℚ) (fs : List FinancialStatement)
      (ats : List AnalystTarget) (ss : List SentimentScore)
      (r : UndervaluationScore),
      CalculateUndervaluation64 stock latestPrice fs ats ss = Except.ok r →
        (0 ≤ fundamentalScore64 fs ∧ fundamentalScore64 fs ≤ 0.85) ∧
        (0 ≤ analystScore64 latestPrice ats ∧ analystScore64 latestPrice ats ≤ 0.70) ∧
        (0 ≤ sentimentScore64 ss ∧
          sentimentScore64 ss ≤ 1351079888211149 / 4503599627370496) ∧
        (0 ≤ r.FundamentalScore ∧ r.FundamentalScore ≤ 85) ∧
        (0 ≤ r.AnalystScore ∧ r.AnalystScore ≤ 70) ∧
        (0 ≤ r.SentimentScore ∧
          r.SentimentScore ≤ 8444249301319681 / 281474976710656)) ∧
    (∃ r, CalculateUndervaluation64 (some scenarioStock) 100 [scenarioStatement64]
        [scenarioTarget64] [scenarioSentiment64] = Except.ok r ∧
      fundamentalScore64 [scenarioStatement64] = lit 0.85 ∧
      analystScore64 100 [scenarioTarget64] = lit 0.70 ∧
      sentimentScore64 [scenarioSentiment64] = 1351079888211149 / 4503599627370496 ∧
      r.FundamentalScore = 85 ∧ r.AnalystScore = 70 ∧
      r.SentimentScore = 8444249301319681 / 281474976710656) := by
  constructor
  · intro stock latestPrice fs ats ss r h
    obtain ⟨st, -, -, rfl⟩ := calculate64_ok_inv h
    exact ⟨(fundamentalScore64_bounds fs).1, (analystScore64_bounds latestPrice ats).1,
      (sentimentScore64_bounds ss).1, (fundamentalScore64_bounds fs).2,
      (analystScore64_bounds latestPrice ats).2, (sentimentScore64_bounds ss).2⟩
  · obtain ⟨c1, c2, c3, c4, c5⟩ := scenarioStatement64_conditions
    obtain ⟨t1, t2⟩ := scenarioTarget64_conditions
    obtain ⟨s1, s2⟩ := scenarioSentiment64_conditions
    have hf := fundamental64_full scenarioStatement64 [] c1 c2 c3 c4 c5
    have ha := analyst64_full 100 scenarioTarget64 [] (by norm_num) t1 t2
    have hs := sentiment64_full scenarioSentiment64 [] s1 s2
    refine ⟨_, calculate64_some scenarioStock 100 (by norm_num) _ _ _,
      ?_, ?_, hs, ?_, ?_, ?_⟩
    · rw [hf, lit_0_85]
    · rw [ha, lit_0_70]
    · simp only [hf, lit_0_3, lit_0_15, lit_0_2, lit_0_4, lit_0_1, lit_0_20, lit_0_10, lit_0_7, lit_0_5,
      lit_0_50, lit_0_30, lit_0_8, lit_4_2, lit_0_85, lit_0_70, lit_14_90, lit_16_39,
      fadd_eval_1, fadd_eval_2, fadd_eval_3, fadd_eval_4, fadd_eval_5, fadd_eval_6,
      fadd_eval_7, fadd_eval_8, fadd_eval_9, fadd_eval_10, fadd_eval_11, fadd_eval_12,
      fadd_eval_13, fadd_eval_14, fadd_eval_15, fadd_eval_16, fadd_eval_17, fadd_eval_18,
      fadd_eval_19, fadd_eval_20, fadd_eval_21, fadd_eval_22, fadd_eval_23, fadd_eval_24,
      fadd_eval_25, fmul_eval_26, fmul_eval_27, fmul_eval_28, fmul_eval_29, fmul_eval_30,
      fmul_eval_31, fmul_eval_32, fmul_eval_33, fmul_eval_34, fmul_eval_35, fmul_eval_36,
      fmul_eval_37, fmul_eval_38, fmul_eval_39, fmul_eval_40, fmul_eval_41, fmul_eval_42,
      fadd_eval_43, fmul_eval_44, fadd_eval_45, fmul_eval_46, fmul_eval_47, fmul_eval_48,
      fmul_eval_49, fadd_eval_50, fmul_eval_51, fmul_eval_52, fmul_eval_53, fmul_eval_54,
      fadd_eval_55, fsub_eval_56, fdiv_eval_57, fsub_eval_58, fdiv_eval_59]
    · simp only [ha, lit_0_3, lit_0_15, lit_0_2, lit_0_4, lit_0_1, lit_0_20, lit_0_10, lit_0_7, lit_0_5,
      lit_0_50, lit_0_30, lit_0_8, lit_4_2, lit_0_85, lit_0_70, lit_14_90, lit_16_39,
      fadd_eval_1, fadd_eval_2, fadd_eval_3, fadd_eval_4, fadd_eval_5, fadd_eval_6,
      fadd_eval_7, fadd_eval_8, fadd_eval_9, fadd_eval_10, fadd_eval_11, fadd_eval_12,
      fadd_eval_13, fadd_eval_14, fadd_eval_15, fadd_eval_16, fadd_eval_17, fadd_eval_18,
      fadd_eval_19, fadd_eval_20, fadd_eval_21, fadd_eval_22, fadd_eval_23, fadd_eval_24,
      fadd_eval_25, fmul_eval_26, fmul_eval_27, fmul_eval_28, fmul_eval_29, fmul_eval_30,
      fmul_eval_31, fmul_eval_32, fmul_eval_33, fmul_eval_34, fmul_eval_35, fmul_eval_36,
      fmul_eval_37, fmul_eval_38, fmul_eval_39, fmul_eval_40, fmul_eval_41, fmul_eval_42,
      fadd_eval_43, fmul_eval_44, fadd_eval_45, fmul_eval_46, fmul_eval_47, fmul_eval_48,
      fmul_eval_49, fadd_eval_50, fmul_eval_51, fmul_eval_52, fmul_eval_53, fmul_eval_54,
      fadd_eval_55, fsub_eval_56, fdiv_eval_57, fsub_eval_58, fdiv_eval_59]
    · simp only [hs, lit_0_3, lit_0_15, lit_0_2, lit_0_4, lit_0_1, lit_0_20, lit_0_10, lit_0_7, lit_0_5,
      lit_0_50, lit_0_30, lit_0_8, lit_4_2, lit_0_85, lit_0_70, lit_14_90, lit_16_39,
      fadd_eval_1, fadd_eval_2, fadd_eval_3, fadd_eval_4, fadd_eval_5, fadd_eval_6,
      fadd_eval_7, fadd_eval_8, fadd_eval_9, fadd_eval_10, fadd_eval_11, fadd_eval_12,
      fadd_eval_13, fadd_eval_14, fadd_eval_15, fadd_eval_16, fadd_eval_17, fadd_eval_18,
      fadd_eval_19, fadd_eval_20, fadd_eval_21, fadd_eval_22, fadd_eval_23, fadd_eval_24,
      fadd_eval_25, fmul_eval_26, fmul_eval_27, fmul_eval_28, fmul_eval_29, fmul_eval_30,
      fmul_eval_31, fmul_eval_32, fmul_eval_33, fmul_eval_34, fmul_eval_35, fmul_eval_36,
      fmul_eval_37, fmul_eval_38, fmul_eval_39, fmul_eval_40, fmul_eval_41, fmul_eval_42,
      fadd_eval_43, fmul_eval_44, fadd_eval_45, fmul_eval_46, fmul_eval_47, fmul_eval_48,
      fmul_eval_49, fadd_eval_50, fmul_eval_51, fmul_eval_52, fmul_eval_53, fmul_eval_54,
      fadd_eval_55, fsub_eval_56, fdiv_eval_57, fsub_eval_58, fdiv_eval_59]

/-- C10 amended, at a call with a negative price and partial evidence: the
call succeeds and its three reported sub-scores are within their bounds. -/
theorem subscore_maxima64_witness :
    ∃ r, CalculateUndervaluation64 (some scenarioStock) (-100)
        [mkStatement 10 2 (lit 0.15) 500] [scenarioTarget64]
        [mkSentiment (-80) 150000] = Except.ok r ∧
      (0 ≤ r.FundamentalScore ∧ r.FundamentalScore ≤ 85) ∧
      (0 ≤ r.AnalystScore ∧ r.AnalystScore ≤ 70) ∧
      (0 ≤ r.SentimentScore ∧ r.SentimentScore ≤ 8444249301319681 / 281474976710656) :=
  ⟨_, calculate64_some scenarioStock (-100) (by norm_num) _ _ _,
    (subscore_maxima64.1 _ _ _ _ _ _
      (calculate64_some scenarioStock (-100) (by norm_num) _ _ _)).2.2.2⟩

end undervaluation

/-! ## The analyst block in binary64 arithmetic -/

namespace undervaluation

open models binary64

/-- With a positive target and a negative price the binary64 upside is not
positive. -/
theorem upside64_nonpos_of_neg_price (target latestPrice : ℚ) (ht : 0 < target)
    (hp : latestPrice < 0) : upside64 target latestPrice ≤ 0 := by
  have h1 : 0 ≤ fsub target latestPrice := round64_nonneg _ (by linarith)
  have h2 : fsub target latestPrice / latestPrice ≤ 0 :=
    div_nonpos_of_nonneg_of_nonpos h1 hp.le
  exact round64_nonpos _ h2

/-- The upside step of the analyst block in binary64 gives the upside
contribution as the claim words it, at every non-zero price. -/
theorem upside_step64_eq (latestPrice target : ℚ) (hp : latestPrice ≠ 0) :
    (if target > 0 ∧ latestPrice > 0 then
      (if upside64 target latestPrice > lit 0.20 then fadd 0.0 (lit 0.4)
       else if upside64 target latestPrice > lit 0.10 then fadd 0.0 (lit 0.2)
       else 0.0)
     else 0.0) = specUpsideContribution64 latestPrice target := by
  unfold specUpsideContribution64
  by_cases ht : target > 0
  · rcases lt_or_gt_of_ne hp with hneg | hpos
    · have hu := upside64_nonpos_of_neg_price target latestPrice ht hneg
      have h20 : (0 : ℚ) ≤ lit 0.20 := round64_nonneg _ (by norm_num)
      have h10 : (0 : ℚ) ≤ lit 0.10 := round64_nonneg _ (by norm_num)
      have h1 : ¬ (latestPrice > 0) := not_lt.mpr hneg.le
      have h2 : ¬ (upside64 target latestPrice > lit 0.20) := by
        intro hc; linarith
      have h3 : ¬ (upside64 target latestPrice > lit 0.10) := by
        intro hc; linarith
      simp only [ht, h1, h2, h3, and_false, if_false, if_true, zero_lit]
    · simp only [ht, hpos, and_self, if_true]
      split_ifs <;> simp only [zero_lit, lit_0_3, lit_0_15, lit_0_2, lit_0_4, lit_0_1, lit_0_20, lit_0_10, lit_0_7,
        lit_0_5, lit_0_50, lit_0_30, lit_0_8, lit_4_2, lit_0_85, lit_0_70, lit_14_90,
        lit_16_39, fadd_eval_1, fadd_eval_2, fadd_eval_3, fadd_eval_4, fadd_eval_5,
        fadd_eval_6, fadd_eval_7, fadd_eval_8, fadd_eval_9, fadd_eval_10, fadd_eval_11,
        fadd_eval_12, fadd_eval_13, fadd_eval_14, fadd_eval_15, fadd_eval_16,
        fadd_eval_17, fadd_eval_18, fadd_eval_19, fadd_eval_20, fadd_eval_21,
        fadd_eval_22, fadd_eval_23, fadd_eval_24, fadd_eval_25, fmul_eval_26,
        fmul_eval_27, fmul_eval_28, fmul_eval_29, fmul_eval_30, fmul_eval_31,
        fmul_eval_32, fmul_eval_33, fmul_eval_34, fmul_eval_35, fmul_eval_36,
        fmul_eval_37, fmul_eval_38, fmul_eval_39, fmul_eval_40, fmul_eval_41,
        fmul_eval_42, fadd_eval_43, fmul_eval_44, fadd_eval_45, fmul_eval_46,
        fmul_eval_47, fmul_eval_48, fmul_eval_49, fadd_eval_50, fmul_eval_51,
        fmul_eval_52, fmul_eval_53, fmul_eval_54, fadd_eval_55, fsub_eval_56,
        fdiv_eval_57, fsub_eval_58, fdiv_eval_59]
  · simp only [ht, false_and, if_false, zero_lit]

/-- The upside contribution in binary64 is 0 or the binary64 value of 0.4 or
of 0.2. -/
theorem specUpsideContribution64_cases (latestPrice target : ℚ) :
    specUpsideContribution64 latestPrice target = 0 ∨
    specUpsideContribution64 latestPrice target = 3602879701896397 / 9007199254740992 ∨
    specUpsideContribution64 latestPrice target = 3602879701896397 / 18014398509481984 := by
  unfold specUpsideContribution64
  split_ifs
  · right; left; exact lit_0_4
  · right; right; exact lit_0_2
  · left; rfl
  · left; rfl

/-- The analyst block in binary64 is the binary64 sum of the upside
contribution and the rating contribution, at every non-zero price. -/
theorem analystScore64_cons (latestPrice : ℚ) (hp : latestPrice ≠ 0)
    (t : AnalystTarget) (rest : List AnalystTarget) :
    analystScore64 latestPrice (t :: rest) =
      fadd (specUpsideContribution64 latestPrice t.ConsensusPriceTarget)
        (specRatingContribution64 t.ConsensusRatingValue) := by
  simp only [analystScore64]
  rw [upside_step64_eq latestPrice t.ConsensusPriceTarget hp]
  unfold specRatingContribution64
  split_ifs
  · rfl
  · rfl
  · rcases specUpsideContribution64_cases latestPrice t.ConsensusPriceTarget with
      h | h | h <;> rw [h] <;> simp only [lit_0_3, lit_0_15, lit_0_2, lit_0_4, lit_0_1, lit_0_20, lit_0_10, lit_0_7,
        lit_0_5, lit_0_50, lit_0_30, lit_0_8, lit_4_2, lit_0_85, lit_0_70, lit_14_90,
        lit_16_39, fadd_eval_1, fadd_eval_2, fadd_eval_3, fadd_eval_4, fadd_eval_5,
        fadd_eval_6, fadd_eval_7, fadd_eval_8, fadd_eval_9, fadd_eval_10, fadd_eval_11,
        fadd_eval_12, fadd_eval_13, fadd_eval_14, fadd_eval_15, fadd_eval_16,
        fadd_eval_17, fadd_eval_18, fadd_eval_19, fadd_eval_20, fadd_eval_21,
        fadd_eval_22, fadd_eval_23, fadd_eval_24, fadd_eval_25, fmul_eval_26,
        fmul_eval_27, fmul_eval_28, fmul_eval_29, fmul_eval_30, fmul_eval_31,
        fmul_eval_32, fmul_eval_33, fmul_eval_34, fmul_eval_35, fmul_eval_36,
        fmul_eval_37, fmul_eval_38, fmul_eval_39, fmul_eval_40, fmul_eval_41,
        fmul_eval_42, fadd_eval_43, fmul_eval_44, fadd_eval_45, fmul_eval_46,
        fmul_eval_47, fmul_eval_48, fmul_eval_49, fadd_eval_50, fmul_eval_51,
        fmul_eval_52, fmul_eval_53, fmul_eval_54, fadd_eval_55, fsub_eval_56,
        fdiv_eval_57, fsub_eval_58, fdiv_eval_59]

/-- C6 as stated fails in binary64: at the binary64 values of the price 14.90
and of the target 16.39 (rating 0) the code computes an upside of exactly the
binary64 value of 0.10, which is not above it, and awards 0, while the exact
quotient `(target - price) / price` of the same two values is above 0.10, the
decimal as well as its binary64 value, for which the claim awards 0.20. -/
theorem upside_tier_differs64 :
    ∃ r, CalculateUndervaluation64 (some scenarioStock) (lit 14.90) []
        [mkTarget (lit 16.39) 0] [] = Except.ok r ∧
      upside64 (lit 16.39) (lit 14.90) = lit 0.10 ∧
      analystScore64 (lit 14.90) [mkTarget (lit 16.39) 0] = 0 ∧
      r.AnalystScore = 0 ∧
      (lit 16.39 - lit 14.90) / lit 14.90 > 0.10 ∧
      (lit 16.39 - lit 14.90) / lit 14.90 > lit 0.10 ∧
      specUpsideContribution (lit 14.90) (lit 16.39) + specRatingContribution 0 = 0.20 := by
  have hup : upside64 (lit 16.39) (lit 14.90) = lit 0.10 := by
    simp only [upside64, lit_0_3, lit_0_15, lit_0_2, lit_0_4, lit_0_1, lit_0_20, lit_0_10, lit_0_7, lit_0_5,
      lit_0_50, lit_0_30, lit_0_8, lit_4_2, lit_0_85, lit_0_70, lit_14_90, lit_16_39,
      fadd_eval_1, fadd_eval_2, fadd_eval_3, fadd_eval_4, fadd_eval_5, fadd_eval_6,
      fadd_eval_7, fadd_eval_8, fadd_eval_9, fadd_eval_10, fadd_eval_11, fadd_eval_12,
      fadd_eval_13, fadd_eval_14, fadd_eval_15, fadd_eval_16, fadd_eval_17, fadd_eval_18,
      fadd_eval_19, fadd_eval_20, fadd_eval_21, fadd_eval_22, fadd_eval_23, fadd_eval_24,
      fadd_eval_25, fmul_eval_26, fmul_eval_27, fmul_eval_28, fmul_eval_29, fmul_eval_30,
      fmul_eval_31, fmul_eval_32, fmul_eval_33, fmul_eval_34, fmul_eval_35, fmul_eval_36,
      fmul_eval_37, fmul_eval_38, fmul_eval_39, fmul_eval_40, fmul_eval_41, fmul_eval_42,
      fadd_eval_43, fmul_eval_44, fadd_eval_45, fmul_eval_46, fmul_eval_47, fmul_eval_48,
      fmul_eval_49, fadd_eval_50, fmul_eval_51, fmul_eval_52, fmul_eval_53, fmul_eval_54,
      fadd_eval_55, fsub_eval_56, fdiv_eval_57, fsub_eval_58, fdiv_eval_59]
  have ha : analystScore64 (lit 14.90) [mkTarget (lit 16.39) 0] = 0 := by
    simp only [analystScore64, mkTarget, hup]
    simp only [zero_lit, lit_0_3, lit_0_15, lit_0_2, lit_0_4, lit_0_1, lit_0_20, lit_0_10, lit_0_7, lit_0_5,
      lit_0_50, lit_0_30, lit_0_8, lit_4_2, lit_0_85, lit_0_70, lit_14_90, lit_16_39,
      fadd_eval_1, fadd_eval_2, fadd_eval_3, fadd_eval_4, fadd_eval_5, fadd_eval_6,
      fadd_eval_7, fadd_eval_8, fadd_eval_9, fadd_eval_10, fadd_eval_11, fadd_eval_12,
      fadd_eval_13, fadd_eval_14, fadd_eval_15, fadd_eval_16, fadd_eval_17, fadd_eval_18,
      fadd_eval_19, fadd_eval_20, fadd_eval_21, fadd_eval_22, fadd_eval_23, fadd_eval_24,
      fadd_eval_25, fmul_eval_26, fmul_eval_27, fmul_eval_28, fmul_eval_29, fmul_eval_30,
      fmul_eval_31, fmul_eval_32, fmul_eval_33, fmul_eval_34, fmul_eval_35, fmul_eval_36,
      fmul_eval_37, fmul_eval_38, fmul_eval_39, fmul_eval_40, fmul_eval_41, fmul_eval_42,
      fadd_eval_43, fmul_eval_44, fadd_eval_45, fmul_eval_46, fmul_eval_47, fmul_eval_48,
      fmul_eval_49, fadd_eval_50, fmul_eval_51, fmul_eval_52, fmul_eval_53, fmul_eval_54,
      fadd_eval_55, fsub_eval_56, fdiv_eval_57, fsub_eval_58, fdiv_eval_59]
    norm_num
  have hp : lit 14.90 ≠ 0 := by
    rw [lit_14_90]; norm_num
  refine ⟨_, calculate64_some scenarioStock (lit 14.90) hp _ _ _, hup, ha, ?_, ?_, ?_, ?_⟩
  · show fmul (analystScore64 (lit 14.90) [mkTarget (lit 16.39) 0]) 100 = 0
    rw [ha]
    simp only [fmul, zero_mul, round64_zero]
  · simp only [lit_0_3, lit_0_15, lit_0_2, lit_0_4, lit_0_1, lit_0_20, lit_0_10, lit_0_7, lit_0_5,
    lit_0_50, lit_0_30, lit_0_8, lit_4_2, lit_0_85, lit_0_70, lit_14_90, lit_16_39,
    fadd_eval_1, fadd_eval_2, fadd_eval_3, fadd_eval_4, fadd_eval_5, fadd_eval_6,
    fadd_eval_7, fadd_eval_8, fadd_eval_9, fadd_eval_10, fadd_eval_11, fadd_eval_12,
    fadd_eval_13, fadd_eval_14, fadd_eval_15, fadd_eval_16, fadd_eval_17, fadd_eval_18,
    fadd_eval_19, fadd_eval_20, fadd_eval_21, fadd_eval_22, fadd_eval_23, fadd_eval_24,
    fadd_eval_25, fmul_eval_26, fmul_eval_27, fmul_eval_28, fmul_eval_29, fmul_eval_30,
    fmul_eval_31, fmul_eval_32, fmul_eval_33, fmul_eval_34, fmul_eval_35, fmul_eval_36,
    fmul_eval_37, fmul_eval_38, fmul_eval_39, fmul_eval_40, fmul_eval_41, fmul_eval_42,
    fadd_eval_43, fmul_eval_44, fadd_eval_45, fmul_eval_46, fmul_eval_47, fmul_eval_48,
    fmul_eval_49, fadd_eval_50, fmul_eval_51, fmul_eval_52, fmul_eval_53, fmul_eval_54,
    fadd_eval_55, fsub_eval_56, fdiv_eval_57, fsub_eval_58, fdiv_eval_59]
    norm_num
  · simp only [lit_0_3, lit_0_15, lit_0_2, lit_0_4, lit_0_1, lit_0_20, lit_0_10, lit_0_7, lit_0_5,
    lit_0_50, lit_0_30, lit_0_8, lit_4_2, lit_0_85, lit_0_70, lit_14_90, lit_16_39,
    fadd_eval_1, fadd_eval_2, fadd_eval_3, fadd_eval_4, fadd_eval_5, fadd_eval_6,
    fadd_eval_7, fadd_eval_8, fadd_eval_9, fadd_eval_10, fadd_eval_11, fadd_eval_12,
    fadd_eval_13, fadd_eval_14, fadd_eval_15, fadd_eval_16, fadd_eval_17, fadd_eval_18,
    fadd_eval_19, fadd_eval_20, fadd_eval_21, fadd_eval_22, fadd_eval_23, fadd_eval_24,
    fadd_eval_25, fmul_eval_26, fmul_eval_27, fmul_eval_28, fmul_eval_29, fmul_eval_30,
    fmul_eval_31, fmul_eval_32, fmul_eval_33, fmul_eval_34, fmul_eval_35, fmul_eval_36,
    fmul_eval_37, fmul_eval_38, fmul_eval_39, fmul_eval_40, fmul_eval_41, fmul_eval_42,
    fadd_eval_43, fmul_eval_44, fadd_eval_45, fmul_eval_46, fmul_eval_47, fmul_eval_48,
    fmul_eval_49, fadd_eval_50, fmul_eval_51, fmul_eval_52, fmul_eval_53, fmul_eval_54,
    fadd_eval_55, fsub_eval_56, fdiv_eval_57, fsub_eval_58, fdiv_eval_59]
    norm_num
  · simp only [specUpsideContribution, specUpside, specRatingContribution, lit_0_3, lit_0_15, lit_0_2, lit_0_4, lit_0_1, lit_0_20, lit_0_10, lit_0_7, lit_0_5,
    lit_0_50, lit_0_30, lit_0_8, lit_4_2, lit_0_85, lit_0_70, lit_14_90, lit_16_39,
    fadd_eval_1, fadd_eval_2, fadd_eval_3, fadd_eval_4, fadd_eval_5, fadd_eval_6,
    fadd_eval_7, fadd_eval_8, fadd_eval_9, fadd_eval_10, fadd_eval_11, fadd_eval_12,
    fadd_eval_13, fadd_eval_14, fadd_eval_15, fadd_eval_16, fadd_eval_17, fadd_eval_18,
    fadd_eval_19, fadd_eval_20, fadd_eval_21, fadd_eval_22, fadd_eval_23, fadd_eval_24,
    fadd_eval_25, fmul_eval_26, fmul_eval_27, fmul_eval_28, fmul_eval_29, fmul_eval_30,
    fmul_eval_31, fmul_eval_32, fmul_eval_33, fmul_eval_34, fmul_eval_35, fmul_eval_36,
    fmul_eval_37, fmul_eval_38, fmul_eval_39, fmul_eval_40, fmul_eval_41, fmul_eval_42,
    fadd_eval_43, fmul_eval_44, fadd_eval_45, fmul_eval_46, fmul_eval_47, fmul_eval_48,
    fmul_eval_49, fadd_eval_50, fmul_eval_51, fmul_eval_52, fmul_eval_53, fmul_eval_54,
    fadd_eval_55, fsub_eval_56, fdiv_eval_57, fsub_eval_58, fdiv_eval_59]
    norm_num

/-- C6, amended: on every successful call with a non-empty target collection
whose first element is `t`, in binary64 arithmetic the unscaled analyst
sub-score is the sum `u + r`, where `u` is taken from
`upside = (t.ConsensusPriceTarget - latestPrice) / latestPrice` only when the
target is positive (0.40 if upside > 0.20, else 0.20 if upside > 0.10, else 0;
0 when the target is not positive) and `r` is 0.30 for a rating value ≥ 4.0,
else 0.15 for ≥ 3.0, else 0; the subtraction, the division and the sum are
rounded to binary64 and the constants are their binary64 values.  This holds
at every price the function accepts, negative ones included. -/
theorem analyst_subscore64 (stock : Option Stock) (latestPrice : ℚ)
    (fs : List FinancialStatement) (t : AnalystTarget) (rest : List AnalystTarget)
    (ss : List SentimentScore) (r : UndervaluationScore)
    (h : CalculateUndervaluation64 stock latestPrice fs (t :: rest) ss = Except.ok r) :
    analystScore64 latestPrice (t :: rest) =
      fadd
        (if t.ConsensusPriceTarget > 0 then
          (if fdiv (fsub t.ConsensusPriceTarget latestPrice) latestPrice > lit 0.20
            then lit 0.4
           else if fdiv (fsub t.ConsensusPriceTarget latestPrice) latestPrice > lit 0.10
            then lit 0.2
           else 0)
         else 0)
        (if t.ConsensusRatingValue ≥ 4.0 then lit 0.3
         else if t.ConsensusRatingValue ≥ 3.0 then lit 0.15 else 0) ∧
    r.AnalystScore =
      fmul (fadd (specUpsideContribution64 latestPrice t.ConsensusPriceTarget)
        (specRatingContribution64 t.ConsensusRatingValue)) 100 := by
  obtain ⟨s0, -, hp, rfl⟩ := calculate64_ok_inv h
  rw [analystScore64_cons latestPrice hp]
  exact ⟨rfl, rfl⟩

/-- C6 amended, at a negative price: target 130, rating 4.2, price -100.  The
upside is not positive, so `u = 0` and the sub-score is the binary64 value of
0.3, reported as 30. -/
theorem analyst_subscore64_witness :
    ∃ r, CalculateUndervaluation64 (some scenarioStock) (-100) []
        [scenarioTarget64] [] = Except.ok r ∧
      analystScore64 (-100) [scenarioTarget64] = lit 0.3 ∧ r.AnalystScore = 30 := by
  have hok := calculate64_some scenarioStock (-100) (by norm_num)
    [] [scenarioTarget64] []
  have key := analyst_subscore64 _ _ _ _ _ _ _ hok
  have hu : specUpsideContribution64 (-100) scenarioTarget64.ConsensusPriceTarget = 0 := by
    have hle := upside64_nonpos_of_neg_price scenarioTarget64.ConsensusPriceTarget (-100)
      (by norm_num [scenarioTarget64, mkTarget]) (by norm_num)
    have h20 : (0 : ℚ) ≤ lit 0.20 := round64_nonneg _ (by norm_num)
    have h10 : (0 : ℚ) ≤ lit 0.10 := round64_nonneg _ (by norm_num)
    unfold specUpsideContribution64
    split_ifs <;> first | rfl | linarith
  have hr : specRatingContribution64 scenarioTarget64.ConsensusRatingValue = lit 0.3 := by
    have h4 : scenarioTarget64.ConsensusRatingValue ≥ 4.0 :=
      scenarioTarget64_conditions.2
    simp only [specRatingContribution64, h4, if_true]
  have ha : analystScore64 (-100) [scenarioTarget64] = lit 0.3 := by
    rw [analystScore64_cons (-100) (by norm_num), hu, hr]
    simp only [lit_0_3, lit_0_15, lit_0_2, lit_0_4, lit_0_1, lit_0_20, lit_0_10, lit_0_7, lit_0_5,
      lit_0_50, lit_0_30, lit_0_8, lit_4_2, lit_0_85, lit_0_70, lit_14_90, lit_16_39,
      fadd_eval_1, fadd_eval_2, fadd_eval_3, fadd_eval_4, fadd_eval_5, fadd_eval_6,
      fadd_eval_7, fadd_eval_8, fadd_eval_9, fadd_eval_10, fadd_eval_11, fadd_eval_12,
      fadd_eval_13, fadd_eval_14, fadd_eval_15, fadd_eval_16, fadd_eval_17, fadd_eval_18,
      fadd_eval_19, fadd_eval_20, fadd_eval_21, fadd_eval_22, fadd_eval_23, fadd_eval_24,
      fadd_eval_25, fmul_eval_26, fmul_eval_27, fmul_eval_28, fmul_eval_29, fmul_eval_30,
      fmul_eval_31, fmul_eval_32, fmul_eval_33, fmul_eval_34, fmul_eval_35, fmul_eval_36,
      fmul_eval_37, fmul_eval_38, fmul_eval_39, fmul_eval_40, fmul_eval_41, fmul_eval_42,
      fadd_eval_43, fmul_eval_44, fadd_eval_45, fmul_eval_46, fmul_eval_47, fmul_eval_48,
      fmul_eval_49, fadd_eval_50, fmul_eval_51, fmul_eval_52, fmul_eval_53, fmul_eval_54,
      fadd_eval_55, fsub_eval_56, fdiv_eval_57, fsub_eval_58, fdiv_eval_59]
  refine ⟨_, hok, ha, ?_⟩
  rw [key.2, hu, hr]
  simp only [lit_0_3, lit_0_15, lit_0_2, lit_0_4, lit_0_1, lit_0_20, lit_0_10, lit_0_7, lit_0_5,
    lit_0_50, lit_0_30, lit_0_8, lit_4_2, lit_0_85, lit_0_70, lit_14_90, lit_16_39,
    fadd_eval_1, fadd_eval_2, fadd_eval_3, fadd_eval_4, fadd_eval_5, fadd_eval_6,
    fadd_eval_7, fadd_eval_8, fadd_eval_9, fadd_eval_10, fadd_eval_11, fadd_eval_12,
    fadd_eval_13, fadd_eval_14, fadd_eval_15, fadd_eval_16, fadd_eval_17, fadd_eval_18,
    fadd_eval_19, fadd_eval_20, fadd_eval_21, fadd_eval_22, fadd_eval_23, fadd_eval_24,
    fadd_eval_25, fmul_eval_26, fmul_eval_27, fmul_eval_28, fmul_eval_29, fmul_eval_30,
    fmul_eval_31, fmul_eval_32, fmul_eval_33, fmul_eval_34, fmul_eval_35, fmul_eval_36,
    fmul_eval_37, fmul_eval_38, fmul_eval_39, fmul_eval_40, fmul_eval_41, fmul_eval_42,
    fadd_eval_43, fmul_eval_44, fadd_eval_45, fmul_eval_46, fmul_eval_47, fmul_eval_48,
    fmul_eval_49, fadd_eval_50, fmul_eval_51, fmul_eval_52, fmul_eval_53, fmul_eval_54,
    fadd_eval_55, fsub_eval_56, fdiv_eval_57, fsub_eval_58, fdiv_eval_59]

end undervaluation
